import Mathlib

/-!
# ChilliSource forward render pass compiler and render command processor

A shallow embedding of `Source/ChilliSource/Rendering/Base/ForwardRenderPassCompiler.cpp`,
of `Source/CSBackend/Rendering/OpenGL/Base/RenderCommandProcessor.cpp` and of the sorts and
the camera culling of `Source/ChilliSource/Rendering/Base/Renderer.cpp`, and theorems
about them.

Conventions of the embedding:

* `std::vector<T>` is `List T`; an indexed write `v[i] = x` is `writeSlot`, which
  fails when `i` is not below the length of the vector.
* `u32` values are natural numbers reduced modulo `2 ^ 32`.
* `CS_ASSERT` / `CS_LOG_FATAL` end the computation with a value of `Fatal`.
* `f32` geometry is kept out of the embedding: matrices are symbolic, the frustum
  test and the camera depth are fields of `RenderMaths`, spheres have integer
  coordinates.
* A task of the task scheduler is a function on the vector it captured by
  reference; `ProcessChildTasks` runs the tasks one after the other.
* `std::sort` is an argument of the sorts of `Renderer.cpp`; the `std::sort` of libstdc++
  is embedded as `libstdcxx_sort`.
-/

set_option autoImplicit false

namespace ChilliSource

/-! ## Machine integers and fatal errors -/

/-- The cast to `u32`: reduction modulo `2 ^ 32`. -/
def u32 (n : Nat) : Nat := n % 4294967296

/-- The ways in which the compiler can stop: one constructor per `CS_ASSERT` of the
file, plus the write past the end of a vector. -/
inductive Fatal where
  /-- `CS_ASSERT(...->Contains(renderMaterial), "Invalid render material.")` -/
  | invalidRenderMaterial
  /-- `CS_ASSERT(visibleUIRenderObjects.size() == uiRenderPassObjects.size(), ...)` -/
  | invalidNumberOfUIPassObjects
  /-- `CS_ASSERT(directionalRenderLight.GetShadowMapTarget(), ...)` -/
  | noShadowMapTarget
  /-- `v[i] = x` with `i >= v.size()` -/
  | indexOutOfRange
  deriving DecidableEq, Repr

/-! ## Data model

The classes below are declared in headers that are not part of the sources at hand;
their fields are the ones the compiler reads through the getters it calls. -/

/-- Modelled from the spec: `Vector3`, with integer coordinates standing for `f32`. -/
structure Vector3 where
  x : Int
  y : Int
  z : Int
  deriving DecidableEq, Repr

/-- Modelled from the spec: `Vector2` (the resolution of a frame). -/
structure Vector2 where
  x : Int
  y : Int
  deriving DecidableEq, Repr

/-- Modelled from the spec: `Sphere`, a centre and a radius. -/
structure Sphere where
  vOrigin : Vector3
  fRadius : Nat
  deriving DecidableEq, Repr

/-- Squared distance between two points. -/
def Vector3.distanceSquared (a b : Vector3) : Int :=
  (a.x - b.x) * (a.x - b.x) + (a.y - b.y) * (a.y - b.y) + (a.z - b.z) * (a.z - b.z)

/-- Modelled from the spec: `Sphere::Contains(const Sphere&)` is not part of the sources
at hand. The spec describes the point light filter as "objects whose bounding sphere
intersects the light's sphere of influence": two spheres intersect when the distance
between their centres is at most the sum of their radii. -/
def Sphere.Contains (s other : Sphere) : Bool :=
  decide (s.vOrigin.distanceSquared other.vOrigin
    ≤ ((s.fRadius + other.fRadius : Nat) : Int) * ((s.fRadius + other.fRadius : Nat) : Int))

/-- Symbolic `Matrix4` values: the identity, the result of
`Matrix4::CreateOrthographicProjectionLH`, or any other matrix, named by a number. -/
inductive Matrix4 where
  | k_identity
  | CreateOrthographicProjectionLH (left right bottom top near far : Int)
  | matrix (id : Nat)
  deriving DecidableEq, Repr

/-- Symbolic `Quaternion` values. -/
inductive Quaternion where
  | k_identity
  | quaternion (id : Nat)
  deriving DecidableEq, Repr

/-- Modelled from the spec: `RenderCamera`, built from a world matrix, a projection
matrix and an orientation; `RenderCamera()` is `RenderCamera.unset`. -/
structure RenderCamera where
  worldMatrix : Matrix4
  projectionMatrix : Matrix4
  orientation : Quaternion
  deriving DecidableEq, Repr

/-- The default constructed camera `RenderCamera camera;`. -/
def RenderCamera.unset : RenderCamera :=
  ⟨Matrix4.k_identity, Matrix4.k_identity, Quaternion.k_identity⟩

/-- A vertex format, identified by a number. -/
abbrev VertexFormat := Nat

/-- A `const RenderMaterial*`: a material is identified by its address. -/
structure RenderMaterial where
  id : Nat
  deriving DecidableEq, Repr

/-- A `const RenderTargetGroup*` used as shadow map target. -/
structure RenderTarget where
  id : Nat
  deriving DecidableEq, Repr

/-- A `const RenderMesh*` with the vertex format it reports. -/
structure RenderMesh where
  id : Nat
  vertexFormat : VertexFormat
  deriving DecidableEq, Repr

/-- A `const RenderDynamicMesh*` with the vertex format it reports. -/
structure RenderDynamicMesh where
  id : Nat
  vertexFormat : VertexFormat
  deriving DecidableEq, Repr

/-- The passes of the forward renderer, as named by the compiler. -/
inductive ForwardRenderPasses where
  | k_shadowMap
  | k_base
  | k_directionalLight
  | k_directionalLightShadows
  | k_pointLight
  | k_transparent
  deriving DecidableEq, Repr

/-- The render layers. -/
inductive RenderLayer where
  | k_standard
  | k_ui
  deriving DecidableEq, Repr

/-- Modelled from the spec: `RenderMaterialGroup` "maps a `(vertexFormat, passId)` key to a
concrete `RenderMaterial`"; it is a list of such entries. -/
structure RenderMaterialGroup where
  entries : List ((VertexFormat × ForwardRenderPasses) × RenderMaterial)
  deriving DecidableEq, Repr

/-- Modelled from the spec: `RenderMaterialGroup::GetRenderMaterial`, the material stored
for the key, or `none` (a null pointer) when there is none. -/
def RenderMaterialGroup.GetRenderMaterial (g : RenderMaterialGroup) (vertexFormat : VertexFormat)
    (pass : ForwardRenderPasses) : Option RenderMaterial :=
  (g.entries.find? (fun e => decide (e.1 = (vertexFormat, pass)))).map Prod.snd

/-- Modelled from the spec: `RenderMaterialGroup::Contains`, whether the material is one
of the materials of the group. -/
def RenderMaterialGroup.Contains (g : RenderMaterialGroup) (m : RenderMaterial) : Bool :=
  g.entries.any (fun e => decide (e.2 = m))

/-- The mesh of a render object or render pass object together with its
`Type` (`k_static` with a `RenderMesh`, `k_dynamic` with a `RenderDynamicMesh`). -/
inductive MeshRef where
  | k_static (renderMesh : RenderMesh)
  | k_dynamic (renderDynamicMesh : RenderDynamicMesh)
  deriving DecidableEq, Repr

/-- Modelled from the spec: `RenderObject`, the per-frame snapshot of one drawable. -/
structure RenderObject where
  mesh : MeshRef
  renderMaterialGroup : RenderMaterialGroup
  worldMatrix : Matrix4
  boundingSphere : Sphere
  renderLayer : RenderLayer
  priority : Nat
  shouldCastShadows : Bool
  deriving DecidableEq, Repr

/-- Modelled from the spec: `RenderPassObject`, a drawable resolved against one pass. -/
structure RenderPassObject where
  renderMaterial : RenderMaterial
  mesh : MeshRef
  worldMatrix : Matrix4
  boundingSphere : Sphere
  priority : Nat
  deriving DecidableEq, Repr

/-- The ambient light of a frame. -/
structure AmbientRenderLight where
  colour : Nat
  deriving DecidableEq, Repr

/-- A directional light; `shadowMapTarget` is `none` for a null `GetShadowMapTarget()`. -/
structure DirectionalRenderLight where
  colour : Nat
  direction : Vector3
  shadowMapTarget : Option RenderTarget
  deriving DecidableEq, Repr

/-- A point light. -/
structure PointRenderLight where
  colour : Nat
  position : Vector3
  rangeOfInfluence : Nat
  deriving DecidableEq, Repr

/-- The light a `RenderPass` was constructed with. -/
inductive RenderPassLight where
  | none
  | ambient (light : AmbientRenderLight)
  | directional (light : DirectionalRenderLight)
  | point (light : PointRenderLight)
  deriving DecidableEq, Repr

/-- Modelled from the spec: `RenderPass`, a light and an ordered list of objects. -/
structure RenderPass where
  light : RenderPassLight
  renderPassObjects : List RenderPassObject
  deriving DecidableEq, Repr

/-- The default constructed `RenderPass()`, the content of a freshly sized vector. -/
def RenderPass.empty : RenderPass := ⟨RenderPassLight.none, []⟩

/-- Modelled from the spec: `CameraRenderPassGroup`, a camera and its passes. -/
structure CameraRenderPassGroup where
  camera : RenderCamera
  renderPasses : List RenderPass
  deriving DecidableEq, Repr

/-- The default constructed `CameraRenderPassGroup()`. -/
def CameraRenderPassGroup.empty : CameraRenderPassGroup := ⟨RenderCamera.unset, []⟩

/-- Modelled from the spec: `TargetRenderPassGroup`; `renderTarget = none` is the default
framebuffer. -/
structure TargetRenderPassGroup where
  renderTarget : Option RenderTarget
  cameraRenderPassGroups : List CameraRenderPassGroup
  deriving DecidableEq, Repr

/-- The default constructed `TargetRenderPassGroup()`. -/
def TargetRenderPassGroup.empty : TargetRenderPassGroup := ⟨none, []⟩

/-- Modelled from the spec: `RenderFrame`, the immutable snapshot of one frame. -/
structure RenderFrame where
  resolution : Vector2
  renderCamera : RenderCamera
  ambientRenderLight : AmbientRenderLight
  directionalRenderLights : List DirectionalRenderLight
  pointRenderLights : List PointRenderLight
  renderObjects : List RenderObject
  deriving DecidableEq, Repr

/-- The `f32` computations the embedding leaves abstract: the frustum test of the
visibility checker and the camera depth used by the sorter. -/
structure RenderMaths where
  IsVisible : RenderCamera → RenderObject → Bool
  Depth : RenderCamera → RenderPassObject → Int

/-! ## Collaborators of the compiler that are not part of the sources at hand -/

/-- Modelled from the spec: `RenderPassVisibilityChecker::CalculateVisibleObjects` is not
part of the sources at hand. The spec describes it as a pure, stable filter of the
objects by the intersection of their bounding sphere with the view of the camera; the
intersection test itself is `RenderMaths.IsVisible`. -/
def CalculateVisibleObjects (maths : RenderMaths) (camera : RenderCamera)
    (renderObjects : List RenderObject) : List RenderObject :=
  renderObjects.filter (fun renderObject => maths.IsVisible camera renderObject)

/-- The order of `OpaqueSort`: material key first, camera depth second, front to back. -/
def OpaqueSortLE (maths : RenderMaths) (camera : RenderCamera) (a b : RenderPassObject) : Bool :=
  decide (a.renderMaterial.id < b.renderMaterial.id) ||
    (decide (a.renderMaterial.id = b.renderMaterial.id) &&
      decide (maths.Depth camera a ≤ maths.Depth camera b))

/-- The order of `TransparentSort`: camera depth, back to front. -/
def TransparentSortLE (maths : RenderMaths) (camera : RenderCamera) (a b : RenderPassObject) :
    Bool :=
  decide (maths.Depth camera b ≤ maths.Depth camera a)

/-- The order of `PrioritySort`: the integer priority, ascending. -/
def PrioritySortLE (a b : RenderPassObject) : Bool :=
  decide (a.priority ≤ b.priority)

/-- Modelled from the spec: `RenderPassObjectSorter::OpaqueSort` is not part of the sources
at hand. The spec: "orders by material/shader key first, then by camera-relative depth,
front-to-back, as a secondary key", ties broken by the original order. -/
def OpaqueSort (maths : RenderMaths) (camera : RenderCamera)
    (renderPassObjects : List RenderPassObject) : List RenderPassObject :=
  renderPassObjects.insertionSort (fun a b => OpaqueSortLE maths camera a b = true)

/-- Modelled from the spec: `RenderPassObjectSorter::TransparentSort` is not part of the
sources at hand. The spec: "strictly back-to-front by camera-space depth (farthest
first)", ties broken by the original order. -/
def TransparentSort (maths : RenderMaths) (camera : RenderCamera)
    (renderPassObjects : List RenderPassObject) : List RenderPassObject :=
  renderPassObjects.insertionSort (fun a b => TransparentSortLE maths camera a b = true)

/-- Modelled from the spec: `RenderPassObjectSorter::PrioritySort` is not part of the
sources at hand. The spec: "orders purely by an explicit integer priority field
ascending", ties broken by the original order. -/
def PrioritySort (renderPassObjects : List RenderPassObject) : List RenderPassObject :=
  renderPassObjects.insertionSort (fun a b => PrioritySortLE a b = true)

/-- A task handed to the scheduler. The lambdas of the compiler capture the vector they
fill by reference and write one slot of it, so a task is a function on that vector. -/
abbrev Task (α : Type) := List α → Except Fatal (List α)

/-- The indexed write `v[i] = x` on a vector: defined only below the size. -/
def writeSlot {α : Type} (v : List α) (i : Nat) (x : α) : Except Fatal (List α) :=
  if i < v.length then Except.ok (v.set i x) else Except.error Fatal.indexOutOfRange

/-- Modelled from the spec: `TaskContext::ProcessChildTasks` runs every task to completion
before it returns; here the tasks run in the order of the list. -/
def ProcessChildTasks {α : Type} (tasks : List (Task α)) (v : List α) : Except Fatal (List α) :=
  tasks.foldlM (fun acc task => task acc) v

/-! ## The functions of `ForwardRenderPassCompiler.cpp` -/

/-- `ConvertToRenderPassObject`: the assertion, then the switch on the type of the render
object. `RenderObject::Type` has the two values of `MeshRef`, so the `default` branch of
the switch has no counterpart. -/
def ConvertToRenderPassObject (renderObject : RenderObject) (renderMaterial : RenderMaterial) :
    Except Fatal RenderPassObject :=
  if renderObject.renderMaterialGroup.Contains renderMaterial then
    match renderObject.mesh with
    | MeshRef.k_static renderMesh =>
      Except.ok ⟨renderMaterial, MeshRef.k_static renderMesh, renderObject.worldMatrix,
        renderObject.boundingSphere, renderObject.priority⟩
    | MeshRef.k_dynamic renderDynamicMesh =>
      Except.ok ⟨renderMaterial, MeshRef.k_dynamic renderDynamicMesh, renderObject.worldMatrix,
        renderObject.boundingSphere, renderObject.priority⟩
  else
    Except.error Fatal.invalidRenderMaterial

/-- `GetVertexFormat`: the vertex format of the mesh of the render object. -/
def GetVertexFormat (renderObject : RenderObject) : VertexFormat :=
  match renderObject.mesh with
  | MeshRef.k_static renderMesh => renderMesh.vertexFormat
  | MeshRef.k_dynamic renderDynamicMesh => renderDynamicMesh.vertexFormat

/-- `CalcNumTargets`: counts the directional lights with a shadow map target in a `u32`
and returns that count. The source declares `k_reservedTargets = 1` ("The main target")
and does not use it. -/
def CalcNumTargets (renderFrame : RenderFrame) : Nat :=
  renderFrame.directionalRenderLights.foldl
    (fun numShadowCastingLights directionalRenderLight =>
      if directionalRenderLight.shadowMapTarget.isSome then u32 (numShadowCastingLights + 1)
      else numShadowCastingLights) 0

/-- `CalcNumScenePasses`: base and transparent, plus one pass per light, in `u32`. -/
def CalcNumScenePasses (renderFrame : RenderFrame) : Nat :=
  let k_reservedRenderPasses := 2
  let numDirectionalLightPasses := u32 renderFrame.directionalRenderLights.length
  let numPointLightPasses := u32 renderFrame.pointRenderLights.length
  u32 (u32 (k_reservedRenderPasses + numDirectionalLightPasses) + numPointLightPasses)

/-- `GetLayerRenderObjects`: the loop that pushes the objects of the requested layer. -/
def GetLayerRenderObjects (renderLayer : RenderLayer) (renderObjects : List RenderObject) :
    List RenderObject :=
  renderObjects.foldl
    (fun layerRenderObjects renderObject =>
      if renderObject.renderLayer = renderLayer then layerRenderObjects ++ [renderObject]
      else layerRenderObjects) []

/-- `GetShadowMapRenderPassObjects`: objects that cast shadows and have a shadow map
material. -/
def GetShadowMapRenderPassObjects (renderObjects : List RenderObject) :
    Except Fatal (List RenderPassObject) :=
  renderObjects.foldlM
    (fun baseRenderPassObjects renderObject =>
      if renderObject.shouldCastShadows then
        match renderObject.renderMaterialGroup.GetRenderMaterial (GetVertexFormat renderObject)
            ForwardRenderPasses.k_shadowMap with
        | some renderMaterial => do
          let renderPassObject ← ConvertToRenderPassObject renderObject renderMaterial
          pure (baseRenderPassObjects ++ [renderPassObject])
        | none => pure baseRenderPassObjects
      else pure baseRenderPassObjects) []

/-- `GetBaseRenderPassObjects`: objects that have a base material. -/
def GetBaseRenderPassObjects (renderObjects : List RenderObject) :
    Except Fatal (List RenderPassObject) :=
  renderObjects.foldlM
    (fun baseRenderPassObjects renderObject =>
      match renderObject.renderMaterialGroup.GetRenderMaterial (GetVertexFormat renderObject)
          ForwardRenderPasses.k_base with
      | some renderMaterial => do
        let renderPassObject ← ConvertToRenderPassObject renderObject renderMaterial
        pure (baseRenderPassObjects ++ [renderPassObject])
      | none => pure baseRenderPassObjects) []

/-- The pass a directional light is resolved against: with shadows when the light has
a shadow map target, plain otherwise. -/
def directionalPassType (directionalRenderLight : DirectionalRenderLight) : ForwardRenderPasses :=
  if directionalRenderLight.shadowMapTarget.isSome then
    ForwardRenderPasses.k_directionalLightShadows
  else ForwardRenderPasses.k_directionalLight

/-- `GetDirectionalLightRenderPassObjects`: objects that have a material for the pass of
the light. -/
def GetDirectionalLightRenderPassObjects (renderObjects : List RenderObject)
    (directionalRenderLight : DirectionalRenderLight) : Except Fatal (List RenderPassObject) :=
  let passType := directionalPassType directionalRenderLight
  renderObjects.foldlM
    (fun renderPassObjects renderObject =>
      match renderObject.renderMaterialGroup.GetRenderMaterial (GetVertexFormat renderObject)
          passType with
      | some renderMaterial => do
        let renderPassObject ← ConvertToRenderPassObject renderObject renderMaterial
        pure (renderPassObjects ++ [renderPassObject])
      | none => pure renderPassObjects) []

/-- `GetPointLightRenderPassObjects`: objects that have a point light material and whose
bounding sphere passes `Sphere::Contains` of the sphere of influence of the light. -/
def GetPointLightRenderPassObjects (renderObjects : List RenderObject)
    (pointRenderLight : PointRenderLight) : Except Fatal (List RenderPassObject) :=
  let pointLightBoundingSphere : Sphere :=
    ⟨pointRenderLight.position, pointRenderLight.rangeOfInfluence⟩
  renderObjects.foldlM
    (fun renderPassObjects renderObject =>
      match renderObject.renderMaterialGroup.GetRenderMaterial (GetVertexFormat renderObject)
          ForwardRenderPasses.k_pointLight with
      | some renderMaterial =>
        if pointLightBoundingSphere.Contains renderObject.boundingSphere then do
          let renderPassObject ← ConvertToRenderPassObject renderObject renderMaterial
          pure (renderPassObjects ++ [renderPassObject])
        else pure renderPassObjects
      | none => pure renderPassObjects) []

/-- `GetTransparentRenderPassObjects`: objects that have a transparent material. -/
def GetTransparentRenderPassObjects (renderObjects : List RenderObject) :
    Except Fatal (List RenderPassObject) :=
  renderObjects.foldlM
    (fun transparentRenderPassObjects renderObject =>
      match renderObject.renderMaterialGroup.GetRenderMaterial (GetVertexFormat renderObject)
          ForwardRenderPasses.k_transparent with
      | some renderMaterial => do
        let renderPassObject ← ConvertToRenderPassObject renderObject renderMaterial
        pure (transparentRenderPassObjects ++ [renderPassObject])
      | none => pure transparentRenderPassObjects) []

/-- The base pass task of `CompleSceneCameraRenderPassGroup`, with the index it captured. -/
def sceneBasePassTask (maths : RenderMaths) (renderFrame : RenderFrame)
    (visibleStandardRenderObjects : List RenderObject) (basePassIndex : Nat) : Task RenderPass :=
  fun renderPasses => do
    let renderPassObjects ← GetBaseRenderPassObjects visibleStandardRenderObjects
    let renderPassObjects := OpaqueSort maths renderFrame.renderCamera renderPassObjects
    writeSlot renderPasses basePassIndex
      ⟨RenderPassLight.ambient renderFrame.ambientRenderLight, renderPassObjects⟩

/-- The task of one directional light in `CompleSceneCameraRenderPassGroup`. -/
def sceneDirectionalLightPassTask (maths : RenderMaths) (renderFrame : RenderFrame)
    (visibleStandardRenderObjects : List RenderObject) (directionLightPassIndex : Nat)
    (directionalLight : DirectionalRenderLight) : Task RenderPass :=
  fun renderPasses => do
    let renderPassObjects ←
      GetDirectionalLightRenderPassObjects visibleStandardRenderObjects directionalLight
    let renderPassObjects := OpaqueSort maths renderFrame.renderCamera renderPassObjects
    writeSlot renderPasses directionLightPassIndex
      ⟨RenderPassLight.directional directionalLight, renderPassObjects⟩

/-- The task of one point light in `CompleSceneCameraRenderPassGroup`. -/
def scenePointLightPassTask (maths : RenderMaths) (renderFrame : RenderFrame)
    (visibleStandardRenderObjects : List RenderObject) (pointLightPassIndex : Nat)
    (pointLight : PointRenderLight) : Task RenderPass :=
  fun renderPasses => do
    let renderPassObjects ← GetPointLightRenderPassObjects visibleStandardRenderObjects pointLight
    let renderPassObjects := OpaqueSort maths renderFrame.renderCamera renderPassObjects
    writeSlot renderPasses pointLightPassIndex
      ⟨RenderPassLight.point pointLight, renderPassObjects⟩

/-- The transparent pass task of `CompleSceneCameraRenderPassGroup`. -/
def sceneTransparentPassTask (maths : RenderMaths) (renderFrame : RenderFrame)
    (visibleStandardRenderObjects : List RenderObject) (transparentPassIndex : Nat) :
    Task RenderPass :=
  fun renderPasses => do
    let renderPassObjects ← GetTransparentRenderPassObjects visibleStandardRenderObjects
    let renderPassObjects := TransparentSort maths renderFrame.renderCamera renderPassObjects
    writeSlot renderPasses transparentPassIndex
      ⟨RenderPassLight.ambient renderFrame.ambientRenderLight, renderPassObjects⟩

/-- The task list and the value of `nextPassIndex` that `CompleSceneCameraRenderPassGroup`
has built when it calls `ProcessChildTasks`. -/
def sceneTasks (maths : RenderMaths) (renderFrame : RenderFrame)
    (visibleStandardRenderObjects : List RenderObject) : List (Task RenderPass) × Nat :=
  let nextPassIndex := 0
  -- Base pass
  let basePassIndex := nextPassIndex
  let nextPassIndex := u32 (nextPassIndex + 1)
  let tasks := [sceneBasePassTask maths renderFrame visibleStandardRenderObjects basePassIndex]
  -- Directional light pass
  let (tasks, nextPassIndex) := renderFrame.directionalRenderLights.foldl
    (fun (state : List (Task RenderPass) × Nat) directionalLight =>
      let directionLightPassIndex := state.2
      (state.1 ++ [sceneDirectionalLightPassTask maths renderFrame visibleStandardRenderObjects
        directionLightPassIndex directionalLight], u32 (state.2 + 1)))
    (tasks, nextPassIndex)
  -- Point light pass
  let (tasks, nextPassIndex) := renderFrame.pointRenderLights.foldl
    (fun (state : List (Task RenderPass) × Nat) pointLight =>
      let pointLightPassIndex := state.2
      (state.1 ++ [scenePointLightPassTask maths renderFrame visibleStandardRenderObjects
        pointLightPassIndex pointLight], u32 (state.2 + 1)))
    (tasks, nextPassIndex)
  -- Transparent pass
  let transparentPassIndex := nextPassIndex
  let nextPassIndex := u32 (nextPassIndex + 1)
  (tasks ++ [sceneTransparentPassTask maths renderFrame visibleStandardRenderObjects
    transparentPassIndex], nextPassIndex)

/-- `CompleSceneCameraRenderPassGroup`: the passes of the scene camera. -/
def CompleSceneCameraRenderPassGroup (maths : RenderMaths) (renderFrame : RenderFrame) :
    Except Fatal CameraRenderPassGroup :=
  let standardRenderObjects :=
    GetLayerRenderObjects RenderLayer.k_standard renderFrame.renderObjects
  let visibleStandardRenderObjects :=
    CalculateVisibleObjects maths renderFrame.renderCamera standardRenderObjects
  let numPasses := CalcNumScenePasses renderFrame
  let renderPasses := List.replicate numPasses RenderPass.empty
  let tasks := (sceneTasks maths renderFrame visibleStandardRenderObjects).1
  do
    let renderPasses ← ProcessChildTasks tasks renderPasses
    pure ⟨renderFrame.renderCamera, renderPasses⟩

/-- The camera `CompileUICameraRenderPassGroup` builds for the UI layer. -/
def uiCamera (renderFrame : RenderFrame) : RenderCamera :=
  let k_near := 0
  let k_far := 1
  let projMatrix := Matrix4.CreateOrthographicProjectionLH 0 renderFrame.resolution.x 0
    renderFrame.resolution.y k_near k_far
  ⟨Matrix4.k_identity, projMatrix, Quaternion.k_identity⟩

/-- `CompileUICameraRenderPassGroup`: the single pass of the UI camera, or no pass. -/
def CompileUICameraRenderPassGroup (maths : RenderMaths) (renderFrame : RenderFrame) :
    Except Fatal CameraRenderPassGroup :=
  let uiRenderObjects := GetLayerRenderObjects RenderLayer.k_ui renderFrame.renderObjects
  let visibleUIRenderObjects :=
    CalculateVisibleObjects maths (uiCamera renderFrame) uiRenderObjects
  do
    let uiRenderPassObjects ← GetTransparentRenderPassObjects visibleUIRenderObjects
    if visibleUIRenderObjects.length = uiRenderPassObjects.length then
      let uiRenderPassObjects := PrioritySort uiRenderPassObjects
      let renderPasses : List RenderPass :=
        if uiRenderPassObjects.length > 0 then
          [⟨RenderPassLight.ambient renderFrame.ambientRenderLight, uiRenderPassObjects⟩]
        else []
      pure ⟨uiCamera renderFrame, renderPasses⟩
    else
      throw Fatal.invalidNumberOfUIPassObjects

/-- `CompileMainTargetRenderPassGroup`: the scene camera group and the UI camera group,
each written by its task into a vector of `k_numGroups = 2` slots. -/
def CompileMainTargetRenderPassGroup (maths : RenderMaths) (renderFrame : RenderFrame) :
    Except Fatal TargetRenderPassGroup :=
  let k_numGroups := 2
  let cameraRenderPassGroups := List.replicate k_numGroups CameraRenderPassGroup.empty
  let nextIndex := 0
  -- Scene camera group
  let sceneIndex := nextIndex
  let nextIndex := u32 (nextIndex + 1)
  let sceneTask : Task CameraRenderPassGroup := fun groups => do
    let group ← CompleSceneCameraRenderPassGroup maths renderFrame
    writeSlot groups sceneIndex group
  -- UI Camera group
  let uiIndex := nextIndex
  let uiTask : Task CameraRenderPassGroup := fun groups => do
    let group ← CompileUICameraRenderPassGroup maths renderFrame
    writeSlot groups uiIndex group
  do
    let cameraRenderPassGroups ← ProcessChildTasks [sceneTask, uiTask] cameraRenderPassGroups
    pure ⟨none, cameraRenderPassGroups⟩

/-- `CompileShadowMapTargetRenderPassGroup`: the target group of one shadow map. -/
def CompileShadowMapTargetRenderPassGroup (maths : RenderMaths) (renderFrame : RenderFrame)
    (directionalRenderLight : DirectionalRenderLight) : Except Fatal TargetRenderPassGroup :=
  if directionalRenderLight.shadowMapTarget.isSome then
    let camera := RenderCamera.unset
    let standardRenderObjects :=
      GetLayerRenderObjects RenderLayer.k_standard renderFrame.renderObjects
    let visibleStandardRenderObjects :=
      CalculateVisibleObjects maths renderFrame.renderCamera standardRenderObjects
    do
      let renderPassObjects ← GetShadowMapRenderPassObjects visibleStandardRenderObjects
      let renderPassObjects := OpaqueSort maths renderFrame.renderCamera renderPassObjects
      let renderPass : RenderPass := ⟨RenderPassLight.none, renderPassObjects⟩
      let camerRenderPassGroup : CameraRenderPassGroup := ⟨camera, [renderPass]⟩
      pure ⟨directionalRenderLight.shadowMapTarget, [camerRenderPassGroup]⟩
  else
    throw Fatal.noShadowMapTarget

/-- The task of one shadow target in `CompileTargetRenderPassGroups`. -/
def shadowTargetTask (maths : RenderMaths) (renderFrame : RenderFrame) (shadowPassIndex : Nat)
    (directionalRenderLight : DirectionalRenderLight) : Task TargetRenderPassGroup :=
  fun targetRenderPassGroups => do
    let group ← CompileShadowMapTargetRenderPassGroup maths renderFrame directionalRenderLight
    writeSlot targetRenderPassGroups shadowPassIndex group

/-- The task of the main target in `CompileTargetRenderPassGroups`. -/
def mainTargetTask (maths : RenderMaths) (renderFrame : RenderFrame) (mainPassIndex : Nat) :
    Task TargetRenderPassGroup :=
  fun targetRenderPassGroups => do
    let group ← CompileMainTargetRenderPassGroup maths renderFrame
    writeSlot targetRenderPassGroups mainPassIndex group

/-- The shadow tasks of `CompileTargetRenderPassGroups` and the value of `nextPassIndex`
after the loop over the directional lights: each light with a shadow map target takes
the next index. -/
def shadowTargetTasks (maths : RenderMaths) (renderFrame : RenderFrame) :
    List (Task TargetRenderPassGroup) × Nat :=
  renderFrame.directionalRenderLights.foldl
    (fun (state : List (Task TargetRenderPassGroup) × Nat) directionalRenderLight =>
      if directionalRenderLight.shadowMapTarget.isSome then
        let shadowPassIndex := state.2
        (state.1 ++ [shadowTargetTask maths renderFrame shadowPassIndex directionalRenderLight],
          u32 (state.2 + 1))
      else state)
    ([], 0)

/-- The index the main target task of `CompileTargetRenderPassGroups` writes to. -/
def mainPassIndex (maths : RenderMaths) (renderFrame : RenderFrame) : Nat :=
  (shadowTargetTasks maths renderFrame).2

/-- `ForwardRenderPassCompiler::CompileTargetRenderPassGroups`: a vector of
`CalcNumTargets` slots, one task per shadow target and one for the main target. -/
def CompileTargetRenderPassGroups (maths : RenderMaths) (renderFrame : RenderFrame) :
    Except Fatal (List TargetRenderPassGroup) :=
  let numTargets := CalcNumTargets renderFrame
  let targetRenderPassGroups := List.replicate numTargets TargetRenderPassGroup.empty
  -- Shadow targets
  let tasks := (shadowTargetTasks maths renderFrame).1
  -- Main target
  let tasks := tasks ++ [mainTargetTask maths renderFrame (mainPassIndex maths renderFrame)]
  ProcessChildTasks tasks targetRenderPassGroups

/-! ## Specification vocabulary -/

/-- The render pass object of a render object with a given material: what
`ConvertToRenderPassObject` builds when its assertion holds. -/
def RenderObject.toRenderPassObject (renderObject : RenderObject)
    (renderMaterial : RenderMaterial) : RenderPassObject :=
  ⟨renderMaterial, renderObject.mesh, renderObject.worldMatrix, renderObject.boundingSphere,
    renderObject.priority⟩

/-- The material of a render object for a pass: the material its group has for (its
vertex format, the pass). -/
def RenderObject.materialFor (renderObject : RenderObject) (pass : ForwardRenderPasses) :
    Option RenderMaterial :=
  renderObject.renderMaterialGroup.GetRenderMaterial (GetVertexFormat renderObject) pass

/-- The sphere of influence of a point light. -/
def PointRenderLight.boundingSphere (pointRenderLight : PointRenderLight) : Sphere :=
  ⟨pointRenderLight.position, pointRenderLight.rangeOfInfluence⟩

/-- What one object contributes to a pass: its render pass object for the material of the
pass, when it has one and `keep` lets it through. -/
def passObjectOf (pass : ForwardRenderPasses) (keep : RenderObject → Bool)
    (renderObject : RenderObject) : Option RenderPassObject :=
  if keep renderObject then
    (renderObject.materialFor pass).map renderObject.toRenderPassObject
  else none

/-- Equality of results of the compiler is decidable. -/
instance instDecidableEqExcept {ε α : Type} [DecidableEq ε] [DecidableEq α] :
    DecidableEq (Except ε α) := fun a b =>
  match a, b with
  | Except.ok x, Except.ok y =>
    if h : x = y then isTrue (by rw [h]) else isFalse (fun h2 => h (Except.ok.inj h2))
  | Except.error x, Except.error y =>
    if h : x = y then isTrue (by rw [h]) else isFalse (fun h2 => h (Except.error.inj h2))
  | Except.ok _, Except.error _ => isFalse (fun h => Except.noConfusion h)
  | Except.error _, Except.ok _ => isFalse (fun h => Except.noConfusion h)

/-- The task that writes `x` into slot `i`. -/
def writeTask {α : Type} (i : Nat) (x : α) : Task α :=
  fun v => writeSlot v i x

/-- The tasks that write the elements of a list into consecutive slots, from slot `k`. -/
def consecutiveWrites {α : Type} (k : Nat) : List α → List (Task α)
  | [] => []
  | x :: xs => writeTask k x :: consecutiveWrites (k + 1) xs

/-- The standard layer objects of the frame that the visibility check of the render
camera retains. -/
def visibleStandardObjects (maths : RenderMaths) (renderFrame : RenderFrame) :
    List RenderObject :=
  (renderFrame.renderObjects.filter (fun o => decide (o.renderLayer = RenderLayer.k_standard))).filter
    (fun o => maths.IsVisible renderFrame.renderCamera o)

/-- The UI layer objects of the frame that the visibility check of the UI camera
retains. -/
def visibleUIObjects (maths : RenderMaths) (renderFrame : RenderFrame) : List RenderObject :=
  (renderFrame.renderObjects.filter (fun o => decide (o.renderLayer = RenderLayer.k_ui))).filter
    (fun o => maths.IsVisible (uiCamera renderFrame) o)

/-- The base pass of a frame: ambient light, the visible standard objects that have a
base material, in the order of `OpaqueSort`. -/
def expectedBasePass (maths : RenderMaths) (renderFrame : RenderFrame) : RenderPass :=
  ⟨RenderPassLight.ambient renderFrame.ambientRenderLight,
    OpaqueSort maths renderFrame.renderCamera
      ((visibleStandardObjects maths renderFrame).filterMap
        (passObjectOf ForwardRenderPasses.k_base (fun _ => true)))⟩

/-- The pass of one directional light. -/
def expectedDirectionalLightPass (maths : RenderMaths) (renderFrame : RenderFrame)
    (directionalLight : DirectionalRenderLight) : RenderPass :=
  ⟨RenderPassLight.directional directionalLight,
    OpaqueSort maths renderFrame.renderCamera
      ((visibleStandardObjects maths renderFrame).filterMap
        (passObjectOf (directionalPassType directionalLight) (fun _ => true)))⟩

/-- The pass of one point light. -/
def expectedPointLightPass (maths : RenderMaths) (renderFrame : RenderFrame)
    (pointLight : PointRenderLight) : RenderPass :=
  ⟨RenderPassLight.point pointLight,
    OpaqueSort maths renderFrame.renderCamera
      ((visibleStandardObjects maths renderFrame).filterMap
        (passObjectOf ForwardRenderPasses.k_pointLight
          (fun o => pointLight.boundingSphere.Contains o.boundingSphere)))⟩

/-- The transparent pass of a frame. -/
def expectedTransparentPass (maths : RenderMaths) (renderFrame : RenderFrame) : RenderPass :=
  ⟨RenderPassLight.ambient renderFrame.ambientRenderLight,
    TransparentSort maths renderFrame.renderCamera
      ((visibleStandardObjects maths renderFrame).filterMap
        (passObjectOf ForwardRenderPasses.k_transparent (fun _ => true)))⟩

/-- The passes of the scene camera group, in their slots. -/
def expectedScenePasses (maths : RenderMaths) (renderFrame : RenderFrame) : List RenderPass :=
  [expectedBasePass maths renderFrame]
    ++ renderFrame.directionalRenderLights.map (expectedDirectionalLightPass maths renderFrame)
    ++ renderFrame.pointRenderLights.map (expectedPointLightPass maths renderFrame)
    ++ [expectedTransparentPass maths renderFrame]

/-- The passes of the UI camera group: none when no UI object is to be drawn, one pass
with the objects in the order of `PrioritySort` otherwise. -/
def expectedUIPasses (maths : RenderMaths) (renderFrame : RenderFrame) : List RenderPass :=
  if (PrioritySort ((visibleUIObjects maths renderFrame).filterMap
      (passObjectOf ForwardRenderPasses.k_transparent (fun _ => true)))).length > 0 then
    [⟨RenderPassLight.ambient renderFrame.ambientRenderLight,
      PrioritySort ((visibleUIObjects maths renderFrame).filterMap
        (passObjectOf ForwardRenderPasses.k_transparent (fun _ => true)))⟩]
  else []

/-- The objects of the shadow pass of a frame: the visible standard objects that cast
shadows and have a shadow map material, in the order of `OpaqueSort`. -/
def expectedShadowPassObjects (maths : RenderMaths) (renderFrame : RenderFrame) :
    List RenderPassObject :=
  OpaqueSort maths renderFrame.renderCamera
    ((visibleStandardObjects maths renderFrame).filterMap
      (passObjectOf ForwardRenderPasses.k_shadowMap (fun o => o.shouldCastShadows)))

/-- The target group of the shadow map of one directional light. -/
def expectedShadowTargetGroup (maths : RenderMaths) (renderFrame : RenderFrame)
    (directionalRenderLight : DirectionalRenderLight) : TargetRenderPassGroup :=
  ⟨directionalRenderLight.shadowMapTarget,
    [⟨RenderCamera.unset, [⟨RenderPassLight.none, expectedShadowPassObjects maths renderFrame⟩]⟩]⟩

/-- The directional lights of the frame that have a shadow map target, in the order of
the frame. -/
def shadowLights (renderFrame : RenderFrame) : List DirectionalRenderLight :=
  renderFrame.directionalRenderLights.filter (fun l => l.shadowMapTarget.isSome)

/-- A render pass object is the render pass object of an object of the frame that the
visibility check of `camera` retained (in the list of the objects of some layer), with
the material of that object for some pass. -/
def RenderPassObject.IsFromRetainedObject (x : RenderPassObject) (maths : RenderMaths)
    (renderFrame : RenderFrame) (camera : RenderCamera) : Prop :=
  ∃ o layer, o ∈ CalculateVisibleObjects maths camera
      (GetLayerRenderObjects layer renderFrame.renderObjects)
    ∧ ∃ pass m, o.materialFor pass = some m ∧ x = o.toRenderPassObject m

/-- The scene camera group task of `CompileMainTargetRenderPassGroup`, with the index it
captured. -/
def mainSceneCameraGroupTask (maths : RenderMaths) (renderFrame : RenderFrame)
    (sceneIndex : Nat) : Task CameraRenderPassGroup :=
  fun cameraRenderPassGroups => do
    let group ← CompleSceneCameraRenderPassGroup maths renderFrame
    writeSlot cameraRenderPassGroups sceneIndex group

/-- The UI camera group task of `CompileMainTargetRenderPassGroup`, with the index it
captured. -/
def mainUICameraGroupTask (maths : RenderMaths) (renderFrame : RenderFrame) (uiIndex : Nat) :
    Task CameraRenderPassGroup :=
  fun cameraRenderPassGroups => do
    let group ← CompileUICameraRenderPassGroup maths renderFrame
    writeSlot cameraRenderPassGroups uiIndex group

/-- A render pass object is the render pass object of an object of the frame that is in
the given layer, with the material of that object for some pass. -/
def RenderPassObject.IsFromLayer (x : RenderPassObject) (renderFrame : RenderFrame)
    (renderLayer : RenderLayer) : Prop :=
  ∃ o ∈ renderFrame.renderObjects, o.renderLayer = renderLayer
    ∧ ∃ pass m, o.materialFor pass = some m ∧ x = o.toRenderPassObject m

/-- The frame with only its render objects of the given layer. -/
def RenderFrame.restrictToLayer (renderFrame : RenderFrame) (renderLayer : RenderLayer) :
    RenderFrame :=
  { renderFrame with
    renderObjects := renderFrame.renderObjects.filter
      (fun o => decide (o.renderLayer = renderLayer)) }

/-! ## Example frames -/

/-- A choice of the abstract computations: every object is in view, depth is the `x`
coordinate of the centre of the bounding sphere. -/
def exampleMaths : RenderMaths :=
  ⟨fun _ _ => true, fun _ renderPassObject => renderPassObject.boundingSphere.vOrigin.x⟩

/-- The render camera of the example frames. -/
def exampleCamera : RenderCamera :=
  ⟨Matrix4.matrix 1, Matrix4.matrix 2, Quaternion.k_identity⟩

/-- A directional light with a shadow map target. -/
def exampleShadowLight : DirectionalRenderLight := ⟨1, ⟨0, 0, 1⟩, some ⟨3⟩⟩

/-- A second directional light with a shadow map target. -/
def exampleShadowLight2 : DirectionalRenderLight := ⟨2, ⟨0, 1, 0⟩, some ⟨4⟩⟩

/-- A directional light without a shadow map target. -/
def examplePlainLight : DirectionalRenderLight := ⟨1, ⟨1, 0, 0⟩, none⟩

/-- A point light at `(10, 0, 0)` with a range of influence of 2. -/
def examplePointLight : PointRenderLight := ⟨1, ⟨10, 0, 0⟩, 2⟩

/-- A material group with a material for every pass of vertex format 0. -/
def exampleLitGroup : RenderMaterialGroup :=
  ⟨[((0, ForwardRenderPasses.k_shadowMap), ⟨10⟩), ((0, ForwardRenderPasses.k_base), ⟨11⟩),
    ((0, ForwardRenderPasses.k_directionalLight), ⟨12⟩),
    ((0, ForwardRenderPasses.k_directionalLightShadows), ⟨13⟩),
    ((0, ForwardRenderPasses.k_pointLight), ⟨14⟩)]⟩

/-- A material group with a transparent material only. -/
def exampleTransparentGroup : RenderMaterialGroup :=
  ⟨[((0, ForwardRenderPasses.k_transparent), ⟨20⟩)]⟩

/-- A lit, shadow casting standard object at the origin, of radius 1. -/
def exampleLitObject : RenderObject :=
  ⟨MeshRef.k_static ⟨1, 0⟩, exampleLitGroup, Matrix4.matrix 5, ⟨⟨0, 0, 0⟩, 1⟩,
    RenderLayer.k_standard, 0, true⟩

/-- A lit standard object at `(8, 0, 0)`, of radius 1: it touches the sphere of
`examplePointLight` without being inside it. -/
def exampleNearObject : RenderObject :=
  ⟨MeshRef.k_dynamic ⟨2, 0⟩, exampleLitGroup, Matrix4.matrix 6, ⟨⟨8, 0, 0⟩, 1⟩,
    RenderLayer.k_standard, 0, false⟩

/-- A UI object of priority 5. -/
def exampleUIObjectFive : RenderObject :=
  ⟨MeshRef.k_dynamic ⟨3, 0⟩, exampleTransparentGroup, Matrix4.matrix 7, ⟨⟨1, 1, 0⟩, 1⟩,
    RenderLayer.k_ui, 5, false⟩

/-- A UI object of priority 1. -/
def exampleUIObjectOne : RenderObject :=
  ⟨MeshRef.k_dynamic ⟨4, 0⟩, exampleTransparentGroup, Matrix4.matrix 8, ⟨⟨2, 2, 0⟩, 1⟩,
    RenderLayer.k_ui, 1, false⟩

/-- A frame whose only light is a directional light with a shadow map target. -/
def frameOneShadowLight : RenderFrame :=
  ⟨⟨640, 480⟩, exampleCamera, ⟨7⟩, [exampleShadowLight], [], [exampleLitObject]⟩

/-- A frame with two shadow lights and, between them, a light without shadow map. -/
def frameTwoShadowLights : RenderFrame :=
  ⟨⟨640, 480⟩, exampleCamera, ⟨7⟩, [exampleShadowLight, examplePlainLight, exampleShadowLight2],
    [], [exampleLitObject]⟩

/-- A frame with two directional lights, a point light, two standard objects and two UI
objects. -/
def frameLit : RenderFrame :=
  ⟨⟨640, 480⟩, exampleCamera, ⟨7⟩, [exampleShadowLight, examplePlainLight], [examplePointLight],
    [exampleLitObject, exampleUIObjectFive, exampleNearObject, exampleUIObjectOne]⟩

/-- A material group with a shadow map material and a transparent material. -/
def exampleGlassGroup : RenderMaterialGroup :=
  ⟨[((0, ForwardRenderPasses.k_shadowMap), ⟨30⟩), ((0, ForwardRenderPasses.k_transparent), ⟨31⟩)]⟩

/-- A standard object that casts shadows and is drawn with a transparent material. -/
def exampleGlassObject : RenderObject :=
  ⟨MeshRef.k_static ⟨5, 0⟩, exampleGlassGroup, Matrix4.matrix 9, ⟨⟨0, 0, 4⟩, 1⟩,
    RenderLayer.k_standard, 0, true⟩

/-- A frame with a shadow light and the object `exampleGlassObject`. -/
def frameGlass : RenderFrame :=
  ⟨⟨640, 480⟩, exampleCamera, ⟨7⟩, [exampleShadowLight], [], [exampleGlassObject]⟩

/-- The frame of scenario B: a UI object of priority 5 submitted before a UI object of
priority 1. -/
def frameScenarioB : RenderFrame :=
  ⟨⟨640, 480⟩, exampleCamera, ⟨7⟩, [], [], [exampleUIObjectFive, exampleUIObjectOne]⟩

/-! ## The render command processor

A shallow embedding of `Source/CSBackend/Rendering/OpenGL/Base/RenderCommandProcessor.cpp`.

* The processor is a state: its context state, the backend objects attached to the
  render resources as extra data, and the list of the calls made into OpenGL and into the
  `GL...` wrappers, oldest first.
* A pointer held by a command is never null. A pointer read from the context state or
  from the extra data of a resource is an `Option`; calling a member through a null
  pointer, and reading element 0 of an empty vector, end the run with a `GLFatal`.
* The contents of the resources a command points to (the shader and the textures of a
  material, the polygon type and the counts of a mesh) are read from `RenderResources`.
-/

/-- The ways in which the processor can stop. -/
inductive GLFatal where
  /-- `CS_LOG_FATAL("Invalid polygon type.")` -/
  | invalidPolygonType
  /-- `CS_LOG_FATAL("Unknown render command.")` -/
  | unknownRenderCommand
  /-- `p->f()` with a null `p` -/
  | nullDereference
  /-- `v[0]` on an empty vector -/
  | indexOutOfRange
  deriving DecidableEq, Repr

/-- A `const RenderShader*`, identified by its address. -/
structure RenderShader where
  id : Nat
  deriving DecidableEq, Repr

/-- A `const RenderTexture*`, identified by its address. -/
structure RenderTexture where
  id : Nat
  deriving DecidableEq, Repr

/-- The values of `ChilliSource::PolygonType`: the three enumerators the processor
handles, and any other value of the underlying integer. -/
inductive PolygonType where
  | k_triangle
  | k_triangleStrip
  | k_line
  | invalid (value : Nat)
  deriving DecidableEq, Repr

/-- The OpenGL polygon modes returned by `ToGLPolygonType`. -/
inductive GLenum where
  | GL_TRIANGLES
  | GL_TRIANGLE_STRIP
  | GL_LINES
  deriving DecidableEq, Repr

/-- A colour, with integer channels standing for `f32`. -/
structure Colour where
  r : Int
  g : Int
  b : Int
  a : Int
  deriving DecidableEq, Repr

/-- Modelled from the spec: `GLCamera`, the camera binding of the context state: a
position and a view projection matrix. -/
structure GLCamera where
  position : Vector3
  viewProjectionMatrix : Matrix4
  deriving DecidableEq, Repr

/-- The default constructed `GLCamera()`. -/
def GLCamera.unset : GLCamera := ⟨⟨0, 0, 0⟩, Matrix4.k_identity⟩

/-- Modelled from the spec: `GLContextState`, the "current bound
shader/material/mesh/texture/camera" of the processor; a null pointer is `none`. -/
structure GLContextState where
  renderShader : Option RenderShader
  renderTexture : Option RenderTexture
  renderMaterial : Option RenderMaterial
  renderMesh : Option RenderMesh
  camera : GLCamera
  deriving DecidableEq, Repr

/-- Modelled from the spec: `GLContextState::Reset` is not part of the sources at hand. The
spec: "reset all binding slots to empty". -/
def GLContextState.Reset (_contextState : GLContextState) : GLContextState :=
  ⟨none, none, none, none, GLCamera.unset⟩

/-- `GLContextState::SetRenderShader`. -/
def GLContextState.SetRenderShader (contextState : GLContextState)
    (renderShader : Option RenderShader) : GLContextState :=
  { contextState with renderShader := renderShader }

/-- `GLContextState::SetRenderTexture`. -/
def GLContextState.SetRenderTexture (contextState : GLContextState)
    (renderTexture : Option RenderTexture) : GLContextState :=
  { contextState with renderTexture := renderTexture }

/-- `GLContextState::SetRenderMaterial`. -/
def GLContextState.SetRenderMaterial (contextState : GLContextState)
    (renderMaterial : Option RenderMaterial) : GLContextState :=
  { contextState with renderMaterial := renderMaterial }

/-- `GLContextState::SetRenderMesh`. -/
def GLContextState.SetRenderMesh (contextState : GLContextState)
    (renderMesh : Option RenderMesh) : GLContextState :=
  { contextState with renderMesh := renderMesh }

/-- `GLContextState::SetCamera`. -/
def GLContextState.SetCamera (contextState : GLContextState) (camera : GLCamera) :
    GLContextState :=
  { contextState with camera := camera }

/-- The contents of the render resources the commands point to. -/
structure RenderResources where
  /-- `RenderMaterial::GetRenderShader` -/
  GetRenderShader : RenderMaterial → RenderShader
  /-- `RenderMaterial::GetRenderTextures` -/
  GetRenderTextures : RenderMaterial → List RenderTexture
  /-- `RenderMesh::GetPolygonType` -/
  GetPolygonType : RenderMesh → PolygonType
  /-- `RenderMesh::GetNumIndices` -/
  GetNumIndices : RenderMesh → Nat
  /-- `RenderMesh::GetNumVertices` -/
  GetNumVertices : RenderMesh → Nat

/-- The calls the processor makes into OpenGL and into the `GLShader`, `GLTexture`,
`GLMesh` and `GLMaterial` wrappers. A `glShader` argument is the pointer that is passed
on, null or not. -/
inductive GLCall where
  | newGLShader (renderShader : RenderShader)
  | newGLTexture (renderTexture : RenderTexture)
  | newGLMesh (renderMesh : RenderMesh)
  | deleteGLShader (renderShader : RenderShader)
  | deleteGLTexture (renderTexture : RenderTexture)
  | deleteGLMesh (renderMesh : RenderMesh)
  | glViewport (x y width height : Int)
  | glColorMask
  | glDepthMask
  | glClearColor (colour : Colour)
  | glClear
  | glBlendEquation
  | glDepthFunc
  | GLShader_Bind (glShader : RenderShader)
  | GLTexture_Bind (glTexture : RenderTexture)
  | GLMaterial_Apply (renderMaterial : RenderMaterial) (camera : GLCamera)
      (glShader : Option RenderShader)
  | GLMesh_Bind (glMesh : RenderMesh) (glShader : Option RenderShader)
  | SetUniform_wvpMat (glShader : RenderShader) (worldMatrix viewProjectionMatrix : Matrix4)
  | SetUniform_normalMat (glShader : RenderShader) (worldMatrix : Matrix4)
  | glDrawElements (mode : GLenum) (count : Nat)
  | glDrawArrays (mode : GLenum) (first count : Nat)
  deriving DecidableEq, Repr

/-- The state of a `RenderCommandProcessor`: `m_contextState`, the resources whose extra
data is a live backend object, and the calls made so far. -/
structure RenderCommandProcessor where
  m_contextState : GLContextState
  glShaders : List RenderShader
  glTextures : List RenderTexture
  glMeshes : List RenderMesh
  glCalls : List GLCall
  deriving DecidableEq, Repr

/-- The `GLShader*` read from `renderShader->GetExtraData()`. -/
def RenderCommandProcessor.GetShaderExtraData (self : RenderCommandProcessor)
    (renderShader : RenderShader) : Option RenderShader :=
  if renderShader ∈ self.glShaders then some renderShader else none

/-- The `GLTexture*` read from `renderTexture->GetExtraData()`. -/
def RenderCommandProcessor.GetTextureExtraData (self : RenderCommandProcessor)
    (renderTexture : RenderTexture) : Option RenderTexture :=
  if renderTexture ∈ self.glTextures then some renderTexture else none

/-- The `GLMesh*` read from `renderMesh->GetExtraData()`. -/
def RenderCommandProcessor.GetMeshExtraData (self : RenderCommandProcessor)
    (renderMesh : RenderMesh) : Option RenderMesh :=
  if renderMesh ∈ self.glMeshes then some renderMesh else none

/-- The backend makes a call. -/
def RenderCommandProcessor.call (self : RenderCommandProcessor) (glCall : GLCall) :
    RenderCommandProcessor :=
  { self with glCalls := self.glCalls ++ [glCall] }

/-- Following a pointer: fatal when it is null. -/
def dereference {α : Type} (pointer : Option α) : Except GLFatal α :=
  match pointer with
  | some pointee => Except.ok pointee
  | none => Except.error GLFatal.nullDereference

/-- `ToGLPolygonType`. -/
def ToGLPolygonType (polygonType : PolygonType) : Except GLFatal GLenum :=
  match polygonType with
  | PolygonType.k_triangle => Except.ok GLenum.GL_TRIANGLES
  | PolygonType.k_triangleStrip => Except.ok GLenum.GL_TRIANGLE_STRIP
  | PolygonType.k_line => Except.ok GLenum.GL_LINES
  | PolygonType.invalid _ => Except.error GLFatal.invalidPolygonType

/-- `RenderCommandProcessor::LoadShader`. -/
def RenderCommandProcessor.LoadShader (self : RenderCommandProcessor)
    (renderShader : RenderShader) : RenderCommandProcessor :=
  let contextState := self.m_contextState.SetRenderShader none
  let contextState := contextState.SetRenderMaterial none
  { self with
    m_contextState := contextState
    glShaders := self.glShaders.insert renderShader
    glCalls := self.glCalls ++ [GLCall.newGLShader renderShader] }

/-- `RenderCommandProcessor::LoadTexture`. -/
def RenderCommandProcessor.LoadTexture (self : RenderCommandProcessor)
    (renderTexture : RenderTexture) : RenderCommandProcessor :=
  let contextState := self.m_contextState.SetRenderTexture none
  let contextState := contextState.SetRenderMaterial none
  { self with
    m_contextState := contextState
    glTextures := self.glTextures.insert renderTexture
    glCalls := self.glCalls ++ [GLCall.newGLTexture renderTexture] }

/-- `RenderCommandProcessor::LoadMesh`. -/
def RenderCommandProcessor.LoadMesh (self : RenderCommandProcessor) (renderMesh : RenderMesh) :
    RenderCommandProcessor :=
  let contextState := self.m_contextState.SetRenderMesh none
  { self with
    m_contextState := contextState
    glMeshes := self.glMeshes.insert renderMesh
    glCalls := self.glCalls ++ [GLCall.newGLMesh renderMesh] }

/-- `RenderCommandProcessor::Begin`. -/
def RenderCommandProcessor.Begin (self : RenderCommandProcessor) (resolution : Vector2)
    (clearColour : Colour) : RenderCommandProcessor :=
  { self with
    m_contextState := self.m_contextState.Reset
    glCalls := self.glCalls ++
      [GLCall.glViewport 0 0 resolution.x resolution.y, GLCall.glColorMask, GLCall.glDepthMask,
        GLCall.glClearColor clearColour, GLCall.glClear, GLCall.glBlendEquation,
        GLCall.glDepthFunc] }

/-- `RenderCommandProcessor::ApplyCamera`. -/
def RenderCommandProcessor.ApplyCamera (self : RenderCommandProcessor) (position : Vector3)
    (viewProjectionMatrix : Matrix4) : RenderCommandProcessor :=
  let contextState := self.m_contextState.SetRenderMaterial none
  let contextState := contextState.SetCamera ⟨position, viewProjectionMatrix⟩
  { self with m_contextState := contextState }

/-- `RenderCommandProcessor::ApplyMaterial`. `GLMaterial::Apply` is not part of the
sources at hand: it is recorded as a call that receives the `glShader` pointer. -/
def RenderCommandProcessor.ApplyMaterial (resources : RenderResources)
    (self : RenderCommandProcessor) (renderMaterial : RenderMaterial) :
    Except GLFatal RenderCommandProcessor :=
  if some renderMaterial ≠ self.m_contextState.renderMaterial then do
    let self := { self with m_contextState := self.m_contextState.SetRenderMesh none }
    let self :=
      { self with m_contextState := self.m_contextState.SetRenderMaterial (some renderMaterial) }
    let renderShader := resources.GetRenderShader renderMaterial
    let glShader := self.GetShaderExtraData renderShader
    let self ←
      (if some renderShader ≠ self.m_contextState.renderShader then
        (do
          let self :=
            { self with
              m_contextState := self.m_contextState.SetRenderShader (some renderShader) }
          let boundShader ← dereference glShader
          pure (self.call (GLCall.GLShader_Bind boundShader)))
      else pure self)
    let renderTexture ←
      (match (resources.GetRenderTextures renderMaterial)[0]? with
      | some renderTexture => Except.ok renderTexture
      | none => Except.error GLFatal.indexOutOfRange)
    let self ←
      (if some renderTexture ≠ self.m_contextState.renderTexture then
        (do
          let self :=
            { self with
              m_contextState := self.m_contextState.SetRenderTexture (some renderTexture) }
          let glTexture ← dereference (self.GetTextureExtraData renderTexture)
          pure (self.call (GLCall.GLTexture_Bind glTexture)))
      else pure self)
    pure (self.call (GLCall.GLMaterial_Apply renderMaterial self.m_contextState.camera glShader))
  else
    pure self

/-- `RenderCommandProcessor::ApplyMesh`. -/
def RenderCommandProcessor.ApplyMesh (self : RenderCommandProcessor) (renderMesh : RenderMesh) :
    Except GLFatal RenderCommandProcessor :=
  if some renderMesh ≠ self.m_contextState.renderMesh then do
    let self :=
      { self with m_contextState := self.m_contextState.SetRenderMesh (some renderMesh) }
    let glMesh := self.GetMeshExtraData renderMesh
    let renderShader ← dereference self.m_contextState.renderShader
    let glShader := self.GetShaderExtraData renderShader
    let boundMesh ← dereference glMesh
    pure (self.call (GLCall.GLMesh_Bind boundMesh glShader))
  else
    pure self

/-- `RenderCommandProcessor::RenderInstance`. -/
def RenderCommandProcessor.RenderInstance (resources : RenderResources)
    (self : RenderCommandProcessor) (worldMatrix : Matrix4) :
    Except GLFatal RenderCommandProcessor := do
  let renderShader ← dereference self.m_contextState.renderShader
  let glShader ← dereference (self.GetShaderExtraData renderShader)
  let self := self.call
    (GLCall.SetUniform_wvpMat glShader worldMatrix self.m_contextState.camera.viewProjectionMatrix)
  let self := self.call (GLCall.SetUniform_normalMat glShader worldMatrix)
  let renderMesh ← dereference self.m_contextState.renderMesh
  if resources.GetNumIndices renderMesh > 0 then do
    let mode ← ToGLPolygonType (resources.GetPolygonType renderMesh)
    pure (self.call (GLCall.glDrawElements mode (resources.GetNumIndices renderMesh)))
  else do
    let mode ← ToGLPolygonType (resources.GetPolygonType renderMesh)
    pure (self.call (GLCall.glDrawArrays mode 0 (resources.GetNumVertices renderMesh)))

/-- `RenderCommandProcessor::End`. -/
def RenderCommandProcessor.End (self : RenderCommandProcessor) : RenderCommandProcessor :=
  { self with m_contextState := self.m_contextState.Reset }

/-- `RenderCommandProcessor::UnloadShader`. `CS_SAFEDELETE` deletes the backend object when
there is one; the resource is left without a live backend object. -/
def RenderCommandProcessor.UnloadShader (self : RenderCommandProcessor)
    (renderShader : RenderShader) : RenderCommandProcessor :=
  let contextState := self.m_contextState.SetRenderShader none
  let contextState := contextState.SetRenderMaterial none
  match self.GetShaderExtraData renderShader with
  | some glShader =>
    { self with
      m_contextState := contextState
      glShaders := self.glShaders.erase renderShader
      glCalls := self.glCalls ++ [GLCall.deleteGLShader glShader] }
  | none => { self with m_contextState := contextState }

/-- `RenderCommandProcessor::UnloadTexture`. -/
def RenderCommandProcessor.UnloadTexture (self : RenderCommandProcessor)
    (renderTexture : RenderTexture) : RenderCommandProcessor :=
  let contextState := self.m_contextState.SetRenderTexture none
  let contextState := contextState.SetRenderMaterial none
  match self.GetTextureExtraData renderTexture with
  | some glTexture =>
    { self with
      m_contextState := contextState
      glTextures := self.glTextures.erase renderTexture
      glCalls := self.glCalls ++ [GLCall.deleteGLTexture glTexture] }
  | none => { self with m_contextState := contextState }

/-- `RenderCommandProcessor::UnloadMesh`. -/
def RenderCommandProcessor.UnloadMesh (self : RenderCommandProcessor) (renderMesh : RenderMesh) :
    RenderCommandProcessor :=
  let contextState := self.m_contextState.SetRenderMesh none
  match self.GetMeshExtraData renderMesh with
  | some glMesh =>
    { self with
      m_contextState := contextState
      glMeshes := self.glMeshes.erase renderMesh
      glCalls := self.glCalls ++ [GLCall.deleteGLMesh glMesh] }
  | none => { self with m_contextState := contextState }

/-- A render command: one constructor per value of `RenderCommand::Type` with the fields
the processor reads, and `unknown` for a command whose type is any other value. The data
a load command carries (shader sources, texture and mesh bytes) goes into the backend
object and is left out. -/
inductive RenderCommand where
  | k_loadShader (renderShader : RenderShader)
  | k_loadTexture (renderTexture : RenderTexture)
  | k_loadMaterialGroup
  | k_loadMesh (renderMesh : RenderMesh)
  | k_begin (resolution : Vector2) (clearColour : Colour)
  | k_applyCamera (position : Vector3) (viewProjectionMatrix : Matrix4)
  | k_applyMaterial (renderMaterial : RenderMaterial)
  | k_applyMesh (renderMesh : RenderMesh)
  | k_renderInstance (worldMatrix : Matrix4)
  | k_end
  | k_unloadShader (renderShader : RenderShader)
  | k_unloadTexture (renderTexture : RenderTexture)
  | k_unloadMaterialGroup
  | k_unloadMesh (renderMesh : RenderMesh)
  | unknown (type : Nat)
  deriving DecidableEq, Repr

/-- Modelled from the spec: `RenderCommandList`, an ordered list of commands. -/
structure RenderCommandList where
  orderedList : List RenderCommand
  deriving DecidableEq, Repr

/-- Modelled from the spec: `RenderCommandBuffer`, the queue of the command lists, "in
submission order". -/
structure RenderCommandBuffer where
  queue : List RenderCommandList
  deriving DecidableEq, Repr

/-- The body of the loop of `RenderCommandProcessor::Process`: the switch on the type of
the command. -/
def RenderCommandProcessor.ProcessCommand (resources : RenderResources)
    (self : RenderCommandProcessor) (renderCommand : RenderCommand) :
    Except GLFatal RenderCommandProcessor :=
  match renderCommand with
  | RenderCommand.k_loadShader renderShader => pure (self.LoadShader renderShader)
  | RenderCommand.k_loadTexture renderTexture => pure (self.LoadTexture renderTexture)
  | RenderCommand.k_loadMaterialGroup => pure self
  | RenderCommand.k_loadMesh renderMesh => pure (self.LoadMesh renderMesh)
  | RenderCommand.k_begin resolution clearColour => pure (self.Begin resolution clearColour)
  | RenderCommand.k_applyCamera position viewProjectionMatrix =>
    pure (self.ApplyCamera position viewProjectionMatrix)
  | RenderCommand.k_applyMaterial renderMaterial => self.ApplyMaterial resources renderMaterial
  | RenderCommand.k_applyMesh renderMesh => self.ApplyMesh renderMesh
  | RenderCommand.k_renderInstance worldMatrix => self.RenderInstance resources worldMatrix
  | RenderCommand.k_end => pure self.End
  | RenderCommand.k_unloadShader renderShader => pure (self.UnloadShader renderShader)
  | RenderCommand.k_unloadTexture renderTexture => pure (self.UnloadTexture renderTexture)
  | RenderCommand.k_unloadMaterialGroup => pure self
  | RenderCommand.k_unloadMesh renderMesh => pure (self.UnloadMesh renderMesh)
  | RenderCommand.unknown _ => throw GLFatal.unknownRenderCommand

/-- `RenderCommandProcessor::Process`: every command of every list of the queue, in
order. -/
def RenderCommandProcessor.Process (resources : RenderResources) (self : RenderCommandProcessor)
    (renderCommandBuffer : RenderCommandBuffer) : Except GLFatal RenderCommandProcessor :=
  renderCommandBuffer.queue.foldlM
    (fun self renderCommandList =>
      renderCommandList.orderedList.foldlM
        (fun self renderCommand => self.ProcessCommand resources renderCommand) self)
    self

/-- A call that binds a shader. -/
def GLCall.isShaderBind : GLCall → Bool
  | GLCall.GLShader_Bind _ => true
  | _ => false

/-- A draw call. -/
def GLCall.isDraw : GLCall → Bool
  | GLCall.glDrawElements _ _ => true
  | GLCall.glDrawArrays _ _ _ => true
  | _ => false

/-! ## Example command buffers -/

/-- Resources in which every material has shader 1 and the textures 2 and 3, and every
mesh is a triangle list of 3 vertices and 3 indices. -/
def exampleResources : RenderResources :=
  ⟨fun _ => ⟨1⟩, fun _ => [⟨2⟩, ⟨3⟩], fun _ => PolygonType.k_triangle, fun _ => 3, fun _ => 3⟩

/-- The material M1 of scenario C. -/
def exampleM1 : RenderMaterial := ⟨10⟩

/-- A mesh. -/
def exampleMesh : RenderMesh := ⟨1, 0⟩

/-- A processor in which shader 1, textures 2 and 3 and `exampleMesh` are loaded, nothing
is bound and no call has been made. -/
def exampleProcessor : RenderCommandProcessor :=
  ⟨⟨none, none, none, none, GLCamera.unset⟩, [⟨1⟩], [⟨2⟩, ⟨3⟩], [exampleMesh], []⟩

/-- A processor with shader 5, texture 6, material `exampleM1` and `exampleMesh` bound. -/
def exampleBoundProcessor : RenderCommandProcessor :=
  ⟨⟨some ⟨5⟩, some ⟨6⟩, some exampleM1, some exampleMesh, ⟨⟨1, 2, 3⟩, Matrix4.matrix 4⟩⟩,
    [⟨1⟩, ⟨5⟩], [⟨2⟩, ⟨3⟩, ⟨6⟩], [exampleMesh], []⟩

/-- The command buffer of scenario C, as the spec writes it. -/
def scenarioCBuffer : RenderCommandBuffer :=
  ⟨[⟨[RenderCommand.k_begin ⟨640, 480⟩ ⟨0, 0, 0, 1⟩, RenderCommand.k_applyMaterial exampleM1,
    RenderCommand.k_applyMaterial exampleM1, RenderCommand.k_renderInstance (Matrix4.matrix 9),
    RenderCommand.k_end]⟩]⟩

/-- The command buffer of scenario C with the mesh applied before the draw. -/
def scenarioCBufferWithMesh : RenderCommandBuffer :=
  ⟨[⟨[RenderCommand.k_begin ⟨640, 480⟩ ⟨0, 0, 0, 1⟩, RenderCommand.k_applyMaterial exampleM1,
    RenderCommand.k_applyMaterial exampleM1, RenderCommand.k_applyMesh exampleMesh,
    RenderCommand.k_renderInstance (Matrix4.matrix 9), RenderCommand.k_end]⟩]⟩

/-- A processor with shader 5 and texture 2 bound, no material and no mesh bound. -/
def exampleTextureBoundProcessor : RenderCommandProcessor :=
  ⟨⟨some ⟨5⟩, some ⟨2⟩, none, none, ⟨⟨1, 2, 3⟩, Matrix4.matrix 4⟩⟩,
    [⟨1⟩, ⟨5⟩], [⟨2⟩, ⟨3⟩], [exampleMesh], []⟩

/-- Resources in which no material has a texture. -/
def exampleNoTextureResources : RenderResources :=
  ⟨fun _ => ⟨1⟩, fun _ => [], fun _ => PolygonType.k_triangle, fun _ => 3, fun _ => 3⟩

/-- The material slot of a context state agrees with its shader and texture slots: when
a material is bound, the bound shader is the shader of the material and the bound texture
is the first texture of the material. -/
def GLContextState.IsCoherent (contextState : GLContextState) (resources : RenderResources) :
    Prop :=
  ∀ M, contextState.renderMaterial = some M →
    contextState.renderShader = some (resources.GetRenderShader M)
    ∧ ∃ t, (resources.GetRenderTextures M)[0]? = some t ∧ contextState.renderTexture = some t

/-- A command buffer of two lists that applies a material and a mesh and draws, and does
not end the frame. -/
def exampleOpenBuffer : RenderCommandBuffer :=
  ⟨[⟨[RenderCommand.k_begin ⟨640, 480⟩ ⟨0, 0, 0, 1⟩, RenderCommand.k_applyMaterial exampleM1]⟩,
    ⟨[RenderCommand.k_applyMesh exampleMesh,
      RenderCommand.k_renderInstance (Matrix4.matrix 9)]⟩]⟩

/-! ## The renderer (`Renderer.cpp`)

`RenderComponent`, `CameraComponent`, `RendererSortPredicate` and `ICullingPredicate` are
declared in headers that are not part of the sources at hand; their fields are the ones
`Renderer.cpp` reads through the getters it calls. -/

/-- A `RenderComponent*`: the identity of the component and what the renderer and the
predicates of the examples read from it. -/
structure RenderComponent where
  id : Nat
  /-- `RenderComponent::IsVisible` -/
  IsVisible : Bool
  /-- `RenderComponent::IsCullingEnabled` -/
  IsCullingEnabled : Bool
  /-- `RenderComponent::GetMaterial`, the address of the material -/
  GetMaterial : Nat
  /-- `RenderComponent::GetBoundingSphere` -/
  GetBoundingSphere : Sphere
  deriving DecidableEq, Repr

/-- What a culling predicate reads from the `CameraComponent*` it is given, once
`UpdateFrustum` has been called. -/
structure CameraView where
  viewProjection : Matrix4
  /-- `CameraComponent::IsOrthographicView` -/
  IsOrthographicView : Bool
  deriving DecidableEq, Repr

/-- An `ICullingPredicate`: `CullItem` is true for a renderable that is to be culled. -/
structure ICullingPredicate where
  CullItem : CameraView → RenderComponent → Bool

/-- A `RendererSortPredicate`: `SortItem` once `PrepareForSort` has been given the
renderables, which are its first argument here. -/
structure RendererSortPredicate where
  SortItem : List RenderComponent → RenderComponent → RenderComponent → Bool

/-- A `CameraComponent*`: its view and the predicates of its own, each of which can be
null. -/
structure CameraComponent where
  view : CameraView
  /-- `CameraComponent::GetCullingPredicate` -/
  GetCullingPredicate : Option ICullingPredicate
  /-- `CameraComponent::GetOpaqueSortPredicate` -/
  GetOpaqueSortPredicate : Option RendererSortPredicate
  /-- `CameraComponent::GetTransparentSortPredicate` -/
  GetTransparentSortPredicate : Option RendererSortPredicate

/-- The members of `Renderer` that the sorts and the culling read. -/
structure Renderer where
  mpTransparentSortPredicate : Option RendererSortPredicate
  mpOpaqueSortPredicate : Option RendererSortPredicate
  mpPerspectiveCullPredicate : Option ICullingPredicate
  mpOrthoCullPredicate : Option ICullingPredicate

/-- `Renderer::Init`. The classes of the four predicates it creates are not part of the
sources at hand; the objects are arguments here, in the order in which `Init` creates
them. -/
def Renderer.Init (backToFrontSortPredicate materialSortPredicate : RendererSortPredicate)
    (frustumCullPredicate viewportCullPredicate : ICullingPredicate) : Renderer :=
  { mpTransparentSortPredicate := some backToFrontSortPredicate
    mpOpaqueSortPredicate := some materialSortPredicate
    mpPerspectiveCullPredicate := some frustumCullPredicate
    mpOrthoCullPredicate := some viewportCullPredicate }

/-- `Renderer::SetOpaqueSortPredicate`. -/
def Renderer.SetOpaqueSortPredicate (self : Renderer)
    (inpFunctor : Option RendererSortPredicate) : Renderer :=
  { self with mpOpaqueSortPredicate := inpFunctor }

/-- `Renderer::GetCullPredicate`. -/
def Renderer.GetCullPredicate (self : Renderer) (inpActiveCamera : CameraComponent) :
    Option ICullingPredicate :=
  match inpActiveCamera.GetCullingPredicate with
  | some pCullPredicate => some pCullPredicate
  | none =>
    if inpActiveCamera.view.IsOrthographicView then self.mpOrthoCullPredicate
    else self.mpPerspectiveCullPredicate

/-- `Renderer::CullRenderables(CameraComponent*, in, out)`: the contents of
`outaRenderCache` after the call. -/
def Renderer.CullRenderables (self : Renderer) (inpCamera : CameraComponent)
    (inaRenderCache outaRenderCache : List RenderComponent) : List RenderComponent :=
  match self.GetCullPredicate inpCamera with
  | none => inaRenderCache
  | some pCullingPredicate =>
    inaRenderCache.foldl
      (fun outaRenderCache pRenderable =>
        if pRenderable.IsVisible = false then outaRenderCache
        else if pRenderable.IsCullingEnabled = false
            || pCullingPredicate.CullItem inpCamera.view pRenderable = false then
          outaRenderCache ++ [pRenderable]
        else outaRenderCache)
      outaRenderCache

/-- Modelled from the spec: `BackToFrontSortPredicate` is not part of the sources at hand.
The spec: "strictly back-to-front by camera-space depth (farthest first)". The depth of a
renderable from the camera is an argument. -/
def BackToFrontSortPredicate (depth : RenderComponent → Int) : RendererSortPredicate :=
  ⟨fun _ a b => decide (depth b < depth a)⟩

/-- Modelled from the spec: `MaterialSortPredicate` is not part of the sources at hand.
The spec: "orders by material/shader key first (minimize state changes), then by
camera-relative depth, front-to-back, as a secondary key". -/
def MaterialSortPredicate (depth : RenderComponent → Int) : RendererSortPredicate :=
  ⟨fun _ a b => decide (a.GetMaterial < b.GetMaterial)
    || (decide (a.GetMaterial = b.GetMaterial) && decide (depth a < depth b))⟩

/-! ## Example renderables -/

/-- The depth of the examples: the z coordinate of the centre of the bounding sphere. -/
def exampleDepth (renderable : RenderComponent) : Int :=
  renderable.GetBoundingSphere.vOrigin.z

/-- A culling predicate that culls what lies behind the camera. -/
def exampleCullPredicate : ICullingPredicate :=
  ⟨fun _ renderable => decide (renderable.GetBoundingSphere.vOrigin.z < 0)⟩

/-- A renderer after `Init`. -/
def exampleRenderer : Renderer :=
  Renderer.Init (BackToFrontSortPredicate exampleDepth) (MaterialSortPredicate exampleDepth)
    exampleCullPredicate exampleCullPredicate

/-- A renderer without predicates. -/
def exampleBareRenderer : Renderer := ⟨none, none, none, none⟩

/-- A perspective camera without predicates of its own. -/
def exampleCameraComponent : CameraComponent :=
  ⟨⟨Matrix4.matrix 4, false⟩, none, none, none⟩

/-- A renderable of material 7 at depth 5. -/
def exampleRenderableA : RenderComponent := ⟨1, true, true, 7, ⟨⟨0, 0, 5⟩, 1⟩⟩

/-- A renderable that is not visible. -/
def exampleRenderableHidden : RenderComponent := ⟨4, false, true, 7, ⟨⟨0, 0, 5⟩, 1⟩⟩

/-- A renderable behind the camera, with culling enabled. -/
def exampleRenderableBehind : RenderComponent := ⟨5, true, true, 7, ⟨⟨0, 0, -3⟩, 1⟩⟩

/-- A renderable behind the camera, with culling disabled. -/
def exampleRenderableUnculled : RenderComponent := ⟨6, true, false, 7, ⟨⟨0, 0, -3⟩, 1⟩⟩

/-! ## Lemmas: material lookup and conversion -/

theorem u32_of_lt {n : Nat} (h : n < 4294967296) : u32 n = n :=
  Nat.mod_eq_of_lt h

theorem u32_lt (n : Nat) : u32 n < 4294967296 :=
  Nat.mod_lt n (by decide)

/-- A material returned by `GetRenderMaterial` is a material of the group. -/
theorem RenderMaterialGroup.contains_of_getRenderMaterial {g : RenderMaterialGroup}
    {vertexFormat : VertexFormat} {pass : ForwardRenderPasses} {m : RenderMaterial}
    (h : g.GetRenderMaterial vertexFormat pass = some m) : g.Contains m = true := by
  unfold RenderMaterialGroup.GetRenderMaterial at h
  unfold RenderMaterialGroup.Contains
  rw [Option.map_eq_some'] at h
  obtain ⟨e, he, hm⟩ := h
  rw [List.any_eq_true]
  exact ⟨e, List.mem_of_find?_eq_some he, by simp [hm]⟩

/-- When its assertion holds, `ConvertToRenderPassObject` copies the fields. -/
theorem ConvertToRenderPassObject_of_contains {renderObject : RenderObject}
    {renderMaterial : RenderMaterial}
    (h : renderObject.renderMaterialGroup.Contains renderMaterial = true) :
    ConvertToRenderPassObject renderObject renderMaterial
      = Except.ok (renderObject.toRenderPassObject renderMaterial) := by
  unfold ConvertToRenderPassObject RenderObject.toRenderPassObject
  rw [if_pos h]
  cases hm : renderObject.mesh <;> rfl

/-- The assertion of `ConvertToRenderPassObject` holds for the material the compiler looked
up in the group of the object. -/
theorem ConvertToRenderPassObject_of_materialFor {renderObject : RenderObject}
    {pass : ForwardRenderPasses} {renderMaterial : RenderMaterial}
    (h : renderObject.materialFor pass = some renderMaterial) :
    ConvertToRenderPassObject renderObject renderMaterial
      = Except.ok (renderObject.toRenderPassObject renderMaterial) :=
  ConvertToRenderPassObject_of_contains (RenderMaterialGroup.contains_of_getRenderMaterial h)

/-! ## Lemmas: the push-back loops -/

/-- A loop that pushes at most one element per step and never fails computes a
`filterMap`. -/
theorem foldlM_push_eq_filterMap {α β : Type} (step : List β → α → Except Fatal (List β))
    (f : α → Option β) (h : ∀ acc a, step acc a = Except.ok (acc ++ (f a).toList)) :
    ∀ (l : List α) (acc : List β), l.foldlM step acc = Except.ok (acc ++ l.filterMap f) := by
  intro l
  induction l with
  | nil => intro acc; simp [pure, Except.pure]
  | cons a l ih =>
    intro acc
    rw [List.foldlM_cons, h]
    show l.foldlM step (acc ++ (f a).toList) = _
    rw [ih]
    cases hfa : f a <;> simp [List.filterMap_cons, hfa]

theorem GetLayerRenderObjects_eq_filter (renderLayer : RenderLayer)
    (renderObjects : List RenderObject) :
    GetLayerRenderObjects renderLayer renderObjects
      = renderObjects.filter (fun o => decide (o.renderLayer = renderLayer)) := by
  unfold GetLayerRenderObjects
  suffices h : ∀ (l acc : List RenderObject),
      l.foldl (fun layerRenderObjects renderObject =>
        if renderObject.renderLayer = renderLayer then layerRenderObjects ++ [renderObject]
        else layerRenderObjects) acc
      = acc ++ l.filter (fun o => decide (o.renderLayer = renderLayer)) by
    simpa using h renderObjects []
  intro l
  induction l with
  | nil => intro acc; simp
  | cons a l ih =>
    intro acc
    rw [List.foldl_cons, ih]
    by_cases ha : a.renderLayer = renderLayer <;> simp [List.filter_cons, ha]

theorem GetBaseRenderPassObjects_eq (renderObjects : List RenderObject) :
    GetBaseRenderPassObjects renderObjects
      = Except.ok (renderObjects.filterMap
          (passObjectOf ForwardRenderPasses.k_base (fun _ => true))) := by
  unfold GetBaseRenderPassObjects
  rw [foldlM_push_eq_filterMap _ (passObjectOf ForwardRenderPasses.k_base (fun _ => true))]
  · simp
  · intro acc o
    show (match o.materialFor ForwardRenderPasses.k_base with
      | some renderMaterial => do
        let renderPassObject ← ConvertToRenderPassObject o renderMaterial
        pure (acc ++ [renderPassObject])
      | none => pure acc) = _
    unfold passObjectOf
    cases hm : o.materialFor ForwardRenderPasses.k_base with
    | none => simp [pure, Except.pure]
    | some m =>
      simp [ConvertToRenderPassObject_of_materialFor hm, pure, Except.pure, bind, Except.bind]

theorem GetTransparentRenderPassObjects_eq (renderObjects : List RenderObject) :
    GetTransparentRenderPassObjects renderObjects
      = Except.ok (renderObjects.filterMap
          (passObjectOf ForwardRenderPasses.k_transparent (fun _ => true))) := by
  unfold GetTransparentRenderPassObjects
  rw [foldlM_push_eq_filterMap _
    (passObjectOf ForwardRenderPasses.k_transparent (fun _ => true))]
  · simp
  · intro acc o
    show (match o.materialFor ForwardRenderPasses.k_transparent with
      | some renderMaterial => do
        let renderPassObject ← ConvertToRenderPassObject o renderMaterial
        pure (acc ++ [renderPassObject])
      | none => pure acc) = _
    unfold passObjectOf
    cases hm : o.materialFor ForwardRenderPasses.k_transparent with
    | none => simp [pure, Except.pure]
    | some m =>
      simp [ConvertToRenderPassObject_of_materialFor hm, pure, Except.pure, bind, Except.bind]

theorem GetDirectionalLightRenderPassObjects_eq (renderObjects : List RenderObject)
    (directionalRenderLight : DirectionalRenderLight) :
    GetDirectionalLightRenderPassObjects renderObjects directionalRenderLight
      = Except.ok (renderObjects.filterMap
          (passObjectOf (directionalPassType directionalRenderLight) (fun _ => true))) := by
  unfold GetDirectionalLightRenderPassObjects
  rw [foldlM_push_eq_filterMap _
    (passObjectOf (directionalPassType directionalRenderLight) (fun _ => true))]
  · simp
  · intro acc o
    show (match o.materialFor (directionalPassType directionalRenderLight) with
      | some renderMaterial => do
        let renderPassObject ← ConvertToRenderPassObject o renderMaterial
        pure (acc ++ [renderPassObject])
      | none => pure acc) = _
    unfold passObjectOf
    cases hm : o.materialFor (directionalPassType directionalRenderLight) with
    | none => simp [pure, Except.pure]
    | some m =>
      simp [ConvertToRenderPassObject_of_materialFor hm, pure, Except.pure, bind, Except.bind]

theorem GetShadowMapRenderPassObjects_eq (renderObjects : List RenderObject) :
    GetShadowMapRenderPassObjects renderObjects
      = Except.ok (renderObjects.filterMap
          (passObjectOf ForwardRenderPasses.k_shadowMap (fun o => o.shouldCastShadows))) := by
  unfold GetShadowMapRenderPassObjects
  rw [foldlM_push_eq_filterMap _
    (passObjectOf ForwardRenderPasses.k_shadowMap (fun o => o.shouldCastShadows))]
  · simp
  · intro acc o
    show (if o.shouldCastShadows = true then
      (match o.materialFor ForwardRenderPasses.k_shadowMap with
      | some renderMaterial => do
        let renderPassObject ← ConvertToRenderPassObject o renderMaterial
        pure (acc ++ [renderPassObject])
      | none => pure acc) else pure acc) = _
    cases hs : o.shouldCastShadows with
    | false => simp [passObjectOf, hs, pure, Except.pure]
    | true =>
      cases hm : o.materialFor ForwardRenderPasses.k_shadowMap with
      | none => simp [passObjectOf, hm, pure, Except.pure]
      | some m =>
        simp [passObjectOf, hs, hm, ConvertToRenderPassObject_of_materialFor hm, pure,
          Except.pure, bind, Except.bind]

theorem GetPointLightRenderPassObjects_eq (renderObjects : List RenderObject)
    (pointRenderLight : PointRenderLight) :
    GetPointLightRenderPassObjects renderObjects pointRenderLight
      = Except.ok (renderObjects.filterMap
          (passObjectOf ForwardRenderPasses.k_pointLight
            (fun o => pointRenderLight.boundingSphere.Contains o.boundingSphere))) := by
  unfold GetPointLightRenderPassObjects
  rw [foldlM_push_eq_filterMap _
    (passObjectOf ForwardRenderPasses.k_pointLight
      (fun o => pointRenderLight.boundingSphere.Contains o.boundingSphere))]
  · simp
  · intro acc o
    show (match o.materialFor ForwardRenderPasses.k_pointLight with
      | some renderMaterial =>
        if pointRenderLight.boundingSphere.Contains o.boundingSphere = true then do
          let renderPassObject ← ConvertToRenderPassObject o renderMaterial
          pure (acc ++ [renderPassObject])
        else pure acc
      | none => pure acc) = _
    cases hm : o.materialFor ForwardRenderPasses.k_pointLight with
    | none => simp [passObjectOf, hm, pure, Except.pure]
    | some m =>
      cases hc : pointRenderLight.boundingSphere.Contains o.boundingSphere with
      | false => simp [passObjectOf, hc, pure, Except.pure]
      | true =>
        simp [passObjectOf, hc, hm, ConvertToRenderPassObject_of_materialFor hm, pure,
          Except.pure, bind, Except.bind]

/-! ## Lemmas: tasks that fill consecutive slots -/

theorem writeTask_apply {α : Type} (i : Nat) (x : α) (v : List α) :
    writeTask i x v = writeSlot v i x := rfl

theorem consecutiveWrites_nil {α : Type} (k : Nat) :
    consecutiveWrites k ([] : List α) = [] := rfl

theorem consecutiveWrites_cons {α : Type} (k : Nat) (x : α) (xs : List α) :
    consecutiveWrites k (x :: xs) = writeTask k x :: consecutiveWrites (k + 1) xs := rfl

theorem consecutiveWrites_append {α : Type} (xs ys : List α) (k : Nat) :
    consecutiveWrites k (xs ++ ys)
      = consecutiveWrites k xs ++ consecutiveWrites (k + xs.length) ys := by
  induction xs generalizing k with
  | nil => simp [consecutiveWrites]
  | cons x xs ih =>
    show writeTask k x :: consecutiveWrites (k + 1) (xs ++ ys) = _
    rw [ih, show k + 1 + xs.length = k + (x :: xs).length by simp; omega]
    rfl

theorem ProcessChildTasks_nil {α : Type} (v : List α) :
    ProcessChildTasks ([] : List (Task α)) v = Except.ok v := rfl

theorem ProcessChildTasks_cons {α : Type} (task : Task α) (tasks : List (Task α)) (v : List α) :
    ProcessChildTasks (task :: tasks) v = (task v >>= fun w => ProcessChildTasks tasks w) := by
  unfold ProcessChildTasks
  rw [List.foldlM_cons]

theorem ProcessChildTasks_append {α : Type} (tasks more : List (Task α)) (v : List α) :
    ProcessChildTasks (tasks ++ more) v
      = (ProcessChildTasks tasks v >>= fun w => ProcessChildTasks more w) := by
  unfold ProcessChildTasks
  rw [List.foldlM_append]

/-- A write into the first free slot of a partly filled vector. -/
theorem writeSlot_first_free {α : Type} (done rest : List α) (d x : α) :
    writeSlot (done ++ d :: rest) done.length x = Except.ok (done ++ x :: rest) := by
  unfold writeSlot
  rw [if_pos (by simp)]
  congr 1
  simp

/-- Tasks that write `xs` into the consecutive slots that follow `done` fill them. -/
theorem ProcessChildTasks_consecutiveWrites {α : Type} (d : α) (xs : List α) :
    ∀ (done : List α) (m : Nat),
      ProcessChildTasks (consecutiveWrites done.length xs)
          (done ++ List.replicate (xs.length + m) d)
        = Except.ok (done ++ xs ++ List.replicate m d) := by
  induction xs with
  | nil => intro done m; simp [consecutiveWrites, ProcessChildTasks_nil]
  | cons x xs ih =>
    intro done m
    simp only [consecutiveWrites, ProcessChildTasks_cons, writeTask_apply]
    rw [show (x :: xs).length + m = (xs.length + m) + 1 by simp; omega, List.replicate_succ,
      writeSlot_first_free]
    show ProcessChildTasks (consecutiveWrites (done.length + 1) xs)
      (done ++ x :: List.replicate (xs.length + m) d) = _
    have h := ih (done ++ [x]) m
    simp only [List.length_append, List.length_singleton, List.append_assoc,
      List.singleton_append] at h
    rw [h]
    simp

/-- Filling a fresh vector of exactly as many slots as there are tasks. -/
theorem ProcessChildTasks_fill {α : Type} (d : α) (xs : List α) :
    ProcessChildTasks (consecutiveWrites 0 xs) (List.replicate xs.length d) = Except.ok xs := by
  have h := ProcessChildTasks_consecutiveWrites d xs [] 0
  simpa using h

/-! ## Lemmas: the scene camera group -/

theorem CalculateVisibleObjects_standard (maths : RenderMaths) (renderFrame : RenderFrame) :
    CalculateVisibleObjects maths renderFrame.renderCamera
        (GetLayerRenderObjects RenderLayer.k_standard renderFrame.renderObjects)
      = visibleStandardObjects maths renderFrame := by
  rw [GetLayerRenderObjects_eq_filter]
  rfl

theorem CalculateVisibleObjects_ui (maths : RenderMaths) (renderFrame : RenderFrame) :
    CalculateVisibleObjects maths (uiCamera renderFrame)
        (GetLayerRenderObjects RenderLayer.k_ui renderFrame.renderObjects)
      = visibleUIObjects maths renderFrame := by
  rw [GetLayerRenderObjects_eq_filter]
  rfl

theorem sceneBasePassTask_eq (maths : RenderMaths) (renderFrame : RenderFrame) (i : Nat) :
    sceneBasePassTask maths renderFrame (visibleStandardObjects maths renderFrame) i
      = writeTask i (expectedBasePass maths renderFrame) := by
  funext v
  unfold sceneBasePassTask
  rw [GetBaseRenderPassObjects_eq]
  rfl

theorem sceneDirectionalLightPassTask_eq (maths : RenderMaths) (renderFrame : RenderFrame)
    (i : Nat) (directionalLight : DirectionalRenderLight) :
    sceneDirectionalLightPassTask maths renderFrame (visibleStandardObjects maths renderFrame) i
        directionalLight
      = writeTask i (expectedDirectionalLightPass maths renderFrame directionalLight) := by
  funext v
  unfold sceneDirectionalLightPassTask
  rw [GetDirectionalLightRenderPassObjects_eq]
  rfl

theorem scenePointLightPassTask_eq (maths : RenderMaths) (renderFrame : RenderFrame)
    (i : Nat) (pointLight : PointRenderLight) :
    scenePointLightPassTask maths renderFrame (visibleStandardObjects maths renderFrame) i
        pointLight
      = writeTask i (expectedPointLightPass maths renderFrame pointLight) := by
  funext v
  unfold scenePointLightPassTask
  rw [GetPointLightRenderPassObjects_eq]
  rfl

theorem sceneTransparentPassTask_eq (maths : RenderMaths) (renderFrame : RenderFrame) (i : Nat) :
    sceneTransparentPassTask maths renderFrame (visibleStandardObjects maths renderFrame) i
      = writeTask i (expectedTransparentPass maths renderFrame) := by
  funext v
  unfold sceneTransparentPassTask
  rw [GetTransparentRenderPassObjects_eq]
  rfl

/-- A loop that hands the next index to one new task per element builds tasks for
consecutive slots, as long as the `u32` index does not wrap. -/
theorem foldl_indexed_tasks {α β : Type} (mk : Nat → β → Task α) (val : β → α)
    (hmk : ∀ i b, mk i b = writeTask i (val b)) :
    ∀ (ls : List β) (tasks : List (Task α)) (n : Nat), n + ls.length < 4294967296 →
      ls.foldl (fun (state : List (Task α) × Nat) b =>
          (state.1 ++ [mk state.2 b], u32 (state.2 + 1))) (tasks, n)
        = (tasks ++ consecutiveWrites n (ls.map val), n + ls.length) := by
  intro ls
  induction ls with
  | nil => intro tasks n _; simp [consecutiveWrites]
  | cons b ls ih =>
    intro tasks n hn
    simp only [List.length_cons] at hn
    rw [List.foldl_cons]
    show ls.foldl _ (tasks ++ [mk n b], u32 (n + 1)) = _
    rw [u32_of_lt (by omega), ih _ _ (by omega), hmk]
    simp only [List.map_cons, consecutiveWrites, List.append_assoc, List.singleton_append,
      List.length_cons]
    congr 1
    omega

theorem expectedScenePasses_length (maths : RenderMaths) (renderFrame : RenderFrame) :
    (expectedScenePasses maths renderFrame).length
      = 2 + renderFrame.directionalRenderLights.length + renderFrame.pointRenderLights.length := by
  simp [expectedScenePasses]
  omega

theorem sceneTasks_eq (maths : RenderMaths) (renderFrame : RenderFrame)
    (h : 2 + renderFrame.directionalRenderLights.length + renderFrame.pointRenderLights.length
      < 4294967296) :
    (sceneTasks maths renderFrame (visibleStandardObjects maths renderFrame)).1
      = consecutiveWrites 0 (expectedScenePasses maths renderFrame) := by
  unfold sceneTasks
  simp only []
  rw [foldl_indexed_tasks _ _ (sceneDirectionalLightPassTask_eq maths renderFrame) _ _ _
    (by rw [u32_of_lt (by omega)]; omega)]
  simp only []
  rw [foldl_indexed_tasks _ _ (scenePointLightPassTask_eq maths renderFrame) _ _ _
    (by rw [u32_of_lt (by omega)]; omega)]
  have hE : expectedScenePasses maths renderFrame
      = expectedBasePass maths renderFrame ::
        (renderFrame.directionalRenderLights.map (expectedDirectionalLightPass maths renderFrame)
          ++ (renderFrame.pointRenderLights.map (expectedPointLightPass maths renderFrame)
            ++ [expectedTransparentPass maths renderFrame])) := by
    simp [expectedScenePasses]
  rw [hE, consecutiveWrites_cons, consecutiveWrites_append, consecutiveWrites_append,
    consecutiveWrites_cons, consecutiveWrites_nil]
  simp only [sceneBasePassTask_eq, sceneTransparentPassTask_eq,
    u32_of_lt (show 0 + 1 < 4294967296 by omega), List.length_map, List.append_assoc,
    List.singleton_append, List.cons_append, List.nil_append]

theorem CalcNumScenePasses_eq (renderFrame : RenderFrame)
    (h : 2 + renderFrame.directionalRenderLights.length + renderFrame.pointRenderLights.length
      < 4294967296) :
    CalcNumScenePasses renderFrame
      = 2 + renderFrame.directionalRenderLights.length + renderFrame.pointRenderLights.length := by
  unfold CalcNumScenePasses
  simp only []
  rw [u32_of_lt (show renderFrame.directionalRenderLights.length < 4294967296 by omega),
    u32_of_lt (show renderFrame.pointRenderLights.length < 4294967296 by omega),
    u32_of_lt (show 2 + renderFrame.directionalRenderLights.length < 4294967296 by omega),
    u32_of_lt h]

/-- The scene camera group of a frame whose pass count fits a `u32`. -/
theorem CompleSceneCameraRenderPassGroup_eq (maths : RenderMaths) (renderFrame : RenderFrame)
    (h : 2 + renderFrame.directionalRenderLights.length + renderFrame.pointRenderLights.length
      < 4294967296) :
    CompleSceneCameraRenderPassGroup maths renderFrame
      = Except.ok ⟨renderFrame.renderCamera, expectedScenePasses maths renderFrame⟩ := by
  unfold CompleSceneCameraRenderPassGroup
  simp only []
  rw [CalculateVisibleObjects_standard, sceneTasks_eq maths renderFrame h,
    CalcNumScenePasses_eq renderFrame h, ← expectedScenePasses_length maths renderFrame,
    ProcessChildTasks_fill]
  rfl

/-! ## Lemmas: the sorter -/

theorem OpaqueSort_perm (maths : RenderMaths) (camera : RenderCamera)
    (l : List RenderPassObject) : (OpaqueSort maths camera l).Perm l :=
  List.perm_insertionSort _ l

theorem TransparentSort_perm (maths : RenderMaths) (camera : RenderCamera)
    (l : List RenderPassObject) : (TransparentSort maths camera l).Perm l :=
  List.perm_insertionSort _ l

theorem PrioritySort_perm (l : List RenderPassObject) : (PrioritySort l).Perm l :=
  List.perm_insertionSort _ l

theorem mem_OpaqueSort {maths : RenderMaths} {camera : RenderCamera}
    {l : List RenderPassObject} {x : RenderPassObject} :
    x ∈ OpaqueSort maths camera l ↔ x ∈ l :=
  (OpaqueSort_perm maths camera l).mem_iff

theorem mem_TransparentSort {maths : RenderMaths} {camera : RenderCamera}
    {l : List RenderPassObject} {x : RenderPassObject} :
    x ∈ TransparentSort maths camera l ↔ x ∈ l :=
  (TransparentSort_perm maths camera l).mem_iff

/-! ## Lemmas: membership in a pass -/

theorem mem_visibleStandardObjects {maths : RenderMaths} {renderFrame : RenderFrame}
    {o : RenderObject} :
    o ∈ visibleStandardObjects maths renderFrame
      ↔ o ∈ renderFrame.renderObjects ∧ o.renderLayer = RenderLayer.k_standard
        ∧ maths.IsVisible renderFrame.renderCamera o = true := by
  simp only [visibleStandardObjects, List.mem_filter, decide_eq_true_eq]
  tauto

theorem mem_visibleUIObjects {maths : RenderMaths} {renderFrame : RenderFrame}
    {o : RenderObject} :
    o ∈ visibleUIObjects maths renderFrame
      ↔ o ∈ renderFrame.renderObjects ∧ o.renderLayer = RenderLayer.k_ui
        ∧ maths.IsVisible (uiCamera renderFrame) o = true := by
  simp only [visibleUIObjects, List.mem_filter, decide_eq_true_eq]
  tauto

/-- A render pass object is in the objects gathered for a pass exactly when it is the
render pass object of one of the objects that `keep` lets through, with the material of
that object for the pass. -/
theorem mem_filterMap_passObjectOf {pass : ForwardRenderPasses} {keep : RenderObject → Bool}
    {l : List RenderObject} {x : RenderPassObject} :
    x ∈ l.filterMap (passObjectOf pass keep)
      ↔ ∃ o ∈ l, keep o = true ∧ ∃ m, o.materialFor pass = some m
          ∧ x = o.toRenderPassObject m := by
  rw [List.mem_filterMap]
  constructor
  · rintro ⟨o, ho, hx⟩
    unfold passObjectOf at hx
    by_cases hk : keep o = true
    · rw [if_pos hk, Option.map_eq_some'] at hx
      obtain ⟨m, hm, rfl⟩ := hx
      exact ⟨o, ho, hk, m, hm, rfl⟩
    · rw [if_neg hk] at hx
      exact absurd hx (by simp)
  · rintro ⟨o, ho, hk, m, hm, rfl⟩
    exact ⟨o, ho, by simp [passObjectOf, hk, hm]⟩

theorem length_filterMap_le' {α β : Type} (f : α → Option β) (l : List α) :
    (l.filterMap f).length ≤ l.length := by
  induction l with
  | nil => simp
  | cons a l ih =>
    rw [List.filterMap_cons]
    cases f a <;> simp <;> omega

/-- A `filterMap` keeps the length exactly when no element is dropped. -/
theorem length_filterMap_eq_iff {α β : Type} (f : α → Option β) (l : List α) :
    l.length = (l.filterMap f).length ↔ ∀ a ∈ l, (f a).isSome = true := by
  induction l with
  | nil => simp
  | cons a l ih =>
    rw [List.filterMap_cons]
    have hle := length_filterMap_le' f l
    cases hfa : f a with
    | none =>
      simp only [List.length_cons, List.mem_cons, forall_eq_or_imp, hfa, Option.isSome_none]
      constructor
      · intro h; omega
      · intro h; exact absurd h.1 (by simp)
    | some b =>
      simp only [List.length_cons, List.mem_cons, forall_eq_or_imp, hfa, Option.isSome_some,
        true_and]
      rw [← ih]
      omega

theorem passObjectOf_isSome_iff (pass : ForwardRenderPasses) (o : RenderObject) :
    (passObjectOf pass (fun _ => true) o).isSome = (o.materialFor pass).isSome := by
  simp [passObjectOf]

/-! ## Lemmas: the UI camera group and the shadow map target group -/

/-- The passes of the UI camera group when the assertion on the UI objects holds. -/
theorem CompileUICameraRenderPassGroup_eq (maths : RenderMaths) (renderFrame : RenderFrame) :
    CompileUICameraRenderPassGroup maths renderFrame
      = if (visibleUIObjects maths renderFrame).length
            = ((visibleUIObjects maths renderFrame).filterMap
                (passObjectOf ForwardRenderPasses.k_transparent (fun _ => true))).length then
          Except.ok ⟨uiCamera renderFrame, expectedUIPasses maths renderFrame⟩
        else Except.error Fatal.invalidNumberOfUIPassObjects := by
  unfold CompileUICameraRenderPassGroup
  simp only []
  rw [CalculateVisibleObjects_ui, GetTransparentRenderPassObjects_eq]
  rfl

theorem CompileShadowMapTargetRenderPassGroup_eq (maths : RenderMaths)
    (renderFrame : RenderFrame) (directionalRenderLight : DirectionalRenderLight)
    (h : directionalRenderLight.shadowMapTarget.isSome = true) :
    CompileShadowMapTargetRenderPassGroup maths renderFrame directionalRenderLight
      = Except.ok (expectedShadowTargetGroup maths renderFrame directionalRenderLight) := by
  unfold CompileShadowMapTargetRenderPassGroup
  rw [if_pos h]
  simp only []
  rw [CalculateVisibleObjects_standard, GetShadowMapRenderPassObjects_eq]
  rfl

/-! ## Lemmas: the target groups -/

theorem writeSlot_length {α : Type} {v w : List α} {i : Nat} {x : α}
    (h : writeSlot v i x = Except.ok w) : w.length = v.length := by
  unfold writeSlot at h
  by_cases hi : i < v.length
  · rw [if_pos hi] at h
    cases h
    simp
  · rw [if_neg hi] at h
    cases h

theorem writeSlot_length_self {α : Type} (v : List α) (x : α) :
    writeSlot v v.length x = Except.error Fatal.indexOutOfRange := by
  unfold writeSlot
  rw [if_neg (Nat.lt_irrefl _)]

theorem shadowTargetTask_length {maths : RenderMaths} {renderFrame : RenderFrame} {i : Nat}
    {light : DirectionalRenderLight} {v w : List TargetRenderPassGroup}
    (h : shadowTargetTask maths renderFrame i light v = Except.ok w) : w.length = v.length := by
  unfold shadowTargetTask at h
  cases hc : CompileShadowMapTargetRenderPassGroup maths renderFrame light with
  | error e => rw [hc] at h; cases h
  | ok g =>
    rw [hc] at h
    exact writeSlot_length h

/-- Tasks that keep the size of the vector: so does running them. -/
theorem ProcessChildTasks_length {α : Type} (tasks : List (Task α))
    (htasks : ∀ t ∈ tasks, ∀ v w, t v = Except.ok w → w.length = v.length) :
    ∀ v w, ProcessChildTasks tasks v = Except.ok w → w.length = v.length := by
  induction tasks with
  | nil =>
    intro v w h
    rw [ProcessChildTasks_nil] at h
    cases h
    rfl
  | cons t tasks ih =>
    intro v w h
    rw [ProcessChildTasks_cons] at h
    cases ht : t v with
    | error e => rw [ht] at h; cases h
    | ok u =>
      rw [ht] at h
      have h1 := htasks t (List.mem_cons_self _ _) v u ht
      have h2 := ih (fun t2 h2 => htasks t2 (List.mem_cons_of_mem _ h2)) u w h
      omega

/-- The step of the loop over the directional lights in
`CompileTargetRenderPassGroups`. -/
theorem shadowTargetTasks_foldl_snd (maths : RenderMaths) (renderFrame : RenderFrame) :
    ∀ (ls : List DirectionalRenderLight) (tasks : List (Task TargetRenderPassGroup)) (n : Nat),
      (ls.foldl
        (fun (state : List (Task TargetRenderPassGroup) × Nat) directionalRenderLight =>
          if directionalRenderLight.shadowMapTarget.isSome then
            (state.1 ++ [shadowTargetTask maths renderFrame state.2 directionalRenderLight],
              u32 (state.2 + 1))
          else state) (tasks, n)).2
      = ls.foldl (fun numShadowCastingLights directionalRenderLight =>
          if directionalRenderLight.shadowMapTarget.isSome then u32 (numShadowCastingLights + 1)
          else numShadowCastingLights) n := by
  intro ls
  induction ls with
  | nil => intro tasks n; rfl
  | cons l ls ih =>
    intro tasks n
    rw [List.foldl_cons, List.foldl_cons]
    by_cases hl : l.shadowMapTarget.isSome = true
    · simp only [hl, if_true]
      exact ih _ _
    · simp only [hl]
      exact ih _ _

theorem shadowTargetTasks_foldl_mem (maths : RenderMaths) (renderFrame : RenderFrame) :
    ∀ (ls : List DirectionalRenderLight) (tasks : List (Task TargetRenderPassGroup)) (n : Nat),
      ∀ t ∈ (ls.foldl
        (fun (state : List (Task TargetRenderPassGroup) × Nat) directionalRenderLight =>
          if directionalRenderLight.shadowMapTarget.isSome then
            (state.1 ++ [shadowTargetTask maths renderFrame state.2 directionalRenderLight],
              u32 (state.2 + 1))
          else state) (tasks, n)).1,
        t ∈ tasks ∨ ∃ i light, t = shadowTargetTask maths renderFrame i light := by
  intro ls
  induction ls with
  | nil => intro tasks n t ht; exact Or.inl ht
  | cons l ls ih =>
    intro tasks n t ht
    rw [List.foldl_cons] at ht
    by_cases hl : l.shadowMapTarget.isSome = true
    · simp only [hl, if_true] at ht
      rcases ih _ _ t ht with h | h
      · rcases List.mem_append.mp h with h | h
        · exact Or.inl h
        · exact Or.inr ⟨n, l, by simpa using h⟩
      · exact Or.inr h
    · simp only [hl] at ht
      exact ih _ _ t ht

/-- The main target task is handed the value of `CalcNumTargets`, the size of the
vector, as its index. -/
theorem mainPassIndex_eq_CalcNumTargets (maths : RenderMaths) (renderFrame : RenderFrame) :
    mainPassIndex maths renderFrame = CalcNumTargets renderFrame := by
  unfold mainPassIndex shadowTargetTasks CalcNumTargets
  exact shadowTargetTasks_foldl_snd maths renderFrame _ _ _

theorem mainTargetTask_error (maths : RenderMaths) (renderFrame : RenderFrame)
    (v : List TargetRenderPassGroup) :
    ∃ e, mainTargetTask maths renderFrame v.length v = Except.error e := by
  unfold mainTargetTask
  cases hc : CompileMainTargetRenderPassGroup maths renderFrame with
  | error e => exact ⟨e, rfl⟩
  | ok g => exact ⟨Fatal.indexOutOfRange, writeSlot_length_self v g⟩

/-- No frame makes `CompileTargetRenderPassGroups` return a vector. -/
theorem CompileTargetRenderPassGroups_error (maths : RenderMaths) (renderFrame : RenderFrame) :
    ∃ e, CompileTargetRenderPassGroups maths renderFrame = Except.error e := by
  unfold CompileTargetRenderPassGroups
  simp only []
  rw [ProcessChildTasks_append]
  cases hs : ProcessChildTasks (shadowTargetTasks maths renderFrame).1
      (List.replicate (CalcNumTargets renderFrame) TargetRenderPassGroup.empty) with
  | error e => exact ⟨e, rfl⟩
  | ok w =>
    have hlen : w.length = CalcNumTargets renderFrame := by
      have := ProcessChildTasks_length (shadowTargetTasks maths renderFrame).1 (by
        intro t ht v u htv
        rcases shadowTargetTasks_foldl_mem maths renderFrame _ _ _ t ht with h | ⟨i, l, rfl⟩
        · cases h
        · exact shadowTargetTask_length htv) _ w hs
      simpa using this
    obtain ⟨e, he⟩ := mainTargetTask_error maths renderFrame w
    refine ⟨e, ?_⟩
    show ProcessChildTasks [mainTargetTask maths renderFrame (mainPassIndex maths renderFrame)] w
      = _
    rw [ProcessChildTasks_cons, mainPassIndex_eq_CalcNumTargets, ← hlen, he]
    rfl

/-- The loop over the directional lights gives the lights with a shadow map target
consecutive indices, as long as the `u32` index does not wrap. -/
theorem foldl_indexed_tasks_if {α β : Type} (p : β → Bool) (mk : Nat → β → Task α)
    (val : β → α) (hmk : ∀ i b, p b = true → mk i b = writeTask i (val b)) :
    ∀ (ls : List β) (tasks : List (Task α)) (n : Nat),
      n + (ls.filter p).length < 4294967296 →
      ls.foldl (fun (state : List (Task α) × Nat) b =>
          if p b then (state.1 ++ [mk state.2 b], u32 (state.2 + 1)) else state) (tasks, n)
        = (tasks ++ consecutiveWrites n ((ls.filter p).map val), n + (ls.filter p).length) := by
  intro ls
  induction ls with
  | nil => intro tasks n _; simp [consecutiveWrites]
  | cons b ls ih =>
    intro tasks n hn
    rw [List.foldl_cons]
    by_cases hb : p b = true
    · simp only [List.filter_cons, hb, if_true, List.length_cons] at hn ⊢
      rw [u32_of_lt (by omega), ih _ _ (by omega), hmk _ _ hb]
      simp only [List.map_cons, consecutiveWrites, List.append_assoc, List.singleton_append,
        List.length_cons]
      congr 1
      omega
    · simp only [List.filter_cons, hb] at hn ⊢
      exact ih _ _ hn

theorem shadowTargetTask_eq (maths : RenderMaths) (renderFrame : RenderFrame) (i : Nat)
    (light : DirectionalRenderLight) (h : light.shadowMapTarget.isSome = true) :
    shadowTargetTask maths renderFrame i light
      = writeTask i (expectedShadowTargetGroup maths renderFrame light) := by
  funext v
  unfold shadowTargetTask
  rw [CompileShadowMapTargetRenderPassGroup_eq maths renderFrame light h]
  rfl

theorem shadowTargetTasks_eq (maths : RenderMaths) (renderFrame : RenderFrame)
    (h : (shadowLights renderFrame).length < 4294967296) :
    shadowTargetTasks maths renderFrame
      = (consecutiveWrites 0
          ((shadowLights renderFrame).map (expectedShadowTargetGroup maths renderFrame)),
        (shadowLights renderFrame).length) := by
  unfold shadowTargetTasks
  have := foldl_indexed_tasks_if (fun l : DirectionalRenderLight => l.shadowMapTarget.isSome)
    (shadowTargetTask maths renderFrame) (expectedShadowTargetGroup maths renderFrame)
    (fun i b hb => shadowTargetTask_eq maths renderFrame i b hb)
    renderFrame.directionalRenderLights [] 0 (by simpa [shadowLights] using h)
  simpa [shadowLights] using this

/-! ## The target groups of a frame -/

/-- C1 (evaluation at a frame with N = 1): for the frame `frameOneShadowLight`, whose only
directional light has a shadow map target, `CalcNumTargets` is 1, so the vector has one
slot, and `CompileTargetRenderPassGroups` ends in the write of the main target group past
the end of that vector instead of returning N + 1 = 2 groups. -/
theorem CompileTargetRenderPassGroups_frameOneShadowLight :
    (shadowLights frameOneShadowLight).length = 1
      ∧ CalcNumTargets frameOneShadowLight = 1
      ∧ CompileTargetRenderPassGroups exampleMaths frameOneShadowLight
          = Except.error Fatal.indexOutOfRange := by
  decide

/-- C2 (the index of the main target): for every frame the index `mainPassIndex` written
by the main target task equals `CalcNumTargets`, the length of the pre-sized vector, so
it is not strictly below that length and the indexed write of the main target group takes
the out-of-range branch. -/
theorem mainPassIndex_not_below_size (maths : RenderMaths) (renderFrame : RenderFrame) :
    mainPassIndex maths renderFrame
        = (List.replicate (CalcNumTargets renderFrame) TargetRenderPassGroup.empty).length
      ∧ ∀ group : TargetRenderPassGroup,
          writeSlot (List.replicate (CalcNumTargets renderFrame) TargetRenderPassGroup.empty)
            (mainPassIndex maths renderFrame) group = Except.error Fatal.indexOutOfRange := by
  have h : mainPassIndex maths renderFrame
      = (List.replicate (CalcNumTargets renderFrame) TargetRenderPassGroup.empty).length := by
    rw [mainPassIndex_eq_CalcNumTargets, List.length_replicate]
  refine ⟨h, fun group => ?_⟩
  rw [h]
  exact writeSlot_length_self _ group

/-- C3 (the order of the target groups): for every frame whose number of shadow lights
fits a `u32`, the shadow target tasks fill the whole pre-sized vector with the shadow
target groups, in the order of their directional lights; no slot is left for the main
target group, and `CompileTargetRenderPassGroups` ends in a fatal error instead of
returning a list whose last element is the main target group. -/
theorem shadow_groups_fill_vector_main_group_unwritten (maths : RenderMaths)
    (renderFrame : RenderFrame) (h : (shadowLights renderFrame).length < 4294967296) :
    ProcessChildTasks (shadowTargetTasks maths renderFrame).1
        (List.replicate (CalcNumTargets renderFrame) TargetRenderPassGroup.empty)
      = Except.ok ((shadowLights renderFrame).map (expectedShadowTargetGroup maths renderFrame))
    ∧ ∃ e, CompileTargetRenderPassGroups maths renderFrame = Except.error e := by
  refine ⟨?_, CompileTargetRenderPassGroups_error maths renderFrame⟩
  have hn : CalcNumTargets renderFrame = (shadowLights renderFrame).length := by
    rw [← mainPassIndex_eq_CalcNumTargets maths renderFrame, mainPassIndex,
      shadowTargetTasks_eq maths renderFrame h]
  rw [hn, shadowTargetTasks_eq maths renderFrame h]
  have := ProcessChildTasks_fill TargetRenderPassGroup.empty
    ((shadowLights renderFrame).map (expectedShadowTargetGroup maths renderFrame))
  simpa using this

/-- The statement on the order of the target groups, at the frame `frameTwoShadowLights`. -/
theorem shadow_groups_fill_vector_main_group_unwritten_witness :
    (shadowLights frameTwoShadowLights).length < 4294967296
    ∧ ProcessChildTasks (shadowTargetTasks exampleMaths frameTwoShadowLights).1
        (List.replicate (CalcNumTargets frameTwoShadowLights) TargetRenderPassGroup.empty)
      = Except.ok ((shadowLights frameTwoShadowLights).map
          (expectedShadowTargetGroup exampleMaths frameTwoShadowLights))
    ∧ ∃ e, CompileTargetRenderPassGroups exampleMaths frameTwoShadowLights = Except.error e :=
  ⟨by decide, shadow_groups_fill_vector_main_group_unwritten exampleMaths frameTwoShadowLights
    (by decide)⟩

/-! ## The scene camera group -/

/-- C4 (the passes of the scene camera group): for every frame with D directional lights
and P point lights (2 + D + P within `u32`), `CompleSceneCameraRenderPassGroup` returns a
group with exactly 2 + D + P passes: the base pass, the pass of each directional light in
list order, the pass of each point light in list order, the transparent pass last,
whatever the objects of the frame; with no light the passes are the base pass and the
transparent pass. -/
theorem scene_camera_group_passes (maths : RenderMaths) (renderFrame : RenderFrame)
    (h : 2 + renderFrame.directionalRenderLights.length + renderFrame.pointRenderLights.length
      < 4294967296) :
    ∃ group, CompleSceneCameraRenderPassGroup maths renderFrame = Except.ok group
      ∧ group.renderPasses.length
          = 2 + renderFrame.directionalRenderLights.length + renderFrame.pointRenderLights.length
      ∧ group.renderPasses
          = [expectedBasePass maths renderFrame]
            ++ renderFrame.directionalRenderLights.map
                (expectedDirectionalLightPass maths renderFrame)
            ++ renderFrame.pointRenderLights.map (expectedPointLightPass maths renderFrame)
            ++ [expectedTransparentPass maths renderFrame]
      ∧ (renderFrame.directionalRenderLights = [] → renderFrame.pointRenderLights = [] →
          group.renderPasses
            = [expectedBasePass maths renderFrame, expectedTransparentPass maths renderFrame]) := by
  refine ⟨_, CompleSceneCameraRenderPassGroup_eq maths renderFrame h,
    expectedScenePasses_length maths renderFrame, rfl, ?_⟩
  intro hd hp
  simp [expectedScenePasses, hd, hp]

/-- The passes of the scene camera group of the frame `frameLit`. -/
theorem scene_camera_group_passes_witness :
    2 + frameLit.directionalRenderLights.length + frameLit.pointRenderLights.length < 4294967296
    ∧ ∃ group, CompleSceneCameraRenderPassGroup exampleMaths frameLit = Except.ok group
      ∧ group.renderPasses.length
          = 2 + frameLit.directionalRenderLights.length + frameLit.pointRenderLights.length
      ∧ group.renderPasses
          = [expectedBasePass exampleMaths frameLit]
            ++ frameLit.directionalRenderLights.map
                (expectedDirectionalLightPass exampleMaths frameLit)
            ++ frameLit.pointRenderLights.map (expectedPointLightPass exampleMaths frameLit)
            ++ [expectedTransparentPass exampleMaths frameLit]
      ∧ (frameLit.directionalRenderLights = [] → frameLit.pointRenderLights = [] →
          group.renderPasses
            = [expectedBasePass exampleMaths frameLit,
                expectedTransparentPass exampleMaths frameLit]) :=
  ⟨by decide, scene_camera_group_passes exampleMaths frameLit (by decide)⟩

/-! ## The objects of a pass -/

/-- C5 (objects without a material for a pass): each of the five functions that gather the
objects of the six pass kinds (base, directional and directional with shadows, point,
transparent, shadow map) returns, without any error and for every list of render objects, the
`filterMap` of the list by `passObjectOf`: an object without a material for (its vertex
format, the pass) contributes nothing, an object with such a material that passes the
extra filter of the pass contributes exactly one render pass object carrying that
material, and the contributions come in the order of the objects. -/
theorem pass_objects_eq_filterMap (renderObjects : List RenderObject)
    (directionalRenderLight : DirectionalRenderLight) (pointRenderLight : PointRenderLight) :
    GetBaseRenderPassObjects renderObjects
        = Except.ok (renderObjects.filterMap
            (passObjectOf ForwardRenderPasses.k_base (fun _ => true)))
    ∧ GetDirectionalLightRenderPassObjects renderObjects directionalRenderLight
        = Except.ok (renderObjects.filterMap
            (passObjectOf
              (if directionalRenderLight.shadowMapTarget.isSome then
                ForwardRenderPasses.k_directionalLightShadows
              else ForwardRenderPasses.k_directionalLight) (fun _ => true)))
    ∧ GetPointLightRenderPassObjects renderObjects pointRenderLight
        = Except.ok (renderObjects.filterMap
            (passObjectOf ForwardRenderPasses.k_pointLight
              (fun o => pointRenderLight.boundingSphere.Contains o.boundingSphere)))
    ∧ GetTransparentRenderPassObjects renderObjects
        = Except.ok (renderObjects.filterMap
            (passObjectOf ForwardRenderPasses.k_transparent (fun _ => true)))
    ∧ GetShadowMapRenderPassObjects renderObjects
        = Except.ok (renderObjects.filterMap
            (passObjectOf ForwardRenderPasses.k_shadowMap (fun o => o.shouldCastShadows))) :=
  ⟨GetBaseRenderPassObjects_eq renderObjects,
    GetDirectionalLightRenderPassObjects_eq renderObjects directionalRenderLight,
    GetPointLightRenderPassObjects_eq renderObjects pointRenderLight,
    GetTransparentRenderPassObjects_eq renderObjects,
    GetShadowMapRenderPassObjects_eq renderObjects⟩

/-! ## Lemmas: the slots of the scene passes -/

theorem Sphere.Contains_iff (s other : Sphere) :
    s.Contains other = true
      ↔ s.vOrigin.distanceSquared other.vOrigin
          ≤ ((s.fRadius + other.fRadius : Nat) : Int) * ((s.fRadius + other.fRadius : Nat) : Int) := by
  simp [Sphere.Contains]

theorem expectedScenePasses_base (maths : RenderMaths) (renderFrame : RenderFrame) :
    (expectedScenePasses maths renderFrame)[0]? = some (expectedBasePass maths renderFrame) := by
  simp [expectedScenePasses]

theorem expectedScenePasses_point (maths : RenderMaths) (renderFrame : RenderFrame) (j : Nat)
    (pointLight : PointRenderLight) (hj : renderFrame.pointRenderLights[j]? = some pointLight) :
    (expectedScenePasses maths renderFrame)[1 + renderFrame.directionalRenderLights.length + j]?
      = some (expectedPointLightPass maths renderFrame pointLight) := by
  have hjlt : j < renderFrame.pointRenderLights.length := by
    by_contra hge
    rw [List.getElem?_eq_none (by omega)] at hj
    cases hj
  unfold expectedScenePasses
  rw [List.getElem?_append_left (by simp; omega),
    List.getElem?_append_right (by simp; omega)]
  simp only [List.length_append, List.length_singleton, List.length_map]
  rw [show 1 + renderFrame.directionalRenderLights.length + j
      - (1 + renderFrame.directionalRenderLights.length) = j by omega, List.getElem?_map, hj]
  rfl

/-- The render pass object of `o` with its point light material is in the pass of a point
light exactly when `Sphere::Contains` accepts the bounding sphere of `o`. -/
theorem mem_expectedPointLightPass {maths : RenderMaths} {renderFrame : RenderFrame}
    {pointLight : PointRenderLight} {o : RenderObject} {m : RenderMaterial}
    (ho : o ∈ visibleStandardObjects maths renderFrame)
    (hm : o.materialFor ForwardRenderPasses.k_pointLight = some m) :
    o.toRenderPassObject m ∈ (expectedPointLightPass maths renderFrame pointLight).renderPassObjects
      ↔ pointLight.boundingSphere.Contains o.boundingSphere = true := by
  unfold expectedPointLightPass
  rw [mem_OpaqueSort, mem_filterMap_passObjectOf]
  constructor
  · rintro ⟨o2, _, hk, m2, _, heq⟩
    have hs : o.boundingSphere = o2.boundingSphere := by
      have := congrArg RenderPassObject.boundingSphere heq
      simpa [RenderObject.toRenderPassObject] using this
    rw [hs]
    exact hk
  · intro hk
    exact ⟨o, ho, hk, m, hm, rfl⟩

theorem mem_expectedBasePass {maths : RenderMaths} {renderFrame : RenderFrame}
    {o : RenderObject} {m : RenderMaterial}
    (ho : o ∈ visibleStandardObjects maths renderFrame)
    (hm : o.materialFor ForwardRenderPasses.k_base = some m) :
    o.toRenderPassObject m ∈ (expectedBasePass maths renderFrame).renderPassObjects := by
  unfold expectedBasePass
  rw [mem_OpaqueSort, mem_filterMap_passObjectOf]
  exact ⟨o, ho, rfl, m, hm, rfl⟩

/-! ## Shadow passes -/

/-- C6 (counterexample): in the frame `frameGlass` the object `exampleGlassObject` casts
shadows and has a shadow map material and a transparent material but no base material.
The scene camera group draws it in the transparent pass only, and yet the shadow pass of
`CompileShadowMapTargetRenderPassGroup` contains it: a transparent object appears in a
shadow pass. -/
theorem shadow_pass_contains_transparent_object :
    exampleGlassObject.shouldCastShadows = true
    ∧ exampleGlassObject.materialFor ForwardRenderPasses.k_transparent = some ⟨31⟩
    ∧ exampleGlassObject.materialFor ForwardRenderPasses.k_base = none
    ∧ CompleSceneCameraRenderPassGroup exampleMaths frameGlass
        = Except.ok ⟨exampleCamera,
            [⟨RenderPassLight.ambient ⟨7⟩, []⟩,
              ⟨RenderPassLight.directional exampleShadowLight, []⟩,
              ⟨RenderPassLight.ambient ⟨7⟩, [exampleGlassObject.toRenderPassObject ⟨31⟩]⟩]⟩
    ∧ CompileShadowMapTargetRenderPassGroup exampleMaths frameGlass exampleShadowLight
        = Except.ok ⟨some ⟨3⟩,
            [⟨RenderCamera.unset,
              [⟨RenderPassLight.none, [exampleGlassObject.toRenderPassObject ⟨30⟩]⟩]⟩]⟩ := by
  decide

/-- C6 (amended): every render pass object of a pass of the target group returned by
`CompileShadowMapTargetRenderPassGroup` is the render pass object of a standard layer
object of the frame that is retained by the visibility check of the render camera, has
shadow casting enabled and has a shadow map material, with that material. Whether the
object also has a transparent material plays no part. -/
theorem shadow_pass_objects_cast_shadows (maths : RenderMaths) (renderFrame : RenderFrame)
    (directionalRenderLight : DirectionalRenderLight) (group : TargetRenderPassGroup)
    (h : CompileShadowMapTargetRenderPassGroup maths renderFrame directionalRenderLight
      = Except.ok group) :
    ∀ cameraGroup ∈ group.cameraRenderPassGroups, ∀ pass ∈ cameraGroup.renderPasses,
      ∀ x ∈ pass.renderPassObjects,
        ∃ o ∈ renderFrame.renderObjects, o.renderLayer = RenderLayer.k_standard
          ∧ maths.IsVisible renderFrame.renderCamera o = true
          ∧ o.shouldCastShadows = true
          ∧ ∃ m, o.materialFor ForwardRenderPasses.k_shadowMap = some m
              ∧ x = o.toRenderPassObject m := by
  have hl : directionalRenderLight.shadowMapTarget.isSome = true := by
    by_contra hn
    unfold CompileShadowMapTargetRenderPassGroup at h
    rw [if_neg hn] at h
    cases h
  rw [CompileShadowMapTargetRenderPassGroup_eq maths renderFrame directionalRenderLight hl] at h
  cases h
  intro cameraGroup hcg pass hp x hx
  simp only [expectedShadowTargetGroup, List.mem_singleton] at hcg
  subst hcg
  simp only [List.mem_singleton] at hp
  subst hp
  simp only [expectedShadowPassObjects] at hx
  rw [mem_OpaqueSort, mem_filterMap_passObjectOf] at hx
  obtain ⟨o, ho, hk, m, hm, rfl⟩ := hx
  rw [mem_visibleStandardObjects] at ho
  exact ⟨o, ho.1, ho.2.1, ho.2.2, hk, m, hm, rfl⟩

/-- The origin of the shadow pass objects, at the frame `frameLit`. -/
theorem shadow_pass_objects_cast_shadows_witness :
    CompileShadowMapTargetRenderPassGroup exampleMaths frameLit exampleShadowLight
      = Except.ok (expectedShadowTargetGroup exampleMaths frameLit exampleShadowLight)
    ∧ ∀ cameraGroup ∈
        (expectedShadowTargetGroup exampleMaths frameLit exampleShadowLight).cameraRenderPassGroups,
      ∀ pass ∈ cameraGroup.renderPasses, ∀ x ∈ pass.renderPassObjects,
        ∃ o ∈ frameLit.renderObjects, o.renderLayer = RenderLayer.k_standard
          ∧ exampleMaths.IsVisible frameLit.renderCamera o = true
          ∧ o.shouldCastShadows = true
          ∧ ∃ m, o.materialFor ForwardRenderPasses.k_shadowMap = some m
              ∧ x = o.toRenderPassObject m :=
  ⟨by decide, shadow_pass_objects_cast_shadows exampleMaths frameLit exampleShadowLight _
    (by decide)⟩

/-! ## Point light passes -/

/-- C7 (the filter of a point light pass): for every frame (pass count within `u32`), every
point light of the frame, at position j of the list, and every standard layer object of
the frame that is retained by the visibility check and has a point light material, the
render pass object of the object is in the pass of that light (slot 1 + D + j of the scene
camera group) if and only if the squared distance between the centre of the bounding
sphere of the object and the position of the light is at most the square of the sum of
the radius of the sphere and the range of influence of the light, that is if and only if
the two spheres intersect. -/
theorem point_light_pass_mem_iff_intersects (maths : RenderMaths) (renderFrame : RenderFrame)
    (h : 2 + renderFrame.directionalRenderLights.length + renderFrame.pointRenderLights.length
      < 4294967296)
    (j : Nat) (pointLight : PointRenderLight)
    (hj : renderFrame.pointRenderLights[j]? = some pointLight)
    (o : RenderObject) (m : RenderMaterial) (ho : o ∈ renderFrame.renderObjects)
    (hlayer : o.renderLayer = RenderLayer.k_standard)
    (hvisible : maths.IsVisible renderFrame.renderCamera o = true)
    (hm : o.materialFor ForwardRenderPasses.k_pointLight = some m) :
    ∃ group pass, CompleSceneCameraRenderPassGroup maths renderFrame = Except.ok group
      ∧ group.renderPasses[1 + renderFrame.directionalRenderLights.length + j]? = some pass
      ∧ pass.light = RenderPassLight.point pointLight
      ∧ (o.toRenderPassObject m ∈ pass.renderPassObjects
          ↔ pointLight.position.distanceSquared o.boundingSphere.vOrigin
              ≤ ((pointLight.rangeOfInfluence + o.boundingSphere.fRadius : Nat) : Int)
                * ((pointLight.rangeOfInfluence + o.boundingSphere.fRadius : Nat) : Int)) := by
  refine ⟨_, expectedPointLightPass maths renderFrame pointLight,
    CompleSceneCameraRenderPassGroup_eq maths renderFrame h,
    expectedScenePasses_point maths renderFrame j pointLight hj, rfl, ?_⟩
  rw [mem_expectedPointLightPass (mem_visibleStandardObjects.mpr ⟨ho, hlayer, hvisible⟩) hm,
    Sphere.Contains_iff]
  rfl

/-- The point light filter at `exampleNearObject`, whose sphere overlaps the sphere of
`examplePointLight` without lying inside it. -/
theorem point_light_pass_mem_iff_intersects_witness :
    ∃ group pass, CompleSceneCameraRenderPassGroup exampleMaths frameLit = Except.ok group
      ∧ group.renderPasses[1 + frameLit.directionalRenderLights.length + 0]? = some pass
      ∧ pass.light = RenderPassLight.point examplePointLight
      ∧ (exampleNearObject.toRenderPassObject ⟨14⟩ ∈ pass.renderPassObjects
          ↔ examplePointLight.position.distanceSquared exampleNearObject.boundingSphere.vOrigin
              ≤ ((examplePointLight.rangeOfInfluence
                    + exampleNearObject.boundingSphere.fRadius : Nat) : Int)
                * ((examplePointLight.rangeOfInfluence
                    + exampleNearObject.boundingSphere.fRadius : Nat) : Int)) :=
  point_light_pass_mem_iff_intersects exampleMaths frameLit (by decide) 0 examplePointLight
    (by decide) exampleNearObject ⟨14⟩ (by decide) (by decide) (by decide) (by decide)

/-- C8 (scenario D): for every frame (pass count within `u32`), every point light of the
frame and every standard layer object of the frame that is retained by the visibility
check, has a base material and a point light material, and whose bounding sphere does not
intersect the sphere of influence of the light (the squared distance of the centres
exceeds the square of the sum of the radii): the render pass object of the object is
absent from the pass of that light and present in the base pass, slot 0, of the scene
camera group. -/
theorem scenario_D_point_light_out_of_range (maths : RenderMaths) (renderFrame : RenderFrame)
    (h : 2 + renderFrame.directionalRenderLights.length + renderFrame.pointRenderLights.length
      < 4294967296)
    (j : Nat) (pointLight : PointRenderLight)
    (hj : renderFrame.pointRenderLights[j]? = some pointLight)
    (o : RenderObject) (mBase mPoint : RenderMaterial) (ho : o ∈ renderFrame.renderObjects)
    (hlayer : o.renderLayer = RenderLayer.k_standard)
    (hvisible : maths.IsVisible renderFrame.renderCamera o = true)
    (hbase : o.materialFor ForwardRenderPasses.k_base = some mBase)
    (hpoint : o.materialFor ForwardRenderPasses.k_pointLight = some mPoint)
    (hfar : ((pointLight.rangeOfInfluence + o.boundingSphere.fRadius : Nat) : Int)
        * ((pointLight.rangeOfInfluence + o.boundingSphere.fRadius : Nat) : Int)
      < pointLight.position.distanceSquared o.boundingSphere.vOrigin) :
    ∃ group basePass lightPass,
      CompleSceneCameraRenderPassGroup maths renderFrame = Except.ok group
      ∧ group.renderPasses[0]? = some basePass
      ∧ group.renderPasses[1 + renderFrame.directionalRenderLights.length + j]? = some lightPass
      ∧ lightPass.light = RenderPassLight.point pointLight
      ∧ o.toRenderPassObject mPoint ∉ lightPass.renderPassObjects
      ∧ o.toRenderPassObject mBase ∈ basePass.renderPassObjects := by
  have hmem := mem_visibleStandardObjects.mpr ⟨ho, hlayer, hvisible⟩
  refine ⟨_, expectedBasePass maths renderFrame, expectedPointLightPass maths renderFrame pointLight,
    CompleSceneCameraRenderPassGroup_eq maths renderFrame h,
    expectedScenePasses_base maths renderFrame,
    expectedScenePasses_point maths renderFrame j pointLight hj, rfl, ?_,
    mem_expectedBasePass hmem hbase⟩
  rw [mem_expectedPointLightPass hmem hpoint, Sphere.Contains_iff]
  exact not_le.mpr hfar

/-- Scenario D at `exampleLitObject`, which is out of the range of `examplePointLight`. -/
theorem scenario_D_point_light_out_of_range_witness :
    ∃ group basePass lightPass,
      CompleSceneCameraRenderPassGroup exampleMaths frameLit = Except.ok group
      ∧ group.renderPasses[0]? = some basePass
      ∧ group.renderPasses[1 + frameLit.directionalRenderLights.length + 0]? = some lightPass
      ∧ lightPass.light = RenderPassLight.point examplePointLight
      ∧ exampleLitObject.toRenderPassObject ⟨14⟩ ∉ lightPass.renderPassObjects
      ∧ exampleLitObject.toRenderPassObject ⟨11⟩ ∈ basePass.renderPassObjects :=
  scenario_D_point_light_out_of_range exampleMaths frameLit (by decide) 0 examplePointLight
    (by decide) exampleLitObject ⟨11⟩ ⟨14⟩ (by decide) (by decide) (by decide) (by decide)
    (by decide) (by decide)

/-! ## The UI camera group -/

theorem expectedUIPasses_of_nil {maths : RenderMaths} {renderFrame : RenderFrame}
    (h : (visibleUIObjects maths renderFrame).filterMap
      (passObjectOf ForwardRenderPasses.k_transparent (fun _ => true)) = []) :
    expectedUIPasses maths renderFrame = [] := by
  unfold expectedUIPasses
  rw [h]
  rfl

theorem expectedUIPasses_of_ne_nil {maths : RenderMaths} {renderFrame : RenderFrame}
    (h : (visibleUIObjects maths renderFrame).filterMap
      (passObjectOf ForwardRenderPasses.k_transparent (fun _ => true)) ≠ []) :
    expectedUIPasses maths renderFrame
      = [⟨RenderPassLight.ambient renderFrame.ambientRenderLight,
          PrioritySort ((visibleUIObjects maths renderFrame).filterMap
            (passObjectOf ForwardRenderPasses.k_transparent (fun _ => true)))⟩] := by
  unfold expectedUIPasses
  rw [if_pos]
  rw [(PrioritySort_perm _).length_eq]
  exact List.length_pos.mpr h

/-- What the UI camera group is when `CompileUICameraRenderPassGroup` returns. -/
theorem CompileUICameraRenderPassGroup_ok {maths : RenderMaths} {renderFrame : RenderFrame}
    {group : CameraRenderPassGroup}
    (h : CompileUICameraRenderPassGroup maths renderFrame = Except.ok group) :
    (visibleUIObjects maths renderFrame).length
        = ((visibleUIObjects maths renderFrame).filterMap
            (passObjectOf ForwardRenderPasses.k_transparent (fun _ => true))).length
      ∧ group = ⟨uiCamera renderFrame, expectedUIPasses maths renderFrame⟩ := by
  rw [CompileUICameraRenderPassGroup_eq] at h
  by_cases hlen : (visibleUIObjects maths renderFrame).length
      = ((visibleUIObjects maths renderFrame).filterMap
          (passObjectOf ForwardRenderPasses.k_transparent (fun _ => true))).length
  · rw [if_pos hlen] at h
    cases h
    exact ⟨hlen, rfl⟩
  · rw [if_neg hlen] at h
    cases h

/-- C9 (the passes of the UI camera group): whenever `CompileUICameraRenderPassGroup`
returns a group, with `uiObjects` the render pass objects of the UI layer objects retained
by the visibility check of the UI camera: the group has no pass when `uiObjects` is empty;
otherwise it has exactly one pass, whose objects are a permutation of `uiObjects`; and no
pass of the group has an empty object list. -/
theorem ui_camera_group_passes (maths : RenderMaths) (renderFrame : RenderFrame)
    (group : CameraRenderPassGroup)
    (h : CompileUICameraRenderPassGroup maths renderFrame = Except.ok group) :
    GetTransparentRenderPassObjects
        (CalculateVisibleObjects maths (uiCamera renderFrame)
          (GetLayerRenderObjects RenderLayer.k_ui renderFrame.renderObjects))
      = Except.ok ((visibleUIObjects maths renderFrame).filterMap
          (passObjectOf ForwardRenderPasses.k_transparent (fun _ => true)))
    ∧ ((visibleUIObjects maths renderFrame).filterMap
          (passObjectOf ForwardRenderPasses.k_transparent (fun _ => true)) = []
        → group.renderPasses = [])
    ∧ ((visibleUIObjects maths renderFrame).filterMap
          (passObjectOf ForwardRenderPasses.k_transparent (fun _ => true)) ≠ []
        → ∃ pass, group.renderPasses = [pass]
            ∧ pass.renderPassObjects.Perm ((visibleUIObjects maths renderFrame).filterMap
                (passObjectOf ForwardRenderPasses.k_transparent (fun _ => true))))
    ∧ ∀ pass ∈ group.renderPasses, pass.renderPassObjects ≠ [] := by
  obtain ⟨_, rfl⟩ := CompileUICameraRenderPassGroup_ok h
  refine ⟨?_, ?_, ?_, ?_⟩
  · rw [CalculateVisibleObjects_ui, GetTransparentRenderPassObjects_eq]
  · intro hnil
    exact expectedUIPasses_of_nil hnil
  · intro hne
    exact ⟨_, expectedUIPasses_of_ne_nil hne, PrioritySort_perm _⟩
  · intro pass hpass
    by_cases hnil : (visibleUIObjects maths renderFrame).filterMap
        (passObjectOf ForwardRenderPasses.k_transparent (fun _ => true)) = []
    · simp only [expectedUIPasses_of_nil hnil] at hpass
      cases hpass
    · simp only [expectedUIPasses_of_ne_nil hnil, List.mem_singleton] at hpass
      subst hpass
      intro hempty
      have hlen := (PrioritySort_perm ((visibleUIObjects maths renderFrame).filterMap
        (passObjectOf ForwardRenderPasses.k_transparent (fun _ => true)))).length_eq
      simp only at hempty
      rw [hempty, List.length_nil] at hlen
      exact hnil (List.length_eq_zero.mp hlen.symm)

/-- The passes of the UI camera group of the frame `frameLit`. -/
theorem ui_camera_group_passes_witness :
    CompileUICameraRenderPassGroup exampleMaths frameLit
      = Except.ok ⟨uiCamera frameLit, expectedUIPasses exampleMaths frameLit⟩
    ∧ GetTransparentRenderPassObjects
        (CalculateVisibleObjects exampleMaths (uiCamera frameLit)
          (GetLayerRenderObjects RenderLayer.k_ui frameLit.renderObjects))
      = Except.ok ((visibleUIObjects exampleMaths frameLit).filterMap
          (passObjectOf ForwardRenderPasses.k_transparent (fun _ => true)))
    ∧ ((visibleUIObjects exampleMaths frameLit).filterMap
          (passObjectOf ForwardRenderPasses.k_transparent (fun _ => true)) = []
        → (⟨uiCamera frameLit, expectedUIPasses exampleMaths frameLit⟩
            : CameraRenderPassGroup).renderPasses = [])
    ∧ ((visibleUIObjects exampleMaths frameLit).filterMap
          (passObjectOf ForwardRenderPasses.k_transparent (fun _ => true)) ≠ []
        → ∃ pass, (⟨uiCamera frameLit, expectedUIPasses exampleMaths frameLit⟩
              : CameraRenderPassGroup).renderPasses = [pass]
            ∧ pass.renderPassObjects.Perm ((visibleUIObjects exampleMaths frameLit).filterMap
                (passObjectOf ForwardRenderPasses.k_transparent (fun _ => true))))
    ∧ ∀ pass ∈ (⟨uiCamera frameLit, expectedUIPasses exampleMaths frameLit⟩
          : CameraRenderPassGroup).renderPasses, pass.renderPassObjects ≠ [] :=
  ⟨by decide, ui_camera_group_passes exampleMaths frameLit _ (by decide)⟩

/-- C10 (the assertion on the UI objects): `CompileUICameraRenderPassGroup` ends in its
fatal assertion if and only if some UI layer object of the frame that is retained by the
visibility check of the UI camera has no transparent material for its vertex format; it
ends in no other error; and when every such object has a transparent material it returns
a group whose passes hold as many render pass objects as there are visible UI objects. -/
theorem ui_assertion_iff_missing_transparent_material (maths : RenderMaths)
    (renderFrame : RenderFrame) :
    (CompileUICameraRenderPassGroup maths renderFrame
        = Except.error Fatal.invalidNumberOfUIPassObjects
      ↔ ∃ o ∈ renderFrame.renderObjects, o.renderLayer = RenderLayer.k_ui
          ∧ maths.IsVisible (uiCamera renderFrame) o = true
          ∧ o.materialFor ForwardRenderPasses.k_transparent = none)
    ∧ (∀ e, CompileUICameraRenderPassGroup maths renderFrame = Except.error e
        → e = Fatal.invalidNumberOfUIPassObjects)
    ∧ ((∀ o ∈ renderFrame.renderObjects, o.renderLayer = RenderLayer.k_ui
          → maths.IsVisible (uiCamera renderFrame) o = true
          → (o.materialFor ForwardRenderPasses.k_transparent).isSome = true)
        → ∃ group, CompileUICameraRenderPassGroup maths renderFrame = Except.ok group
            ∧ (group.renderPasses.map (fun pass => pass.renderPassObjects.length)).sum
                = (visibleUIObjects maths renderFrame).length) := by
  have hiff := length_filterMap_eq_iff
    (passObjectOf ForwardRenderPasses.k_transparent (fun _ => true))
    (visibleUIObjects maths renderFrame)
  refine ⟨?_, ?_, ?_⟩
  · rw [CompileUICameraRenderPassGroup_eq]
    constructor
    · intro h
      by_cases hlen : (visibleUIObjects maths renderFrame).length
          = ((visibleUIObjects maths renderFrame).filterMap
              (passObjectOf ForwardRenderPasses.k_transparent (fun _ => true))).length
      · rw [if_pos hlen] at h
        cases h
      · rw [hiff] at hlen
        push_neg at hlen
        obtain ⟨o, ho, hnone⟩ := hlen
        rw [passObjectOf_isSome_iff] at hnone
        rw [mem_visibleUIObjects] at ho
        exact ⟨o, ho.1, ho.2.1, ho.2.2, by simpa using hnone⟩
    · rintro ⟨o, ho, hlayer, hvisible, hnone⟩
      rw [if_neg]
      rw [hiff]
      push_neg
      exact ⟨o, mem_visibleUIObjects.mpr ⟨ho, hlayer, hvisible⟩, by
        rw [passObjectOf_isSome_iff, hnone]; simp⟩
  · intro e he
    rw [CompileUICameraRenderPassGroup_eq] at he
    by_cases hlen : (visibleUIObjects maths renderFrame).length
        = ((visibleUIObjects maths renderFrame).filterMap
            (passObjectOf ForwardRenderPasses.k_transparent (fun _ => true))).length
    · rw [if_pos hlen] at he
      cases he
    · rw [if_neg hlen] at he
      cases he
      rfl
  · intro hall
    have hlen : (visibleUIObjects maths renderFrame).length
        = ((visibleUIObjects maths renderFrame).filterMap
            (passObjectOf ForwardRenderPasses.k_transparent (fun _ => true))).length := by
      rw [hiff]
      intro o ho
      rw [passObjectOf_isSome_iff]
      rw [mem_visibleUIObjects] at ho
      exact hall o ho.1 ho.2.1 ho.2.2
    refine ⟨_, by rw [CompileUICameraRenderPassGroup_eq, if_pos hlen], ?_⟩
    by_cases hnil : (visibleUIObjects maths renderFrame).filterMap
        (passObjectOf ForwardRenderPasses.k_transparent (fun _ => true)) = []
    · simp only [expectedUIPasses_of_nil hnil]
      rw [hlen, hnil]
      rfl
    · simp only [expectedUIPasses_of_ne_nil hnil, List.map_cons, List.map_nil, List.sum_cons,
        List.sum_nil, Nat.add_zero]
      rw [(PrioritySort_perm _).length_eq, hlen]

/-! ## The order of the UI pass -/

/-- The output of `PrioritySort` is in ascending order of priority. -/
theorem PrioritySort_pairwise (l : List RenderPassObject) :
    (PrioritySort l).Pairwise (fun a b => a.priority ≤ b.priority) := by
  haveI : IsTotal RenderPassObject (fun a b => PrioritySortLE a b = true) :=
    ⟨fun a b => by
      simp only [PrioritySortLE, decide_eq_true_eq]
      exact Nat.le_total _ _⟩
  haveI : IsTrans RenderPassObject (fun a b => PrioritySortLE a b = true) :=
    ⟨fun a b c hab hbc => by
      simp only [PrioritySortLE, decide_eq_true_eq] at hab hbc ⊢
      exact Nat.le_trans hab hbc⟩
  have h := List.sorted_insertionSort (fun a b => PrioritySortLE a b = true) l
  refine List.Pairwise.imp ?_ h
  intro a b hab
  simpa [PrioritySortLE] using hab

theorem PrioritySort_pair_swap (x y : RenderPassObject) (h : y.priority < x.priority) :
    PrioritySort [x, y] = [y, x] := by
  have hn : ¬ x.priority ≤ y.priority := by omega
  simp [PrioritySort, List.insertionSort, List.orderedInsert, PrioritySortLE, hn]

/-- C11 (scenario B): in every group that `CompileUICameraRenderPassGroup` returns, the
objects of every pass are in ascending order of their priority; and for a frame whose
render objects are two UI layer objects, both retained by the visibility check and both
with a transparent material, the first of a higher priority than the second (5 and 1 in
the scenario), the group has the single pass [second object, first object]. -/
theorem scenario_B_ui_priority_order (maths : RenderMaths) (renderFrame : RenderFrame) :
    (∀ group, CompileUICameraRenderPassGroup maths renderFrame = Except.ok group →
      ∀ pass ∈ group.renderPasses,
        pass.renderPassObjects.Pairwise (fun a b => a.priority ≤ b.priority))
    ∧ (∀ (first second : RenderObject) (mFirst mSecond : RenderMaterial),
        renderFrame.renderObjects = [first, second] →
        first.renderLayer = RenderLayer.k_ui → second.renderLayer = RenderLayer.k_ui →
        maths.IsVisible (uiCamera renderFrame) first = true →
        maths.IsVisible (uiCamera renderFrame) second = true →
        first.materialFor ForwardRenderPasses.k_transparent = some mFirst →
        second.materialFor ForwardRenderPasses.k_transparent = some mSecond →
        second.priority < first.priority →
        CompileUICameraRenderPassGroup maths renderFrame
          = Except.ok ⟨uiCamera renderFrame,
              [⟨RenderPassLight.ambient renderFrame.ambientRenderLight,
                [second.toRenderPassObject mSecond, first.toRenderPassObject mFirst]⟩]⟩) := by
  constructor
  · intro group h pass hpass
    obtain ⟨_, rfl⟩ := CompileUICameraRenderPassGroup_ok h
    by_cases hnil : (visibleUIObjects maths renderFrame).filterMap
        (passObjectOf ForwardRenderPasses.k_transparent (fun _ => true)) = []
    · simp only [expectedUIPasses_of_nil hnil] at hpass
      cases hpass
    · simp only [expectedUIPasses_of_ne_nil hnil, List.mem_singleton] at hpass
      subst hpass
      exact PrioritySort_pairwise _
  · intro first second mFirst mSecond hobjs hl1 hl2 hv1 hv2 hm1 hm2 hprio
    have hvis : visibleUIObjects maths renderFrame = [first, second] := by
      simp [visibleUIObjects, hobjs, List.filter_cons, hl1, hl2, hv1, hv2]
    have hobj : (visibleUIObjects maths renderFrame).filterMap
        (passObjectOf ForwardRenderPasses.k_transparent (fun _ => true))
        = [first.toRenderPassObject mFirst, second.toRenderPassObject mSecond] := by
      simp [hvis, List.filterMap_cons, passObjectOf, hm1, hm2]
    have hne : (visibleUIObjects maths renderFrame).filterMap
        (passObjectOf ForwardRenderPasses.k_transparent (fun _ => true)) ≠ [] := by
      rw [hobj]; simp
    rw [CompileUICameraRenderPassGroup_eq, if_pos (by rw [hobj, hvis]; rfl),
      expectedUIPasses_of_ne_nil hne, hobj, PrioritySort_pair_swap _ _ (by
        simpa [RenderObject.toRenderPassObject] using hprio)]

/-- Scenario B at the frame `frameScenarioB`: a UI object of priority 5, then one of
priority 1. -/
theorem scenario_B_ui_priority_order_witness :
    CompileUICameraRenderPassGroup exampleMaths frameScenarioB
      = Except.ok ⟨uiCamera frameScenarioB,
          [⟨RenderPassLight.ambient frameScenarioB.ambientRenderLight,
            [exampleUIObjectOne.toRenderPassObject ⟨20⟩,
              exampleUIObjectFive.toRenderPassObject ⟨20⟩]⟩]⟩ :=
  (scenario_B_ui_priority_order exampleMaths frameScenarioB).2 exampleUIObjectFive
    exampleUIObjectOne ⟨20⟩ ⟨20⟩ (by decide) (by decide) (by decide) (by decide) (by decide)
    (by decide) (by decide) (by decide)

/-! ## Lemmas: what a run of tasks leaves in the vector -/

theorem writeSlot_mem {α : Type} {v w : List α} {i : Nat} {x : α}
    (h : writeSlot v i x = Except.ok w) : ∀ y ∈ w, y = x ∨ y ∈ v := by
  unfold writeSlot at h
  by_cases hi : i < v.length
  · rw [if_pos hi] at h
    cases h
    intro y hy
    rcases List.mem_or_eq_of_mem_set hy with hmem | heq
    · exact Or.inr hmem
    · exact Or.inl heq
  · rw [if_neg hi] at h
    cases h

/-- After a run of tasks that each write one value taken from `S`, every element of the
vector is from `S` or was in the vector before. -/
theorem ProcessChildTasks_mem {α : Type} (S : α → Prop) (tasks : List (Task α))
    (htasks : ∀ t ∈ tasks, ∃ i x, S x ∧ t = writeTask i x) :
    ∀ v w, ProcessChildTasks tasks v = Except.ok w → ∀ y ∈ w, S y ∨ y ∈ v := by
  induction tasks with
  | nil =>
    intro v w h y hy
    rw [ProcessChildTasks_nil] at h
    cases h
    exact Or.inr hy
  | cons t tasks ih =>
    intro v w h y hy
    rw [ProcessChildTasks_cons] at h
    obtain ⟨i, x, hx, rfl⟩ := htasks t (List.mem_cons_self _ _)
    cases ht : writeTask i x v with
    | error e => rw [ht] at h; cases h
    | ok u =>
      rw [ht] at h
      rcases ih (fun t2 h2 => htasks t2 (List.mem_cons_of_mem _ h2)) u w h y hy with hS | hu
      · exact Or.inl hS
      · rcases writeSlot_mem ht y hu with rfl | hv
        · exact Or.inl hx
        · exact Or.inr hv

/-- The tasks a loop over the lights adds are tasks of those lights. -/
theorem foldl_indexed_tasks_mem {α β : Type} (mk : Nat → β → Task α) :
    ∀ (ls : List β) (tasks : List (Task α)) (n : Nat),
      ∀ t ∈ (ls.foldl (fun (state : List (Task α) × Nat) b =>
          (state.1 ++ [mk state.2 b], u32 (state.2 + 1))) (tasks, n)).1,
        t ∈ tasks ∨ ∃ i b, b ∈ ls ∧ t = mk i b := by
  intro ls
  induction ls with
  | nil => intro tasks n t ht; exact Or.inl ht
  | cons b ls ih =>
    intro tasks n t ht
    rw [List.foldl_cons] at ht
    rcases ih _ _ t ht with h | ⟨i, c, hc, rfl⟩
    · rcases List.mem_append.mp h with h | h
      · exact Or.inl h
      · exact Or.inr ⟨n, b, List.mem_cons_self _ _, by simpa using h⟩
    · exact Or.inr ⟨i, c, List.mem_cons_of_mem _ hc, rfl⟩

/-- Every task of the scene camera group writes one of the passes of
`expectedScenePasses`, whatever the number of lights. -/
theorem sceneTasks_mem (maths : RenderMaths) (renderFrame : RenderFrame) :
    ∀ t ∈ (sceneTasks maths renderFrame (visibleStandardObjects maths renderFrame)).1,
      ∃ i pass, pass ∈ expectedScenePasses maths renderFrame ∧ t = writeTask i pass := by
  intro t ht
  unfold sceneTasks at ht
  simp only [] at ht
  rcases List.mem_append.mp ht with ht | ht
  · rcases foldl_indexed_tasks_mem _ _ _ _ t ht with ht | ⟨i, l, hl, rfl⟩
    · rcases foldl_indexed_tasks_mem _ _ _ _ t ht with ht | ⟨i, l, hl, rfl⟩
      · rw [List.mem_singleton] at ht
        subst ht
        exact ⟨0, _, by simp [expectedScenePasses], sceneBasePassTask_eq maths renderFrame 0⟩
      · exact ⟨i, _, by
          simp only [expectedScenePasses, List.mem_append, List.mem_map]
          exact Or.inl (Or.inl (Or.inr ⟨l, hl, rfl⟩)),
          sceneDirectionalLightPassTask_eq maths renderFrame i l⟩
    · exact ⟨i, _, by
        simp only [expectedScenePasses, List.mem_append, List.mem_map]
        exact Or.inl (Or.inr ⟨l, hl, rfl⟩),
        scenePointLightPassTask_eq maths renderFrame i l⟩
  · rw [List.mem_singleton] at ht
    subst ht
    exact ⟨_, _, by simp [expectedScenePasses], sceneTransparentPassTask_eq maths renderFrame _⟩

/-- Whatever the number of lights: when `CompleSceneCameraRenderPassGroup` returns, the
group has the render camera and each of its passes is a pass of `expectedScenePasses` or
a default constructed pass. -/
theorem CompleSceneCameraRenderPassGroup_ok {maths : RenderMaths} {renderFrame : RenderFrame}
    {group : CameraRenderPassGroup}
    (h : CompleSceneCameraRenderPassGroup maths renderFrame = Except.ok group) :
    group.camera = renderFrame.renderCamera
      ∧ ∀ pass ∈ group.renderPasses,
          pass ∈ expectedScenePasses maths renderFrame ∨ pass = RenderPass.empty := by
  unfold CompleSceneCameraRenderPassGroup at h
  simp only [] at h
  rw [CalculateVisibleObjects_standard] at h
  cases hrun : ProcessChildTasks
      (sceneTasks maths renderFrame (visibleStandardObjects maths renderFrame)).1
      (List.replicate (CalcNumScenePasses renderFrame) RenderPass.empty) with
  | error e => rw [hrun] at h; cases h
  | ok passes =>
    rw [hrun] at h
    cases h
    refine ⟨rfl, fun pass hpass => ?_⟩
    rcases ProcessChildTasks_mem (fun p => p ∈ expectedScenePasses maths renderFrame) _
      (sceneTasks_mem maths renderFrame) _ _ hrun pass hpass with hS | hv
    · exact Or.inl hS
    · exact Or.inr (List.eq_of_mem_replicate hv)

/-- The two tasks of `CompileMainTargetRenderPassGroup`, run one after the other. -/
theorem CompileMainTargetRenderPassGroup_eq (maths : RenderMaths) (renderFrame : RenderFrame) :
    CompileMainTargetRenderPassGroup maths renderFrame
      = (CompleSceneCameraRenderPassGroup maths renderFrame >>= fun sceneGroup =>
          CompileUICameraRenderPassGroup maths renderFrame >>= fun uiGroup =>
            Except.ok ⟨none, [sceneGroup, uiGroup]⟩) := by
  unfold CompileMainTargetRenderPassGroup
  simp only [ProcessChildTasks_cons, ProcessChildTasks_nil]
  cases CompleSceneCameraRenderPassGroup maths renderFrame with
  | error e => rfl
  | ok sceneGroup =>
    cases CompileUICameraRenderPassGroup maths renderFrame with
    | error e => rfl
    | ok uiGroup => rfl

/-! ## Visibility of the objects of the compiled passes -/

theorem isFromRetainedObject_of_mem_filterMap {maths : RenderMaths} {renderFrame : RenderFrame}
    {camera : RenderCamera} {layer : RenderLayer} {pass : ForwardRenderPasses}
    {keep : RenderObject → Bool} {x : RenderPassObject}
    (hx : x ∈ (CalculateVisibleObjects maths camera
        (GetLayerRenderObjects layer renderFrame.renderObjects)).filterMap
          (passObjectOf pass keep)) :
    x.IsFromRetainedObject maths renderFrame camera := by
  rw [mem_filterMap_passObjectOf] at hx
  obtain ⟨o, ho, _, m, hm, rfl⟩ := hx
  exact ⟨o, layer, ho, pass, m, hm, rfl⟩

theorem isFromRetainedObject_of_mem_expectedScenePasses {maths : RenderMaths}
    {renderFrame : RenderFrame} {pass : RenderPass}
    (hpass : pass ∈ expectedScenePasses maths renderFrame) :
    ∀ x ∈ pass.renderPassObjects,
      x.IsFromRetainedObject maths renderFrame renderFrame.renderCamera := by
  intro x hx
  simp only [expectedScenePasses, List.mem_append, List.mem_singleton, List.mem_map] at hpass
  rcases hpass with ((rfl | ⟨l, _, rfl⟩) | ⟨l, _, rfl⟩) | rfl
  · simp only [expectedBasePass, mem_OpaqueSort, ← CalculateVisibleObjects_standard] at hx
    exact isFromRetainedObject_of_mem_filterMap hx
  · simp only [expectedDirectionalLightPass, mem_OpaqueSort,
      ← CalculateVisibleObjects_standard] at hx
    exact isFromRetainedObject_of_mem_filterMap hx
  · simp only [expectedPointLightPass, mem_OpaqueSort, ← CalculateVisibleObjects_standard] at hx
    exact isFromRetainedObject_of_mem_filterMap hx
  · simp only [expectedTransparentPass, mem_TransparentSort,
      ← CalculateVisibleObjects_standard] at hx
    exact isFromRetainedObject_of_mem_filterMap hx

theorem scene_group_objects_retained {maths : RenderMaths} {renderFrame : RenderFrame}
    {group : CameraRenderPassGroup}
    (h : CompleSceneCameraRenderPassGroup maths renderFrame = Except.ok group) :
    ∀ pass ∈ group.renderPasses, ∀ x ∈ pass.renderPassObjects,
      x.IsFromRetainedObject maths renderFrame group.camera := by
  obtain ⟨hcam, hpasses⟩ := CompleSceneCameraRenderPassGroup_ok h
  intro pass hpass x hx
  rw [hcam]
  rcases hpasses pass hpass with hexp | rfl
  · exact isFromRetainedObject_of_mem_expectedScenePasses hexp x hx
  · cases hx

theorem ui_group_objects_retained {maths : RenderMaths} {renderFrame : RenderFrame}
    {group : CameraRenderPassGroup}
    (h : CompileUICameraRenderPassGroup maths renderFrame = Except.ok group) :
    ∀ pass ∈ group.renderPasses, ∀ x ∈ pass.renderPassObjects,
      x.IsFromRetainedObject maths renderFrame group.camera := by
  obtain ⟨_, rfl⟩ := CompileUICameraRenderPassGroup_ok h
  intro pass hpass x hx
  by_cases hnil : (visibleUIObjects maths renderFrame).filterMap
      (passObjectOf ForwardRenderPasses.k_transparent (fun _ => true)) = []
  · simp only [expectedUIPasses_of_nil hnil] at hpass
    cases hpass
  · simp only [expectedUIPasses_of_ne_nil hnil, List.mem_singleton] at hpass
    subst hpass
    simp only [(PrioritySort_perm _).mem_iff, ← CalculateVisibleObjects_ui] at hx
    exact isFromRetainedObject_of_mem_filterMap hx

/-- C12 (only retained objects are drawn): for every frame, every render pass object of
every pass of the groups the compiler returns is the render pass object of an object of
the frame that the visibility check of the culling camera of the group retained: the
render camera for the scene camera group and for the shadow map target groups, the UI
camera for the UI camera group, and, in the main target group, the camera of each of its
two camera groups. An object that the visibility check rejects is in none of the lists
the passes are made from. -/
theorem pass_objects_from_retained_objects (maths : RenderMaths) (renderFrame : RenderFrame) :
    (∀ group, CompleSceneCameraRenderPassGroup maths renderFrame = Except.ok group →
      ∀ pass ∈ group.renderPasses, ∀ x ∈ pass.renderPassObjects,
        x.IsFromRetainedObject maths renderFrame renderFrame.renderCamera)
    ∧ (∀ group, CompileUICameraRenderPassGroup maths renderFrame = Except.ok group →
      ∀ pass ∈ group.renderPasses, ∀ x ∈ pass.renderPassObjects,
        x.IsFromRetainedObject maths renderFrame (uiCamera renderFrame))
    ∧ (∀ directionalRenderLight group,
      CompileShadowMapTargetRenderPassGroup maths renderFrame directionalRenderLight
        = Except.ok group →
      ∀ cameraGroup ∈ group.cameraRenderPassGroups, ∀ pass ∈ cameraGroup.renderPasses,
        ∀ x ∈ pass.renderPassObjects,
          x.IsFromRetainedObject maths renderFrame renderFrame.renderCamera)
    ∧ (∀ group, CompileMainTargetRenderPassGroup maths renderFrame = Except.ok group →
      ∀ cameraGroup ∈ group.cameraRenderPassGroups, ∀ pass ∈ cameraGroup.renderPasses,
        ∀ x ∈ pass.renderPassObjects,
          x.IsFromRetainedObject maths renderFrame cameraGroup.camera)
    ∧ (∀ camera layer o, maths.IsVisible camera o = false →
        o ∉ CalculateVisibleObjects maths camera
          (GetLayerRenderObjects layer renderFrame.renderObjects)) := by
  refine ⟨?_, ?_, ?_, ?_, ?_⟩
  · intro group h pass hpass x hx
    have := scene_group_objects_retained h pass hpass x hx
    rwa [(CompleSceneCameraRenderPassGroup_ok h).1] at this
  · intro group h pass hpass x hx
    have := ui_group_objects_retained h pass hpass x hx
    rwa [(CompileUICameraRenderPassGroup_ok h).2] at this
  · intro light group h cameraGroup hcg pass hpass x hx
    have hl : light.shadowMapTarget.isSome = true := by
      by_contra hn
      unfold CompileShadowMapTargetRenderPassGroup at h
      rw [if_neg hn] at h
      cases h
    rw [CompileShadowMapTargetRenderPassGroup_eq maths renderFrame light hl] at h
    cases h
    simp only [expectedShadowTargetGroup, List.mem_singleton] at hcg
    subst hcg
    simp only [List.mem_singleton] at hpass
    subst hpass
    simp only [expectedShadowPassObjects, mem_OpaqueSort,
      ← CalculateVisibleObjects_standard] at hx
    exact isFromRetainedObject_of_mem_filterMap hx
  · intro group h cameraGroup hcg pass hpass x hx
    rw [CompileMainTargetRenderPassGroup_eq] at h
    cases hs : CompleSceneCameraRenderPassGroup maths renderFrame with
    | error e => rw [hs] at h; cases h
    | ok sceneGroup =>
      cases hu : CompileUICameraRenderPassGroup maths renderFrame with
      | error e => rw [hs, hu] at h; cases h
      | ok uiGroup =>
        rw [hs, hu] at h
        cases h
        simp only [List.mem_cons, List.mem_singleton, List.not_mem_nil, or_false] at hcg
        rcases hcg with rfl | rfl
        · exact scene_group_objects_retained hs pass hpass x hx
        · exact ui_group_objects_retained hu pass hpass x hx
  · intro camera layer o hfalse hmem
    unfold CalculateVisibleObjects at hmem
    rw [List.mem_filter] at hmem
    rw [hfalse] at hmem
    exact absurd hmem.2 (by simp)

/-- The objects of the main target group of the frame `frameLit` come from objects
retained by the visibility check of the camera of their group. -/
theorem pass_objects_from_retained_objects_witness :
    ∀ cameraGroup ∈ ([⟨frameLit.renderCamera, expectedScenePasses exampleMaths frameLit⟩,
        ⟨uiCamera frameLit, expectedUIPasses exampleMaths frameLit⟩]
          : List CameraRenderPassGroup),
      ∀ pass ∈ cameraGroup.renderPasses, ∀ x ∈ pass.renderPassObjects,
        x.IsFromRetainedObject exampleMaths frameLit cameraGroup.camera :=
  (pass_objects_from_retained_objects exampleMaths frameLit).2.2.2.1
    ⟨none, [⟨frameLit.renderCamera, expectedScenePasses exampleMaths frameLit⟩,
      ⟨uiCamera frameLit, expectedUIPasses exampleMaths frameLit⟩]⟩ (by decide)

/-! ## Lemmas: the render command processor -/

theorem GetShaderExtraData_of_mem {self : RenderCommandProcessor} {renderShader : RenderShader}
    (h : renderShader ∈ self.glShaders) :
    self.GetShaderExtraData renderShader = some renderShader := by
  unfold RenderCommandProcessor.GetShaderExtraData
  rw [if_pos h]

theorem GetTextureExtraData_of_mem {self : RenderCommandProcessor}
    {renderTexture : RenderTexture} (h : renderTexture ∈ self.glTextures) :
    self.GetTextureExtraData renderTexture = some renderTexture := by
  unfold RenderCommandProcessor.GetTextureExtraData
  rw [if_pos h]

theorem GetMeshExtraData_of_mem {self : RenderCommandProcessor} {renderMesh : RenderMesh}
    (h : renderMesh ∈ self.glMeshes) : self.GetMeshExtraData renderMesh = some renderMesh := by
  unfold RenderCommandProcessor.GetMeshExtraData
  rw [if_pos h]

/-- `Process` on a buffer with a single list runs the commands of that list. -/
theorem Process_single_list (resources : RenderResources) (self : RenderCommandProcessor)
    (commands : List RenderCommand) :
    self.Process resources ⟨[⟨commands⟩]⟩
      = commands.foldlM (fun self renderCommand => self.ProcessCommand resources renderCommand)
          self := by
  unfold RenderCommandProcessor.Process
  simp only [List.foldlM_cons, List.foldlM_nil]
  cases commands.foldlM
    (fun self renderCommand => self.ProcessCommand resources renderCommand) self <;> rfl

/-- `ApplyMaterial` from a state in which nothing is bound, for a material whose shader
and first texture are loaded. -/
theorem ApplyMaterial_from_reset (resources : RenderResources) (self : RenderCommandProcessor)
    (renderMaterial : RenderMaterial) (renderTexture : RenderTexture)
    (textures : List RenderTexture) (camera : GLCamera)
    (hstate : self.m_contextState = ⟨none, none, none, none, camera⟩)
    (htextures : resources.GetRenderTextures renderMaterial = renderTexture :: textures)
    (hshader : resources.GetRenderShader renderMaterial ∈ self.glShaders)
    (htexture : renderTexture ∈ self.glTextures) :
    self.ApplyMaterial resources renderMaterial
      = Except.ok
          { self with
            m_contextState := ⟨some (resources.GetRenderShader renderMaterial),
              some renderTexture, some renderMaterial, none, camera⟩
            glCalls := self.glCalls ++
              [GLCall.GLShader_Bind (resources.GetRenderShader renderMaterial),
                GLCall.GLTexture_Bind renderTexture,
                GLCall.GLMaterial_Apply renderMaterial camera
                  (some (resources.GetRenderShader renderMaterial))] } := by
  obtain ⟨cs, shaders, textures2, meshes, calls⟩ := self
  simp only at hstate hshader htexture
  subst hstate
  simp [RenderCommandProcessor.ApplyMaterial, RenderCommandProcessor.GetShaderExtraData,
    RenderCommandProcessor.GetTextureExtraData, RenderCommandProcessor.call, dereference,
    GLContextState.SetRenderMesh, GLContextState.SetRenderMaterial,
    GLContextState.SetRenderShader, GLContextState.SetRenderTexture, htextures, hshader,
    htexture, bind, Except.bind, pure, Except.pure]

/-- `ApplyMaterial` of the bound material changes nothing. -/
theorem ApplyMaterial_of_bound (resources : RenderResources) (self : RenderCommandProcessor)
    (renderMaterial : RenderMaterial)
    (h : self.m_contextState.renderMaterial = some renderMaterial) :
    self.ApplyMaterial resources renderMaterial = Except.ok self := by
  unfold RenderCommandProcessor.ApplyMaterial
  rw [if_neg (by rw [h]; simp)]
  rfl

/-! ## Scenario C -/

/-- C14 (counterexample): the command buffer of scenario C as the spec writes it, run on
a processor in which the shader and the first texture of M1 are loaded, does not complete:
no mesh is applied before `RenderInstance`, which reads the mesh binding, a null pointer
after `Begin` and `ApplyMaterial`, and calls `GetNumIndices` through it. -/
theorem scenario_C_without_mesh_null_dereference :
    exampleResources.GetRenderShader exampleM1 ∈ exampleProcessor.glShaders
    ∧ (exampleResources.GetRenderTextures exampleM1)[0]? = some ⟨2⟩
    ∧ (⟨2⟩ : RenderTexture) ∈ exampleProcessor.glTextures
    ∧ exampleProcessor.Process exampleResources scenarioCBuffer
        = Except.error GLFatal.nullDereference := by
  decide

theorem ApplyMesh_of_unbound (self : RenderCommandProcessor) (renderMesh : RenderMesh)
    (renderShader : RenderShader)
    (hmesh : self.m_contextState.renderMesh = none)
    (hshader : self.m_contextState.renderShader = some renderShader)
    (hloaded : renderMesh ∈ self.glMeshes) :
    self.ApplyMesh renderMesh
      = Except.ok
          { self with
            m_contextState := self.m_contextState.SetRenderMesh (some renderMesh)
            glCalls := self.glCalls ++
              [GLCall.GLMesh_Bind renderMesh (self.GetShaderExtraData renderShader)] } := by
  obtain ⟨cs, shaders, textures, meshes, calls⟩ := self
  simp only at hmesh hshader hloaded
  simp [RenderCommandProcessor.ApplyMesh, RenderCommandProcessor.GetMeshExtraData,
    RenderCommandProcessor.GetShaderExtraData, RenderCommandProcessor.call, dereference,
    GLContextState.SetRenderMesh, hmesh, hshader, hloaded, bind, Except.bind, pure, Except.pure]

/-- The draw call `RenderInstance` makes for a mesh: indexed when the mesh has indices. -/
theorem RenderInstance_of_bound (resources : RenderResources) (self : RenderCommandProcessor)
    (worldMatrix : Matrix4) (renderShader : RenderShader) (renderMesh : RenderMesh)
    (mode : GLenum)
    (hshader : self.m_contextState.renderShader = some renderShader)
    (hloaded : renderShader ∈ self.glShaders)
    (hmesh : self.m_contextState.renderMesh = some renderMesh)
    (hmode : ToGLPolygonType (resources.GetPolygonType renderMesh) = Except.ok mode) :
    self.RenderInstance resources worldMatrix
      = Except.ok
          { self with
            glCalls := self.glCalls ++
              [GLCall.SetUniform_wvpMat renderShader worldMatrix
                  self.m_contextState.camera.viewProjectionMatrix,
                GLCall.SetUniform_normalMat renderShader worldMatrix,
                if resources.GetNumIndices renderMesh > 0 then
                  GLCall.glDrawElements mode (resources.GetNumIndices renderMesh)
                else GLCall.glDrawArrays mode 0 (resources.GetNumVertices renderMesh)] } := by
  obtain ⟨cs, shaders, textures, meshes, calls⟩ := self
  simp only at hshader hloaded hmesh
  by_cases hn : resources.GetNumIndices renderMesh > 0
  · simp [RenderCommandProcessor.RenderInstance, RenderCommandProcessor.GetShaderExtraData,
      RenderCommandProcessor.call, dereference, hshader, hloaded, hmesh, hmode, hn, bind,
      Except.bind, pure, Except.pure]
  · simp [RenderCommandProcessor.RenderInstance, RenderCommandProcessor.GetShaderExtraData,
      RenderCommandProcessor.call, dereference, hshader, hloaded, hmesh, hmode, hn, bind,
      Except.bind, pure, Except.pure]

/-- C14 (amended scenario C): for every processor state, every material M1 with at least
one texture whose shader and first texture are loaded, and every loaded mesh of a known
polygon type, processing [Begin, ApplyMaterial(M1), ApplyMaterial(M1), ApplyMesh(mesh),
RenderInstance, End] completes without error; among the calls it adds there is exactly
one shader bind, the bind of the shader of M1, and exactly one draw call; the second
`ApplyMaterial` adds no call. -/
theorem scenario_C_with_mesh_one_bind_one_draw (resources : RenderResources)
    (self : RenderCommandProcessor) (M1 : RenderMaterial) (renderMesh : RenderMesh)
    (resolution : Vector2) (clearColour : Colour) (worldMatrix : Matrix4)
    (renderTexture : RenderTexture) (textures : List RenderTexture) (mode : GLenum)
    (htextures : resources.GetRenderTextures M1 = renderTexture :: textures)
    (hshader : resources.GetRenderShader M1 ∈ self.glShaders)
    (htexture : renderTexture ∈ self.glTextures)
    (hmesh : renderMesh ∈ self.glMeshes)
    (hmode : ToGLPolygonType (resources.GetPolygonType renderMesh) = Except.ok mode) :
    ∃ final newCalls,
      self.Process resources
          ⟨[⟨[RenderCommand.k_begin resolution clearColour, RenderCommand.k_applyMaterial M1,
            RenderCommand.k_applyMaterial M1, RenderCommand.k_applyMesh renderMesh,
            RenderCommand.k_renderInstance worldMatrix, RenderCommand.k_end]⟩]⟩
        = Except.ok final
      ∧ final.glCalls = self.glCalls ++ newCalls
      ∧ newCalls
          = [GLCall.glViewport 0 0 resolution.x resolution.y, GLCall.glColorMask,
              GLCall.glDepthMask, GLCall.glClearColor clearColour, GLCall.glClear,
              GLCall.glBlendEquation, GLCall.glDepthFunc,
              GLCall.GLShader_Bind (resources.GetRenderShader M1),
              GLCall.GLTexture_Bind renderTexture,
              GLCall.GLMaterial_Apply M1 GLCamera.unset (some (resources.GetRenderShader M1)),
              GLCall.GLMesh_Bind renderMesh (some (resources.GetRenderShader M1)),
              GLCall.SetUniform_wvpMat (resources.GetRenderShader M1) worldMatrix
                Matrix4.k_identity,
              GLCall.SetUniform_normalMat (resources.GetRenderShader M1) worldMatrix,
              if resources.GetNumIndices renderMesh > 0 then
                GLCall.glDrawElements mode (resources.GetNumIndices renderMesh)
              else GLCall.glDrawArrays mode 0 (resources.GetNumVertices renderMesh)]
      ∧ newCalls.filter GLCall.isShaderBind
          = [GLCall.GLShader_Bind (resources.GetRenderShader M1)]
      ∧ (newCalls.filter GLCall.isDraw).length = 1 := by
  have hrun : self.Process resources
      ⟨[⟨[RenderCommand.k_begin resolution clearColour, RenderCommand.k_applyMaterial M1,
        RenderCommand.k_applyMaterial M1, RenderCommand.k_applyMesh renderMesh,
        RenderCommand.k_renderInstance worldMatrix, RenderCommand.k_end]⟩]⟩
      = Except.ok
          { self with
            m_contextState := ⟨none, none, none, none, GLCamera.unset⟩
            glCalls := self.glCalls ++
              [GLCall.glViewport 0 0 resolution.x resolution.y, GLCall.glColorMask,
                GLCall.glDepthMask, GLCall.glClearColor clearColour, GLCall.glClear,
                GLCall.glBlendEquation, GLCall.glDepthFunc,
                GLCall.GLShader_Bind (resources.GetRenderShader M1),
                GLCall.GLTexture_Bind renderTexture,
                GLCall.GLMaterial_Apply M1 GLCamera.unset (some (resources.GetRenderShader M1)),
                GLCall.GLMesh_Bind renderMesh (some (resources.GetRenderShader M1)),
                GLCall.SetUniform_wvpMat (resources.GetRenderShader M1) worldMatrix
                  Matrix4.k_identity,
                GLCall.SetUniform_normalMat (resources.GetRenderShader M1) worldMatrix,
                if resources.GetNumIndices renderMesh > 0 then
                  GLCall.glDrawElements mode (resources.GetNumIndices renderMesh)
                else GLCall.glDrawArrays mode 0 (resources.GetNumVertices renderMesh)] } := by
    rw [Process_single_list]
    simp only [List.foldlM_cons, List.foldlM_nil, RenderCommandProcessor.ProcessCommand, pure,
      Except.pure, bind, Except.bind]
    rw [ApplyMaterial_from_reset resources (self.Begin resolution clearColour) M1
      renderTexture textures GLCamera.unset rfl htextures hshader htexture]
    simp only []
    rw [ApplyMaterial_of_bound resources _ M1 rfl]
    simp only []
    rw [ApplyMesh_of_unbound _ renderMesh (resources.GetRenderShader M1) rfl rfl
      (by exact hmesh)]
    simp only []
    rw [RenderInstance_of_bound resources _ worldMatrix (resources.GetRenderShader M1)
      renderMesh mode rfl (by exact hshader) rfl hmode]
    simp [RenderCommandProcessor.End, RenderCommandProcessor.Begin,
      RenderCommandProcessor.GetShaderExtraData, hshader, GLContextState.SetRenderMesh,
      GLContextState.Reset, GLCamera.unset]
  refine ⟨_, _, hrun, rfl, rfl, ?_, ?_⟩
  · by_cases hn : resources.GetNumIndices renderMesh > 0 <;>
      simp [List.filter_cons, GLCall.isShaderBind, hn]
  · by_cases hn : resources.GetNumIndices renderMesh > 0 <;>
      simp [List.filter_cons, GLCall.isDraw, hn]

/-- Scenario C with the mesh applied, on `exampleProcessor`. -/
theorem scenario_C_with_mesh_one_bind_one_draw_witness :
    ∃ final newCalls,
      exampleProcessor.Process exampleResources scenarioCBufferWithMesh = Except.ok final
      ∧ final.glCalls = exampleProcessor.glCalls ++ newCalls
      ∧ newCalls
          = [GLCall.glViewport 0 0 640 480, GLCall.glColorMask,
              GLCall.glDepthMask, GLCall.glClearColor ⟨0, 0, 0, 1⟩, GLCall.glClear,
              GLCall.glBlendEquation, GLCall.glDepthFunc,
              GLCall.GLShader_Bind (exampleResources.GetRenderShader exampleM1),
              GLCall.GLTexture_Bind ⟨2⟩,
              GLCall.GLMaterial_Apply exampleM1 GLCamera.unset
                (some (exampleResources.GetRenderShader exampleM1)),
              GLCall.GLMesh_Bind exampleMesh (some (exampleResources.GetRenderShader exampleM1)),
              GLCall.SetUniform_wvpMat (exampleResources.GetRenderShader exampleM1)
                (Matrix4.matrix 9) Matrix4.k_identity,
              GLCall.SetUniform_normalMat (exampleResources.GetRenderShader exampleM1)
                (Matrix4.matrix 9),
              if exampleResources.GetNumIndices exampleMesh > 0 then
                GLCall.glDrawElements GLenum.GL_TRIANGLES
                  (exampleResources.GetNumIndices exampleMesh)
              else GLCall.glDrawArrays GLenum.GL_TRIANGLES 0
                (exampleResources.GetNumVertices exampleMesh)]
      ∧ newCalls.filter GLCall.isShaderBind
          = [GLCall.GLShader_Bind (exampleResources.GetRenderShader exampleM1)]
      ∧ (newCalls.filter GLCall.isDraw).length = 1 :=
  scenario_C_with_mesh_one_bind_one_draw exampleResources exampleProcessor exampleM1
    exampleMesh ⟨640, 480⟩ ⟨0, 0, 0, 1⟩ (Matrix4.matrix 9) ⟨2⟩ [⟨3⟩] GLenum.GL_TRIANGLES
    (by decide) (by decide) (by decide) (by decide) (by decide)

/-! ## The binding slots of the context state -/

/-- C15 (state elision): for every processor state whose bound material is M,
`ApplyMaterial(M)`, called directly or through the switch of `Process`, returns the state
it was given: the five binding slots are unchanged and no call is added to the calls made
into the backend. -/
theorem ApplyMaterial_bound_material_is_noop (resources : RenderResources)
    (self : RenderCommandProcessor) (M : RenderMaterial)
    (h : self.m_contextState.renderMaterial = some M) :
    self.ApplyMaterial resources M = Except.ok self
    ∧ self.ProcessCommand resources (RenderCommand.k_applyMaterial M) = Except.ok self := by
  have := ApplyMaterial_of_bound resources self M h
  exact ⟨this, this⟩

/-- State elision on `exampleBoundProcessor`, whose bound material is `exampleM1`. -/
theorem ApplyMaterial_bound_material_is_noop_witness :
    exampleBoundProcessor.ApplyMaterial exampleResources exampleM1
        = Except.ok exampleBoundProcessor
    ∧ exampleBoundProcessor.ProcessCommand exampleResources
        (RenderCommand.k_applyMaterial exampleM1) = Except.ok exampleBoundProcessor :=
  ApplyMaterial_bound_material_is_noop exampleResources exampleBoundProcessor exampleM1
    (by decide)

/-- C16 (reset at Begin and End): from every processor state, after the `Begin` command
and after the `End` command the shader, texture, material and mesh slots are empty and
the camera slot holds the default constructed camera. -/
theorem Begin_End_reset_every_slot (resources : RenderResources)
    (self : RenderCommandProcessor) (resolution : Vector2) (clearColour : Colour) :
    (∃ final, self.ProcessCommand resources (RenderCommand.k_begin resolution clearColour)
        = Except.ok final
      ∧ final.m_contextState = ⟨none, none, none, none, GLCamera.unset⟩)
    ∧ (∃ final, self.ProcessCommand resources RenderCommand.k_end = Except.ok final
      ∧ final.m_contextState = ⟨none, none, none, none, GLCamera.unset⟩) :=
  ⟨⟨self.Begin resolution clearColour, rfl, rfl⟩, ⟨self.End, rfl, rfl⟩⟩

/-- C17 (counterexample): on `exampleBoundProcessor`, whose material slot holds
`exampleM1`, `LoadShader` and `LoadTexture` each leave the material slot empty. -/
theorem LoadShader_LoadTexture_reset_material :
    exampleBoundProcessor.m_contextState.renderMaterial = some exampleM1
    ∧ (exampleBoundProcessor.LoadShader ⟨1⟩).m_contextState.renderMaterial = none
    ∧ (exampleBoundProcessor.LoadTexture ⟨2⟩).m_contextState.renderMaterial = none := by
  decide

/-- C17 (amended): from every processor state, `LoadShader` empties the shader slot and
the material slot and leaves the texture, mesh and camera slots unchanged; `LoadTexture`
empties the texture slot and the material slot and leaves the shader, mesh and camera
slots unchanged; `LoadMesh` empties the mesh slot and leaves the shader, material,
texture and camera slots unchanged. -/
theorem Load_commands_slots (self : RenderCommandProcessor) (renderShader : RenderShader)
    (renderTexture : RenderTexture) (renderMesh : RenderMesh) :
    (self.LoadShader renderShader).m_contextState
        = { self.m_contextState with renderShader := none, renderMaterial := none }
    ∧ (self.LoadTexture renderTexture).m_contextState
        = { self.m_contextState with renderTexture := none, renderMaterial := none }
    ∧ (self.LoadMesh renderMesh).m_contextState
        = { self.m_contextState with renderMesh := none } :=
  ⟨rfl, rfl, rfl⟩

/-- C18 (the slot of an unloaded resource kind): from every processor state and for every
resource R, bound or not, loaded or not, after `UnloadShader(R)` the shader slot is
empty, after `UnloadTexture(R)` the texture slot is empty and after `UnloadMesh(R)` the
mesh slot is empty. -/
theorem Unload_commands_empty_slot (self : RenderCommandProcessor)
    (renderShader : RenderShader) (renderTexture : RenderTexture) (renderMesh : RenderMesh) :
    (self.UnloadShader renderShader).m_contextState.renderShader = none
    ∧ (self.UnloadTexture renderTexture).m_contextState.renderTexture = none
    ∧ (self.UnloadMesh renderMesh).m_contextState.renderMesh = none := by
  refine ⟨?_, ?_, ?_⟩
  · unfold RenderCommandProcessor.UnloadShader
    cases self.GetShaderExtraData renderShader <;> rfl
  · unfold RenderCommandProcessor.UnloadTexture
    cases self.GetTextureExtraData renderTexture <;> rfl
  · unfold RenderCommandProcessor.UnloadMesh
    cases self.GetMeshExtraData renderMesh <;> rfl

theorem bind_eq_ok {ε α β : Type} {x : Except ε α} {f : α → Except ε β} {y : β}
    (h : (x >>= f) = Except.ok y) : ∃ a, x = Except.ok a ∧ f a = Except.ok y := by
  cases x with
  | error e => cases h
  | ok a => exact ⟨a, rfl, h⟩

/-- When `ApplyMaterial` applies a material that is not the bound one and returns, its
last call is `GLMaterial::Apply` of that material with the camera of the state. -/
theorem ApplyMaterial_of_unbound_last_call {resources : RenderResources}
    {self final : RenderCommandProcessor} {M : RenderMaterial}
    (hM : self.m_contextState.renderMaterial ≠ some M)
    (h : self.ApplyMaterial resources M = Except.ok final) :
    final.m_contextState.renderMaterial = some M
    ∧ final.glCalls.getLast?
        = some (GLCall.GLMaterial_Apply M self.m_contextState.camera
            (self.GetShaderExtraData (resources.GetRenderShader M))) := by
  unfold RenderCommandProcessor.ApplyMaterial at h
  rw [if_pos (fun heq => hM heq.symm)] at h
  simp only [] at h
  obtain ⟨s1, hs1, h⟩ := bind_eq_ok h
  obtain ⟨t, _, h⟩ := bind_eq_ok h
  obtain ⟨s2, hs2, h⟩ := bind_eq_ok h
  have h1 : s1.m_contextState.renderMaterial = some M
      ∧ s1.m_contextState.camera = self.m_contextState.camera := by
    split at hs1
    · obtain ⟨b, _, hs1⟩ := bind_eq_ok hs1
      cases hs1
      exact ⟨rfl, rfl⟩
    · cases hs1
      exact ⟨rfl, rfl⟩
  have h2 : s2.m_contextState.renderMaterial = some M
      ∧ s2.m_contextState.camera = self.m_contextState.camera := by
    split at hs2
    · obtain ⟨b, _, hs2⟩ := bind_eq_ok hs2
      cases hs2
      exact h1
    · cases hs2
      exact h1
  cases h
  refine ⟨h2.1, ?_⟩
  simp [RenderCommandProcessor.call, h2.2]
  rfl

/-- C19 (the effect of ApplyCamera): from every processor state, after `ApplyCamera(c)` the
camera slot holds the position and the view projection matrix of c, the material slot is
empty, and the shader, texture and mesh slots are unchanged; so an `ApplyMaterial` that
follows, also of the material that was bound before, is not elided: when it returns, the
material is bound and its last call is `GLMaterial::Apply` with the new camera. -/
theorem ApplyCamera_sets_camera_resets_material (resources : RenderResources)
    (self : RenderCommandProcessor) (position : Vector3) (viewProjectionMatrix : Matrix4) :
    self.ProcessCommand resources (RenderCommand.k_applyCamera position viewProjectionMatrix)
        = Except.ok (self.ApplyCamera position viewProjectionMatrix)
    ∧ (self.ApplyCamera position viewProjectionMatrix).m_contextState
        = { self.m_contextState with
            renderMaterial := none, camera := ⟨position, viewProjectionMatrix⟩ }
    ∧ ∀ M final,
        (self.ApplyCamera position viewProjectionMatrix).ApplyMaterial resources M
          = Except.ok final →
        final.m_contextState.renderMaterial = some M
        ∧ final.glCalls.getLast?
            = some (GLCall.GLMaterial_Apply M ⟨position, viewProjectionMatrix⟩
                (self.GetShaderExtraData (resources.GetRenderShader M))) := by
  refine ⟨rfl, rfl, fun M final h => ?_⟩
  exact ApplyMaterial_of_unbound_last_call (by
    simp [RenderCommandProcessor.ApplyCamera, GLContextState.SetRenderMaterial,
      GLContextState.SetCamera]) h

/-- `ApplyCamera` on `exampleBoundProcessor`, then `ApplyMaterial` of the material that was
bound: the material is applied again, with the new camera. -/
theorem ApplyCamera_sets_camera_resets_material_witness :
    (exampleBoundProcessor.ApplyCamera ⟨7, 8, 9⟩ (Matrix4.matrix 3)).m_contextState
        = { exampleBoundProcessor.m_contextState with
            renderMaterial := none, camera := ⟨⟨7, 8, 9⟩, Matrix4.matrix 3⟩ }
    ∧ ∃ final, (exampleBoundProcessor.ApplyCamera ⟨7, 8, 9⟩ (Matrix4.matrix 3)).ApplyMaterial
          exampleResources exampleM1 = Except.ok final
        ∧ final.m_contextState.renderMaterial = some exampleM1
        ∧ final.glCalls.getLast?
            = some (GLCall.GLMaterial_Apply exampleM1 ⟨⟨7, 8, 9⟩, Matrix4.matrix 3⟩
                (exampleBoundProcessor.GetShaderExtraData
                  (exampleResources.GetRenderShader exampleM1))) :=
  ⟨(ApplyCamera_sets_camera_resets_material exampleResources exampleBoundProcessor ⟨7, 8, 9⟩
      (Matrix4.matrix 3)).2.1,
    ⟨⟨⟨some ⟨1⟩, some ⟨2⟩, some exampleM1, none, ⟨⟨7, 8, 9⟩, Matrix4.matrix 3⟩⟩,
        [⟨1⟩, ⟨5⟩], [⟨2⟩, ⟨3⟩, ⟨6⟩], [exampleMesh],
        [GLCall.GLShader_Bind ⟨1⟩, GLCall.GLTexture_Bind ⟨2⟩,
          GLCall.GLMaterial_Apply exampleM1 ⟨⟨7, 8, 9⟩, Matrix4.matrix 3⟩ (some ⟨1⟩)]⟩,
      by decide,
      (ApplyCamera_sets_camera_resets_material exampleResources exampleBoundProcessor ⟨7, 8, 9⟩
        (Matrix4.matrix 3)).2.2 exampleM1 _ (by decide)⟩⟩

/-! ## Fatal errors of the processor -/

theorem bind_eq_error {ε α β : Type} {x : Except ε α} {f : α → Except ε β} {e : ε}
    (h : (x >>= f) = Except.error e) :
    x = Except.error e ∨ ∃ a, x = Except.ok a ∧ f a = Except.error e := by
  cases x with
  | error e2 =>
    have h2 : (Except.error e2 : Except ε β) = Except.error e := h
    cases h2
    exact Or.inl rfl
  | ok a => exact Or.inr ⟨a, rfl, h⟩

theorem dereference_error {α : Type} {pointer : Option α} {e : GLFatal}
    (h : dereference pointer = Except.error e) : e = GLFatal.nullDereference := by
  cases pointer with
  | none => cases h; rfl
  | some a => cases h

theorem ToGLPolygonType_error {polygonType : PolygonType} {e : GLFatal}
    (h : ToGLPolygonType polygonType = Except.error e) :
    e = GLFatal.invalidPolygonType ∧ ∃ value, polygonType = PolygonType.invalid value := by
  cases polygonType with
  | k_triangle => cases h
  | k_triangleStrip => cases h
  | k_line => cases h
  | invalid value => cases h; exact ⟨rfl, value, rfl⟩

/-- The only ways `ApplyMaterial` can stop: a null backend object or an empty texture
list. -/
theorem ApplyMaterial_error {resources : RenderResources} {self : RenderCommandProcessor}
    {M : RenderMaterial} {e : GLFatal} (h : self.ApplyMaterial resources M = Except.error e) :
    e = GLFatal.nullDereference ∨ e = GLFatal.indexOutOfRange := by
  unfold RenderCommandProcessor.ApplyMaterial at h
  split at h
  · simp only [] at h
    rcases bind_eq_error h with h1 | ⟨s1, _, h⟩
    · split at h1
      · rcases bind_eq_error h1 with h1 | ⟨b, _, h1⟩
        · exact Or.inl (dereference_error h1)
        · cases h1
      · cases h1
    · rcases bind_eq_error h with h2 | ⟨t, _, h⟩
      · split at h2
        · cases h2
        · cases h2
          exact Or.inr rfl
      · rcases bind_eq_error h with h3 | ⟨s2, _, h⟩
        · split at h3
          · rcases bind_eq_error h3 with h3 | ⟨b, _, h3⟩
            · exact Or.inl (dereference_error h3)
            · cases h3
          · cases h3
        · cases h
  · cases h

/-- The only way `ApplyMesh` can stop: a null pointer. -/
theorem ApplyMesh_error {self : RenderCommandProcessor} {renderMesh : RenderMesh} {e : GLFatal}
    (h : self.ApplyMesh renderMesh = Except.error e) : e = GLFatal.nullDereference := by
  unfold RenderCommandProcessor.ApplyMesh at h
  split at h
  · simp only [] at h
    rcases bind_eq_error h with h1 | ⟨s, _, h⟩
    · exact dereference_error h1
    · rcases bind_eq_error h with h2 | ⟨b, _, h⟩
      · exact dereference_error h2
      · cases h
  · cases h

/-- The only ways `RenderInstance` can stop: a null pointer, or the polygon type of the
bound mesh is none of the three known ones. -/
theorem RenderInstance_error {resources : RenderResources} {self : RenderCommandProcessor}
    {worldMatrix : Matrix4} {e : GLFatal}
    (h : self.RenderInstance resources worldMatrix = Except.error e) :
    e = GLFatal.nullDereference
      ∨ (e = GLFatal.invalidPolygonType
        ∧ ∃ renderMesh value, self.m_contextState.renderMesh = some renderMesh
          ∧ resources.GetPolygonType renderMesh = PolygonType.invalid value) := by
  unfold RenderCommandProcessor.RenderInstance at h
  rcases bind_eq_error h with h1 | ⟨s, _, h⟩
  · exact Or.inl (dereference_error h1)
  · rcases bind_eq_error h with h2 | ⟨g, _, h⟩
    · exact Or.inl (dereference_error h2)
    · simp only [] at h
      rcases bind_eq_error h with h3 | ⟨renderMesh, hmesh, h⟩
      · exact Or.inl (dereference_error h3)
      · have hm : self.m_contextState.renderMesh = some renderMesh := by
          cases hsm : self.m_contextState.renderMesh with
          | none =>
            simp only [RenderCommandProcessor.call, hsm, dereference] at hmesh
            cases hmesh
          | some m =>
            simp only [RenderCommandProcessor.call, hsm, dereference] at hmesh
            cases hmesh
            rfl
        split at h
        · rcases bind_eq_error h with h4 | ⟨mode, _, h⟩
          · obtain ⟨he, value, hv⟩ := ToGLPolygonType_error h4
            exact Or.inr ⟨he, renderMesh, value, hm, hv⟩
          · cases h
        · rcases bind_eq_error h with h4 | ⟨mode, _, h⟩
          · obtain ⟨he, value, hv⟩ := ToGLPolygonType_error h4
            exact Or.inr ⟨he, renderMesh, value, hm, hv⟩
          · cases h

/-- A fold stops with an error when the list holds an element on which the step fails
in every state. -/
theorem foldlM_error_of_mem {σ α : Type} (step : σ → α → Except GLFatal σ) (c : α)
    (hc : ∀ s, ∃ e, step s c = Except.error e) :
    ∀ (l : List α), c ∈ l → ∀ s, ∃ e, l.foldlM step s = Except.error e := by
  intro l
  induction l with
  | nil => intro h; cases h
  | cons a l ih =>
    intro h s
    rw [List.foldlM_cons]
    cases ha : step s a with
    | error e => exact ⟨e, rfl⟩
    | ok s2 =>
      rcases List.mem_cons.mp h with rfl | hl
      · obtain ⟨e, he⟩ := hc s
        rw [he] at ha
        cases ha
      · exact ih hl s2

/-- C20 (unknown command types and polygon types): `Process` ends in a fatal error on
every buffer that holds a command of an unknown type, the switch of `Process` being fatal
on such a command; `ToGLPolygonType` is fatal on every polygon type other than triangle,
triangle strip and line, and returns the OpenGL mode for these three; a command of one
of the 14 known types never ends in the fatal branch of the switch; and no command ends
in the fatal branch of `ToGLPolygonType` when the polygon type of the bound mesh is
known. -/
theorem unknown_command_and_polygon_type_are_fatal (resources : RenderResources)
    (self : RenderCommandProcessor) :
    (∀ (renderCommandBuffer : RenderCommandBuffer) (renderCommandList : RenderCommandList)
        (type : Nat),
      renderCommandList ∈ renderCommandBuffer.queue →
      RenderCommand.unknown type ∈ renderCommandList.orderedList →
      ∃ e, self.Process resources renderCommandBuffer = Except.error e)
    ∧ (∀ type, self.ProcessCommand resources (RenderCommand.unknown type)
        = Except.error GLFatal.unknownRenderCommand)
    ∧ (∀ value, ToGLPolygonType (PolygonType.invalid value)
        = Except.error GLFatal.invalidPolygonType)
    ∧ ToGLPolygonType PolygonType.k_triangle = Except.ok GLenum.GL_TRIANGLES
    ∧ ToGLPolygonType PolygonType.k_triangleStrip = Except.ok GLenum.GL_TRIANGLE_STRIP
    ∧ ToGLPolygonType PolygonType.k_line = Except.ok GLenum.GL_LINES
    ∧ (∀ renderCommand, (∀ type, renderCommand ≠ RenderCommand.unknown type) →
        self.ProcessCommand resources renderCommand
          ≠ Except.error GLFatal.unknownRenderCommand)
    ∧ (∀ renderCommand,
        (∀ renderMesh value, self.m_contextState.renderMesh = some renderMesh →
          resources.GetPolygonType renderMesh ≠ PolygonType.invalid value) →
        self.ProcessCommand resources renderCommand
          ≠ Except.error GLFatal.invalidPolygonType) := by
  refine ⟨?_, fun _ => rfl, fun _ => rfl, rfl, rfl, rfl, ?_, ?_⟩
  · intro buffer list type hlist hcommand
    unfold RenderCommandProcessor.Process
    exact foldlM_error_of_mem _ list
      (fun s => foldlM_error_of_mem _ (RenderCommand.unknown type)
        (fun s2 => ⟨GLFatal.unknownRenderCommand, rfl⟩) list.orderedList hcommand s)
      buffer.queue hlist self
  · intro renderCommand hknown h
    cases renderCommand with
    | unknown type => exact hknown type rfl
    | k_applyMaterial M =>
      rcases ApplyMaterial_error h with he | he <;> cases he
    | k_applyMesh renderMesh => cases ApplyMesh_error h
    | k_renderInstance worldMatrix =>
      rcases RenderInstance_error h with he | ⟨he, _⟩ <;> cases he
    | _ => cases h
  · intro renderCommand hmesh h
    cases renderCommand with
    | unknown type => cases h
    | k_applyMaterial M =>
      rcases ApplyMaterial_error h with he | he <;> cases he
    | k_applyMesh renderMesh => cases ApplyMesh_error h
    | k_renderInstance worldMatrix =>
      rcases RenderInstance_error h with he | ⟨_, renderMesh, value, hm, hv⟩
      · cases he
      · exact hmesh renderMesh value hm hv
    | _ => cases h

/-- A buffer whose second list holds a command of an unknown type, after a `Begin`. -/
theorem unknown_command_and_polygon_type_are_fatal_witness :
    ∃ e, exampleProcessor.Process exampleResources
        ⟨[⟨[RenderCommand.k_begin ⟨640, 480⟩ ⟨0, 0, 0, 1⟩]⟩,
          ⟨[RenderCommand.k_end, RenderCommand.unknown 99]⟩]⟩ = Except.error e :=
  (unknown_command_and_polygon_type_are_fatal exampleResources exampleProcessor).1
    ⟨[⟨[RenderCommand.k_begin ⟨640, 480⟩ ⟨0, 0, 0, 1⟩]⟩,
      ⟨[RenderCommand.k_end, RenderCommand.unknown 99]⟩]⟩
    ⟨[RenderCommand.k_end, RenderCommand.unknown 99]⟩ 99 (by decide) (by decide)

/-! ## Lemmas: the order in which the scheduler runs the tasks -/

/-- Running a permutation of a list of tasks gives the same outcome when, on the vectors
that satisfy an invariant `Q` kept by the tasks, any two tasks of the list can be run in
either order. -/
theorem ProcessChildTasks_perm {α : Type} (Q : List α → Prop) {tasks tasks2 : List (Task α)}
    (hp : tasks.Perm tasks2) :
    (∀ t ∈ tasks, ∀ v w, Q v → t v = Except.ok w → Q w) →
    (∀ t1 ∈ tasks, ∀ t2 ∈ tasks, ∀ v, Q v → (t1 v >>= t2) = (t2 v >>= t1)) →
    ∀ v, Q v → ProcessChildTasks tasks v = ProcessChildTasks tasks2 v := by
  induction hp with
  | nil => intro _ _ v _; rfl
  | cons t _ ih =>
    intro hkeep hcomm v hv
    rw [ProcessChildTasks_cons, ProcessChildTasks_cons]
    cases ht : t v with
    | error e => rfl
    | ok w =>
      exact ih (fun t2 h2 => hkeep t2 (List.mem_cons_of_mem _ h2))
        (fun t1 h1 t2 h2 => hcomm t1 (List.mem_cons_of_mem _ h1) t2 (List.mem_cons_of_mem _ h2))
        w (hkeep t (List.mem_cons_self _ _) v w hv ht)
  | swap t1 t2 l =>
    intro _ hcomm v hv
    simp only [ProcessChildTasks_cons]
    have h := hcomm t2 (List.mem_cons_self _ _) t1
      (List.mem_cons_of_mem _ (List.mem_cons_self _ _)) v hv
    have h1 : (t2 v >>= fun w => t1 w >>= fun u => ProcessChildTasks l u)
        = ((t2 v >>= t1) >>= fun u => ProcessChildTasks l u) := by
      cases t2 v <;> rfl
    have h2 : (t1 v >>= fun w => t2 w >>= fun u => ProcessChildTasks l u)
        = ((t1 v >>= t2) >>= fun u => ProcessChildTasks l u) := by
      cases t1 v <;> rfl
    rw [h1, h2, h]
  | trans hp1 _ ih1 ih2 =>
    intro hkeep hcomm v hv
    rw [ih1 hkeep hcomm v hv]
    exact ih2 (fun t ht => hkeep t (hp1.mem_iff.mpr ht))
      (fun t1 h1 t2 h2 => hcomm t1 (hp1.mem_iff.mpr h1) t2 (hp1.mem_iff.mpr h2)) v hv

/-- Two writes into different slots can be made in either order. -/
theorem writeSlot_comm {α : Type} (v : List α) {i j : Nat} (x y : α) (hij : i ≠ j) :
    (writeSlot v i x >>= fun w => writeSlot w j y)
      = (writeSlot v j y >>= fun w => writeSlot w i x) := by
  by_cases hi : i < v.length
  · by_cases hj : j < v.length
    · simp [writeSlot, hi, hj, bind, Except.bind, List.set_comm x y v hij]
    · simp [writeSlot, hi, hj, bind, Except.bind]
  · by_cases hj : j < v.length
    · simp [writeSlot, hi, hj, bind, Except.bind]
    · simp [writeSlot, hi, hj, bind, Except.bind]

theorem mem_consecutiveWrites {α : Type} {xs : List α} {k : Nat} {t : Task α}
    (h : t ∈ consecutiveWrites k xs) : ∃ n x, xs[n]? = some x ∧ t = writeTask (k + n) x := by
  induction xs generalizing k with
  | nil => cases h
  | cons a xs ih =>
    rw [consecutiveWrites_cons] at h
    rcases List.mem_cons.mp h with rfl | h
    · exact ⟨0, a, by simp, rfl⟩
    · obtain ⟨n, x, hx, rfl⟩ := ih h
      exact ⟨n + 1, x, by simpa using hx, by rw [show k + 1 + n = k + (n + 1) by omega]⟩

/-- Any two of the tasks that write a list into consecutive slots can be run in either
order. -/
theorem consecutiveWrites_comm {α : Type} {xs : List α} {k : Nat} {t1 t2 : Task α}
    (h1 : t1 ∈ consecutiveWrites k xs) (h2 : t2 ∈ consecutiveWrites k xs) (v : List α) :
    (t1 v >>= t2) = (t2 v >>= t1) := by
  obtain ⟨n1, x1, hx1, rfl⟩ := mem_consecutiveWrites h1
  obtain ⟨n2, x2, hx2, rfl⟩ := mem_consecutiveWrites h2
  by_cases hn : n1 = n2
  · subst hn
    rw [hx1] at hx2
    cases hx2
    rfl
  · exact writeSlot_comm v x1 x2 (by omega)

/-- The tasks that write a list into consecutive slots give the same outcome in every
order. -/
theorem ProcessChildTasks_perm_consecutiveWrites {α : Type} {xs : List α} {k : Nat}
    {tasks : List (Task α)} (hp : tasks.Perm (consecutiveWrites k xs)) (v : List α) :
    ProcessChildTasks tasks v = ProcessChildTasks (consecutiveWrites k xs) v :=
  (ProcessChildTasks_perm (fun _ => True) hp.symm (fun _ _ _ _ _ _ => trivial)
    (fun _ h1 _ h2 v _ => consecutiveWrites_comm h1 h2 v) v trivial).symm

/-- A write into a slot of the vector and a task that computes a value and writes it into
another slot can be run in either order. -/
theorem writeSlot_comm_compute {α : Type} (c : Except Fatal α) (v : List α) {i j : Nat} (x : α)
    (hij : i ≠ j) (hi : i < v.length) :
    (writeSlot v i x >>= fun w => c >>= fun g => writeSlot w j g)
      = ((c >>= fun g => writeSlot v j g) >>= fun w => writeSlot w i x) := by
  cases c with
  | error e => simp [writeSlot, hi, bind, Except.bind]
  | ok g => exact writeSlot_comm v x g hij

theorem mainTargetTask_length {maths : RenderMaths} {renderFrame : RenderFrame} {i : Nat}
    {v w : List TargetRenderPassGroup}
    (h : mainTargetTask maths renderFrame i v = Except.ok w) : w.length = v.length := by
  unfold mainTargetTask at h
  obtain ⟨g, _, h⟩ := bind_eq_ok h
  exact writeSlot_length h

theorem shadowLights_length_le (renderFrame : RenderFrame) :
    (shadowLights renderFrame).length ≤ renderFrame.directionalRenderLights.length :=
  List.length_filter_le _ _

theorem CalcNumTargets_eq (maths : RenderMaths) (renderFrame : RenderFrame)
    (h : (shadowLights renderFrame).length < 4294967296) :
    CalcNumTargets renderFrame = (shadowLights renderFrame).length := by
  rw [← mainPassIndex_eq_CalcNumTargets maths renderFrame, mainPassIndex,
    shadowTargetTasks_eq maths renderFrame h]

theorem CompileMainTargetRenderPassGroup_tasks (maths : RenderMaths)
    (renderFrame : RenderFrame) :
    CompileMainTargetRenderPassGroup maths renderFrame
      = (ProcessChildTasks
            [mainSceneCameraGroupTask maths renderFrame 0,
              mainUICameraGroupTask maths renderFrame 1]
            (List.replicate 2 CameraRenderPassGroup.empty)
          >>= fun cameraRenderPassGroups => Except.ok ⟨none, cameraRenderPassGroups⟩) :=
  rfl

/-- The two tasks of the main target group give the same outcome in either order, when
the scene camera group is compiled without error. -/
theorem mainTasks_perm (maths : RenderMaths) (renderFrame : RenderFrame)
    (sceneGroup : CameraRenderPassGroup)
    (hscene : CompleSceneCameraRenderPassGroup maths renderFrame = Except.ok sceneGroup)
    {tasks : List (Task CameraRenderPassGroup)}
    (hp : tasks.Perm [mainSceneCameraGroupTask maths renderFrame 0,
      mainUICameraGroupTask maths renderFrame 1])
    (v : List CameraRenderPassGroup) (hv : v.length = 2) :
    ProcessChildTasks tasks v
      = ProcessChildTasks [mainSceneCameraGroupTask maths renderFrame 0,
          mainUICameraGroupTask maths renderFrame 1] v := by
  have hsceneTask : mainSceneCameraGroupTask maths renderFrame 0 = writeTask 0 sceneGroup := by
    funext u
    unfold mainSceneCameraGroupTask
    rw [hscene]
    rfl
  have hcomm : ∀ u : List CameraRenderPassGroup, u.length = 2 →
      (mainSceneCameraGroupTask maths renderFrame 0 u >>= mainUICameraGroupTask maths renderFrame 1)
        = (mainUICameraGroupTask maths renderFrame 1 u
            >>= mainSceneCameraGroupTask maths renderFrame 0) := by
    intro u hu
    rw [hsceneTask]
    exact writeSlot_comm_compute (CompileUICameraRenderPassGroup maths renderFrame) u sceneGroup
      (by decide) (by omega)
  refine (ProcessChildTasks_perm (fun u => u.length = 2) hp.symm ?_ ?_ v hv).symm
  · intro t ht u w hu htu
    simp only [List.mem_cons, List.mem_singleton, List.not_mem_nil, or_false] at ht
    rcases ht with rfl | rfl
    · unfold mainSceneCameraGroupTask at htu
      obtain ⟨g, _, htu⟩ := bind_eq_ok htu
      rw [writeSlot_length htu, hu]
    · unfold mainUICameraGroupTask at htu
      obtain ⟨g, _, htu⟩ := bind_eq_ok htu
      rw [writeSlot_length htu, hu]
  · intro t1 h1 t2 h2 u hu
    simp only [List.mem_cons, List.mem_singleton, List.not_mem_nil, or_false] at h1 h2
    rcases h1 with rfl | rfl <;> rcases h2 with rfl | rfl
    · rfl
    · exact hcomm u hu
    · exact (hcomm u hu).symm
    · rfl

/-- The tasks of `CompileTargetRenderPassGroups` give the same outcome in every order. -/
theorem targetTasks_perm (maths : RenderMaths) (renderFrame : RenderFrame)
    (h : (shadowLights renderFrame).length < 4294967296)
    {tasks : List (Task TargetRenderPassGroup)}
    (hp : tasks.Perm ((shadowTargetTasks maths renderFrame).1
      ++ [mainTargetTask maths renderFrame (mainPassIndex maths renderFrame)])) :
    ProcessChildTasks tasks
        (List.replicate (CalcNumTargets renderFrame) TargetRenderPassGroup.empty)
      = CompileTargetRenderPassGroups maths renderFrame := by
  have hN := CalcNumTargets_eq maths renderFrame h
  have hcomm : ∀ t ∈ (shadowTargetTasks maths renderFrame).1,
      ∀ u : List TargetRenderPassGroup, u.length = CalcNumTargets renderFrame →
        (t u >>= mainTargetTask maths renderFrame (mainPassIndex maths renderFrame))
          = (mainTargetTask maths renderFrame (mainPassIndex maths renderFrame) u >>= t) := by
    intro t ht u hu
    rw [shadowTargetTasks_eq maths renderFrame h] at ht
    obtain ⟨n, x, hx, rfl⟩ := mem_consecutiveWrites ht
    have hn : n < (shadowLights renderFrame).length := by
      by_contra hge
      rw [List.getElem?_eq_none (by simpa using Nat.le_of_not_lt hge)] at hx
      cases hx
    rw [mainPassIndex_eq_CalcNumTargets]
    exact writeSlot_comm_compute (CompileMainTargetRenderPassGroup maths renderFrame) u x
      (by omega) (by omega)
  refine (ProcessChildTasks_perm (fun u => u.length = CalcNumTargets renderFrame) hp.symm
    ?_ ?_ _ (by simp)).symm
  · intro t ht u w hu htu
    rcases List.mem_append.mp ht with ht | ht
    · rcases shadowTargetTasks_foldl_mem maths renderFrame _ _ _ t ht with hnil | ⟨i, l, rfl⟩
      · cases hnil
      · rw [shadowTargetTask_length htu, hu]
    · rw [List.mem_singleton] at ht
      subst ht
      rw [mainTargetTask_length htu, hu]
  · intro t1 h1 t2 h2 u hu
    rcases List.mem_append.mp h1 with h1 | h1 <;> rcases List.mem_append.mp h2 with h2 | h2
    · rw [shadowTargetTasks_eq maths renderFrame h] at h1 h2
      exact consecutiveWrites_comm h1 h2 u
    · rw [List.mem_singleton] at h2
      subst h2
      exact hcomm t1 h1 u hu
    · rw [List.mem_singleton] at h1
      subst h1
      exact (hcomm t2 h2 u hu).symm
    · rw [List.mem_singleton] at h1 h2
      subst h1
      subst h2
      rfl

/-! ## The order of the tasks -/

/-- C13 (two compilations of a frame): for every frame whose counts fit the `u32`
counters, in whatever order the scheduler runs the tasks of `CompileTargetRenderPassGroups`,
that is for every permutation of its task list, the run returns no list of target groups,
and neither does `CompileTargetRenderPassGroups` itself: the index the main target task
writes at is `CalcNumTargets`, the size of the vector, so its write is outside the
vector. There are no two results of which the numbers of target groups could be compared.
Below that write the tasks are independent of their order: the passes of the scene camera
group and the two camera groups of the main target are the same for every permutation of
their task lists. -/
theorem target_groups_returned_in_no_task_order (maths : RenderMaths)
    (renderFrame : RenderFrame)
    (h : 2 + renderFrame.directionalRenderLights.length + renderFrame.pointRenderLights.length
      < 4294967296) :
    (∀ tasks : List (Task TargetRenderPassGroup),
      tasks.Perm ((shadowTargetTasks maths renderFrame).1
        ++ [mainTargetTask maths renderFrame (mainPassIndex maths renderFrame)]) →
      ∀ targetRenderPassGroups,
        ProcessChildTasks tasks
            (List.replicate (CalcNumTargets renderFrame) TargetRenderPassGroup.empty)
          ≠ Except.ok targetRenderPassGroups)
    ∧ (∀ targetRenderPassGroups,
        CompileTargetRenderPassGroups maths renderFrame ≠ Except.ok targetRenderPassGroups)
    ∧ mainPassIndex maths renderFrame
        = (List.replicate (CalcNumTargets renderFrame) TargetRenderPassGroup.empty).length
    ∧ (∀ tasks : List (Task RenderPass),
      tasks.Perm (sceneTasks maths renderFrame
        (CalculateVisibleObjects maths renderFrame.renderCamera
          (GetLayerRenderObjects RenderLayer.k_standard renderFrame.renderObjects))).1 →
      (ProcessChildTasks tasks
          (List.replicate (CalcNumScenePasses renderFrame) RenderPass.empty)
        >>= fun renderPasses => Except.ok (⟨renderFrame.renderCamera, renderPasses⟩
          : CameraRenderPassGroup))
        = CompleSceneCameraRenderPassGroup maths renderFrame)
    ∧ (∀ tasks : List (Task CameraRenderPassGroup),
      tasks.Perm [mainSceneCameraGroupTask maths renderFrame 0,
        mainUICameraGroupTask maths renderFrame 1] →
      (ProcessChildTasks tasks (List.replicate 2 CameraRenderPassGroup.empty)
        >>= fun cameraRenderPassGroups => Except.ok (⟨none, cameraRenderPassGroups⟩
          : TargetRenderPassGroup))
        = CompileMainTargetRenderPassGroup maths renderFrame) := by
  have hnone : ∀ targetRenderPassGroups,
      CompileTargetRenderPassGroups maths renderFrame ≠ Except.ok targetRenderPassGroups := by
    intro groups hok
    obtain ⟨e, he⟩ := CompileTargetRenderPassGroups_error maths renderFrame
    rw [he] at hok
    cases hok
  refine ⟨?_, hnone, ?_, ?_, ?_⟩
  · intro tasks hp groups hok
    rw [targetTasks_perm maths renderFrame (by
      have := shadowLights_length_le renderFrame
      omega) hp] at hok
    exact hnone groups hok
  · rw [mainPassIndex_eq_CalcNumTargets, List.length_replicate]
  · intro tasks hp
    rw [CalculateVisibleObjects_standard, sceneTasks_eq maths renderFrame h] at hp
    rw [ProcessChildTasks_perm_consecutiveWrites hp]
    unfold CompleSceneCameraRenderPassGroup
    simp only []
    rw [CalculateVisibleObjects_standard, sceneTasks_eq maths renderFrame h]
    rfl
  · intro tasks hp
    rw [mainTasks_perm maths renderFrame _
      (CompleSceneCameraRenderPassGroup_eq maths renderFrame h) hp _ (by simp),
      CompileMainTargetRenderPassGroup_tasks]

/-- The task lists of the frame `frameLit`, each run in reverse order: the target tasks
return no list of groups; the scene passes and the camera groups of the main target are
the ones of the order of the list. -/
theorem target_groups_returned_in_no_task_order_witness :
    (∀ targetRenderPassGroups,
      ProcessChildTasks
          ((shadowTargetTasks exampleMaths frameLit).1
            ++ [mainTargetTask exampleMaths frameLit (mainPassIndex exampleMaths frameLit)]).reverse
          (List.replicate (CalcNumTargets frameLit) TargetRenderPassGroup.empty)
        ≠ Except.ok targetRenderPassGroups)
    ∧ (ProcessChildTasks
        (sceneTasks exampleMaths frameLit
          (CalculateVisibleObjects exampleMaths frameLit.renderCamera
            (GetLayerRenderObjects RenderLayer.k_standard frameLit.renderObjects))).1.reverse
        (List.replicate (CalcNumScenePasses frameLit) RenderPass.empty)
      >>= fun renderPasses => Except.ok (⟨frameLit.renderCamera, renderPasses⟩
        : CameraRenderPassGroup))
      = CompleSceneCameraRenderPassGroup exampleMaths frameLit
    ∧ (ProcessChildTasks
        [mainUICameraGroupTask exampleMaths frameLit 1,
          mainSceneCameraGroupTask exampleMaths frameLit 0]
        (List.replicate 2 CameraRenderPassGroup.empty)
      >>= fun cameraRenderPassGroups => Except.ok (⟨none, cameraRenderPassGroups⟩
        : TargetRenderPassGroup))
      = CompileMainTargetRenderPassGroup exampleMaths frameLit :=
  ⟨(target_groups_returned_in_no_task_order exampleMaths frameLit (by decide)).1 _
      (List.reverse_perm _),
    (target_groups_returned_in_no_task_order exampleMaths frameLit (by decide)).2.2.2.1 _
      (List.reverse_perm _),
    (target_groups_returned_in_no_task_order exampleMaths frameLit (by decide)).2.2.2.2 _
      (List.Perm.swap _ _ _)⟩

/-! ## The shape of the shadow map target group and of the main target group -/

/-- C24 (the shadow map target group): for every frame and every directional light with a
shadow map target, `CompileShadowMapTargetRenderPassGroup` returns a target group bound to
the shadow map target of that light, with exactly one camera group (of the default
constructed camera) with exactly one pass; the objects of the pass are, up to their
order, the render pass objects of the standard layer objects of the frame that the
visibility check of the render camera retains, that have shadow casting enabled and that
have a shadow map material, one for each such object. -/
theorem shadow_map_target_group_shape (maths : RenderMaths) (renderFrame : RenderFrame)
    (directionalRenderLight : DirectionalRenderLight)
    (h : directionalRenderLight.shadowMapTarget.isSome = true) :
    ∃ target pass,
      directionalRenderLight.shadowMapTarget = some target
      ∧ CompileShadowMapTargetRenderPassGroup maths renderFrame directionalRenderLight
          = Except.ok ⟨some target, [⟨RenderCamera.unset, [pass]⟩]⟩
      ∧ pass.light = RenderPassLight.none
      ∧ pass.renderPassObjects.Perm
          ((CalculateVisibleObjects maths renderFrame.renderCamera
              (renderFrame.renderObjects.filter
                (fun o => decide (o.renderLayer = RenderLayer.k_standard)))).filterMap
            (fun o =>
              if o.shouldCastShadows then
                (o.materialFor ForwardRenderPasses.k_shadowMap).map o.toRenderPassObject
              else none))
      ∧ ∀ x, x ∈ pass.renderPassObjects
          ↔ ∃ o ∈ renderFrame.renderObjects, o.renderLayer = RenderLayer.k_standard
              ∧ maths.IsVisible renderFrame.renderCamera o = true
              ∧ o.shouldCastShadows = true
              ∧ ∃ m, o.materialFor ForwardRenderPasses.k_shadowMap = some m
                  ∧ x = o.toRenderPassObject m := by
  obtain ⟨target, ht⟩ := Option.isSome_iff_exists.mp h
  refine ⟨target, ⟨RenderPassLight.none, expectedShadowPassObjects maths renderFrame⟩, ht, ?_,
    rfl, OpaqueSort_perm _ _ _, ?_⟩
  · rw [CompileShadowMapTargetRenderPassGroup_eq maths renderFrame directionalRenderLight h,
      expectedShadowTargetGroup, ht]
  · intro x
    simp only [expectedShadowPassObjects, mem_OpaqueSort, mem_filterMap_passObjectOf,
      mem_visibleStandardObjects]
    constructor
    · rintro ⟨o, ⟨ho, hl, hv⟩, hk, m, hm, rfl⟩
      exact ⟨o, ho, hl, hv, hk, m, hm, rfl⟩
    · rintro ⟨o, ho, hl, hv, hk, m, hm, rfl⟩
      exact ⟨o, ⟨ho, hl, hv⟩, hk, m, hm, rfl⟩

/-- The shadow map target group of `exampleShadowLight` in the frame `frameLit`. -/
theorem shadow_map_target_group_shape_witness :
    ∃ target pass,
      exampleShadowLight.shadowMapTarget = some target
      ∧ CompileShadowMapTargetRenderPassGroup exampleMaths frameLit exampleShadowLight
          = Except.ok ⟨some target, [⟨RenderCamera.unset, [pass]⟩]⟩
      ∧ pass.light = RenderPassLight.none
      ∧ pass.renderPassObjects.Perm
          ((CalculateVisibleObjects exampleMaths frameLit.renderCamera
              (frameLit.renderObjects.filter
                (fun o => decide (o.renderLayer = RenderLayer.k_standard)))).filterMap
            (fun o =>
              if o.shouldCastShadows then
                (o.materialFor ForwardRenderPasses.k_shadowMap).map o.toRenderPassObject
              else none))
      ∧ ∀ x, x ∈ pass.renderPassObjects
          ↔ ∃ o ∈ frameLit.renderObjects, o.renderLayer = RenderLayer.k_standard
              ∧ exampleMaths.IsVisible frameLit.renderCamera o = true
              ∧ o.shouldCastShadows = true
              ∧ ∃ m, o.materialFor ForwardRenderPasses.k_shadowMap = some m
                  ∧ x = o.toRenderPassObject m :=
  shadow_map_target_group_shape exampleMaths frameLit exampleShadowLight (by decide)

/-- C25 (the main target group): for every frame, a group returned by
`CompileMainTargetRenderPassGroup` has no render target and exactly two camera groups:
at index 0 the group `CompleSceneCameraRenderPassGroup` returns, whose camera is the render
camera of the frame, and at index 1 the group `CompileUICameraRenderPassGroup` returns,
whose camera is the UI camera; and the function returns such a group whenever these two
functions return. -/
theorem main_target_group_shape (maths : RenderMaths) (renderFrame : RenderFrame) :
    (∀ group, CompileMainTargetRenderPassGroup maths renderFrame = Except.ok group →
      group.renderTarget = none
      ∧ group.cameraRenderPassGroups.length = 2
      ∧ ∃ sceneGroup uiGroup,
          CompleSceneCameraRenderPassGroup maths renderFrame = Except.ok sceneGroup
          ∧ CompileUICameraRenderPassGroup maths renderFrame = Except.ok uiGroup
          ∧ group.cameraRenderPassGroups[0]? = some sceneGroup
          ∧ group.cameraRenderPassGroups[1]? = some uiGroup
          ∧ sceneGroup.camera = renderFrame.renderCamera
          ∧ uiGroup.camera = uiCamera renderFrame)
    ∧ (∀ sceneGroup uiGroup,
        CompleSceneCameraRenderPassGroup maths renderFrame = Except.ok sceneGroup →
        CompileUICameraRenderPassGroup maths renderFrame = Except.ok uiGroup →
        CompileMainTargetRenderPassGroup maths renderFrame
          = Except.ok ⟨none, [sceneGroup, uiGroup]⟩) := by
  constructor
  · intro group h
    rw [CompileMainTargetRenderPassGroup_eq] at h
    obtain ⟨sceneGroup, hs, h⟩ := bind_eq_ok h
    obtain ⟨uiGroup, hu, h⟩ := bind_eq_ok h
    cases h
    refine ⟨rfl, rfl, sceneGroup, uiGroup, hs, hu, rfl, rfl,
      (CompleSceneCameraRenderPassGroup_ok hs).1, ?_⟩
    rw [(CompileUICameraRenderPassGroup_ok hu).2]
  · intro sceneGroup uiGroup hs hu
    rw [CompileMainTargetRenderPassGroup_eq, hs, hu]
    rfl

/-- The main target group of the frame `frameLit`. -/
theorem main_target_group_shape_witness :
    CompileMainTargetRenderPassGroup exampleMaths frameLit
      = Except.ok ⟨none, [⟨frameLit.renderCamera, expectedScenePasses exampleMaths frameLit⟩,
          ⟨uiCamera frameLit, expectedUIPasses exampleMaths frameLit⟩]⟩ :=
  (main_target_group_shape exampleMaths frameLit).2 _ _ (by decide) (by decide)

/-! ## The pass variant of a directional light -/

theorem expectedScenePasses_directional (maths : RenderMaths) (renderFrame : RenderFrame)
    (i : Nat) (directionalLight : DirectionalRenderLight)
    (hi : renderFrame.directionalRenderLights[i]? = some directionalLight) :
    (expectedScenePasses maths renderFrame)[1 + i]?
      = some (expectedDirectionalLightPass maths renderFrame directionalLight) := by
  have hilt : i < renderFrame.directionalRenderLights.length := by
    by_contra hge
    rw [List.getElem?_eq_none (by omega)] at hi
    cases hi
  unfold expectedScenePasses
  rw [List.getElem?_append_left (by simp; omega),
    List.getElem?_append_left (by simp; omega),
    List.getElem?_append_right (by simp)]
  simp only [List.length_singleton]
  rw [show 1 + i - 1 = i by omega, List.getElem?_map, hi]
  rfl

/-- An object without a material for a pass can be taken out of the list without
changing what is gathered for the pass. -/
theorem filterMap_passObjectOf_remove (pass : ForwardRenderPasses) (keep : RenderObject → Bool)
    (before after : List RenderObject) (o : RenderObject) (h : o.materialFor pass = none) :
    (before ++ o :: after).filterMap (passObjectOf pass keep)
      = (before ++ after).filterMap (passObjectOf pass keep) := by
  have ho : passObjectOf pass keep o = none := by
    unfold passObjectOf
    rw [h]
    split <;> rfl
  rw [List.filterMap_append, List.filterMap_cons, ho, List.filterMap_append]

/-- C26 (the pass variant of a directional light): for every directional light and every
list of render objects, `GetDirectionalLightRenderPassObjects` resolves the objects
against the pass `k_directionalLightShadows` when the light has a shadow map target and
against the pass `k_directionalLight` when it has none; an object without a material for
the pass in use, whatever material it has for the other pass, contributes nothing:
taking it out of the list does not change the result; and, for a frame whose pass count
fits the `u32` counters, the pass of the i-th directional light in the scene camera
group, slot 1 + i, holds the objects so gathered from the visible standard objects, in
the order of `OpaqueSort`. -/
theorem directional_light_pass_variant (maths : RenderMaths) (renderFrame : RenderFrame)
    (renderObjects : List RenderObject) (directionalRenderLight : DirectionalRenderLight) :
    (directionalRenderLight.shadowMapTarget.isSome = true →
      GetDirectionalLightRenderPassObjects renderObjects directionalRenderLight
        = Except.ok (renderObjects.filterMap
            (fun o => (o.materialFor ForwardRenderPasses.k_directionalLightShadows).map
              o.toRenderPassObject))
      ∧ ∀ before after o, o.materialFor ForwardRenderPasses.k_directionalLightShadows = none →
          GetDirectionalLightRenderPassObjects (before ++ o :: after) directionalRenderLight
            = GetDirectionalLightRenderPassObjects (before ++ after) directionalRenderLight)
    ∧ (directionalRenderLight.shadowMapTarget.isSome = false →
      GetDirectionalLightRenderPassObjects renderObjects directionalRenderLight
        = Except.ok (renderObjects.filterMap
            (fun o => (o.materialFor ForwardRenderPasses.k_directionalLight).map
              o.toRenderPassObject))
      ∧ ∀ before after o, o.materialFor ForwardRenderPasses.k_directionalLight = none →
          GetDirectionalLightRenderPassObjects (before ++ o :: after) directionalRenderLight
            = GetDirectionalLightRenderPassObjects (before ++ after) directionalRenderLight)
    ∧ (2 + renderFrame.directionalRenderLights.length + renderFrame.pointRenderLights.length
        < 4294967296 →
      ∀ i, renderFrame.directionalRenderLights[i]? = some directionalRenderLight →
      ∃ group pass objects,
        CompleSceneCameraRenderPassGroup maths renderFrame = Except.ok group
        ∧ group.renderPasses[1 + i]? = some pass
        ∧ pass.light = RenderPassLight.directional directionalRenderLight
        ∧ GetDirectionalLightRenderPassObjects
            (CalculateVisibleObjects maths renderFrame.renderCamera
              (GetLayerRenderObjects RenderLayer.k_standard renderFrame.renderObjects))
            directionalRenderLight = Except.ok objects
        ∧ pass.renderPassObjects = OpaqueSort maths renderFrame.renderCamera objects) := by
  refine ⟨?_, ?_, ?_⟩
  · intro hl
    have hpass : directionalPassType directionalRenderLight
        = ForwardRenderPasses.k_directionalLightShadows := by
      unfold directionalPassType
      rw [if_pos hl]
    refine ⟨?_, fun before after o ho => ?_⟩
    · rw [GetDirectionalLightRenderPassObjects_eq, hpass]
      rfl
    · rw [GetDirectionalLightRenderPassObjects_eq, GetDirectionalLightRenderPassObjects_eq,
        hpass, filterMap_passObjectOf_remove _ _ _ _ _ ho]
  · intro hl
    have hpass : directionalPassType directionalRenderLight
        = ForwardRenderPasses.k_directionalLight := by
      unfold directionalPassType
      rw [if_neg (by rw [hl]; simp)]
    refine ⟨?_, fun before after o ho => ?_⟩
    · rw [GetDirectionalLightRenderPassObjects_eq, hpass]
      rfl
    · rw [GetDirectionalLightRenderPassObjects_eq, GetDirectionalLightRenderPassObjects_eq,
        hpass, filterMap_passObjectOf_remove _ _ _ _ _ ho]
  · intro hbound i hi
    refine ⟨_, expectedDirectionalLightPass maths renderFrame directionalRenderLight, _,
      CompleSceneCameraRenderPassGroup_eq maths renderFrame hbound,
      expectedScenePasses_directional maths renderFrame i directionalRenderLight hi, rfl,
      GetDirectionalLightRenderPassObjects_eq _ _, ?_⟩
    rw [CalculateVisibleObjects_standard]
    rfl

/-- The two variants at the frame `frameLit`: `exampleShadowLight` has a shadow map target,
`examplePlainLight` has none; `exampleLitObject` has a material for both directional
passes. -/
theorem directional_light_pass_variant_witness :
    GetDirectionalLightRenderPassObjects [exampleLitObject] exampleShadowLight
        = Except.ok [exampleLitObject.toRenderPassObject ⟨13⟩]
    ∧ GetDirectionalLightRenderPassObjects [exampleLitObject] examplePlainLight
        = Except.ok [exampleLitObject.toRenderPassObject ⟨12⟩]
    ∧ GetDirectionalLightRenderPassObjects ([exampleLitObject] ++ exampleGlassObject :: [])
          exampleShadowLight
        = GetDirectionalLightRenderPassObjects ([exampleLitObject] ++ []) exampleShadowLight :=
  ⟨((directional_light_pass_variant exampleMaths frameLit [exampleLitObject]
      exampleShadowLight).1 (by decide)).1,
    ((directional_light_pass_variant exampleMaths frameLit [exampleLitObject]
      examplePlainLight).2.1 (by decide)).1,
    ((directional_light_pass_variant exampleMaths frameLit [exampleLitObject]
      exampleShadowLight).1 (by decide)).2 [exampleLitObject] [] exampleGlassObject
        (by decide)⟩

/-! ## Layer separation -/

theorem GetLayerRenderObjects_restrictToLayer (renderFrame : RenderFrame)
    (renderLayer : RenderLayer) :
    GetLayerRenderObjects renderLayer (renderFrame.restrictToLayer renderLayer).renderObjects
      = GetLayerRenderObjects renderLayer renderFrame.renderObjects := by
  simp only [RenderFrame.restrictToLayer, GetLayerRenderObjects_eq_filter, List.filter_filter,
    Bool.and_self]

theorem isFromLayer_of_mem_expectedScenePasses {maths : RenderMaths}
    {renderFrame : RenderFrame} {pass : RenderPass}
    (hpass : pass ∈ expectedScenePasses maths renderFrame) :
    ∀ x ∈ pass.renderPassObjects, x.IsFromLayer renderFrame RenderLayer.k_standard := by
  intro x hx
  have key : ∀ (p : ForwardRenderPasses) (keep : RenderObject → Bool),
      x ∈ (visibleStandardObjects maths renderFrame).filterMap (passObjectOf p keep) →
      x.IsFromLayer renderFrame RenderLayer.k_standard := by
    intro p keep hmem
    rw [mem_filterMap_passObjectOf] at hmem
    obtain ⟨o, ho, _, m, hm, rfl⟩ := hmem
    rw [mem_visibleStandardObjects] at ho
    exact ⟨o, ho.1, ho.2.1, p, m, hm, rfl⟩
  simp only [expectedScenePasses, List.mem_append, List.mem_singleton, List.mem_map] at hpass
  rcases hpass with ((rfl | ⟨l, _, rfl⟩) | ⟨l, _, rfl⟩) | rfl
  · simp only [expectedBasePass, mem_OpaqueSort] at hx
    exact key _ _ hx
  · simp only [expectedDirectionalLightPass, mem_OpaqueSort] at hx
    exact key _ _ hx
  · simp only [expectedPointLightPass, mem_OpaqueSort] at hx
    exact key _ _ hx
  · simp only [expectedTransparentPass, mem_TransparentSort] at hx
    exact key _ _ hx

/-- C30 (layer separation): `GetLayerRenderObjects` returns the objects of the requested
layer, all of them and in their input order (the filter of the input by the layer); and
in the groups the compiler returns, every render pass object of a pass of the scene
camera group or of a shadow map target group is the render pass object of a standard
layer object of the frame, and every render pass object of the UI pass is the render
pass object of a UI layer object of the frame; moreover the scene camera group and every
shadow map target group are the same for the frame with its standard layer objects only,
and the UI camera group is the same for the frame with its UI layer objects only. -/
theorem layer_separation (maths : RenderMaths) (renderFrame : RenderFrame) :
    (∀ renderLayer renderObjects,
      GetLayerRenderObjects renderLayer renderObjects
        = renderObjects.filter (fun o => decide (o.renderLayer = renderLayer)))
    ∧ (∀ group, CompleSceneCameraRenderPassGroup maths renderFrame = Except.ok group →
      ∀ pass ∈ group.renderPasses, ∀ x ∈ pass.renderPassObjects,
        x.IsFromLayer renderFrame RenderLayer.k_standard)
    ∧ (∀ directionalRenderLight group,
      CompileShadowMapTargetRenderPassGroup maths renderFrame directionalRenderLight
        = Except.ok group →
      ∀ cameraGroup ∈ group.cameraRenderPassGroups, ∀ pass ∈ cameraGroup.renderPasses,
        ∀ x ∈ pass.renderPassObjects, x.IsFromLayer renderFrame RenderLayer.k_standard)
    ∧ (∀ group, CompileUICameraRenderPassGroup maths renderFrame = Except.ok group →
      ∀ pass ∈ group.renderPasses, ∀ x ∈ pass.renderPassObjects,
        x.IsFromLayer renderFrame RenderLayer.k_ui)
    ∧ CompleSceneCameraRenderPassGroup maths (renderFrame.restrictToLayer RenderLayer.k_standard)
        = CompleSceneCameraRenderPassGroup maths renderFrame
    ∧ (∀ directionalRenderLight,
      CompileShadowMapTargetRenderPassGroup maths
          (renderFrame.restrictToLayer RenderLayer.k_standard) directionalRenderLight
        = CompileShadowMapTargetRenderPassGroup maths renderFrame directionalRenderLight)
    ∧ CompileUICameraRenderPassGroup maths (renderFrame.restrictToLayer RenderLayer.k_ui)
        = CompileUICameraRenderPassGroup maths renderFrame := by
  refine ⟨GetLayerRenderObjects_eq_filter, ?_, ?_, ?_,
    ?_, fun directionalRenderLight => ?_, ?_⟩
  rotate_left 3
  · unfold CompleSceneCameraRenderPassGroup
    simp only [GetLayerRenderObjects_restrictToLayer]
    rfl
  · unfold CompileShadowMapTargetRenderPassGroup
    simp only [GetLayerRenderObjects_restrictToLayer]
    rfl
  · unfold CompileUICameraRenderPassGroup
    simp only [GetLayerRenderObjects_restrictToLayer]
    rfl
  · intro group h pass hpass x hx
    rcases (CompleSceneCameraRenderPassGroup_ok h).2 pass hpass with hexp | rfl
    · exact isFromLayer_of_mem_expectedScenePasses hexp x hx
    · cases hx
  · intro light group h cameraGroup hcg pass hpass x hx
    have hl : light.shadowMapTarget.isSome = true := by
      by_contra hn
      unfold CompileShadowMapTargetRenderPassGroup at h
      rw [if_neg hn] at h
      cases h
    rw [CompileShadowMapTargetRenderPassGroup_eq maths renderFrame light hl] at h
    cases h
    simp only [expectedShadowTargetGroup, List.mem_singleton] at hcg
    subst hcg
    simp only [List.mem_singleton] at hpass
    subst hpass
    simp only [expectedShadowPassObjects, mem_OpaqueSort, mem_filterMap_passObjectOf] at hx
    obtain ⟨o, ho, _, m, hm, rfl⟩ := hx
    rw [mem_visibleStandardObjects] at ho
    exact ⟨o, ho.1, ho.2.1, _, m, hm, rfl⟩
  · intro group h pass hpass x hx
    obtain ⟨_, rfl⟩ := CompileUICameraRenderPassGroup_ok h
    by_cases hnil : (visibleUIObjects maths renderFrame).filterMap
        (passObjectOf ForwardRenderPasses.k_transparent (fun _ => true)) = []
    · simp only [expectedUIPasses_of_nil hnil] at hpass
      cases hpass
    · simp only [expectedUIPasses_of_ne_nil hnil, List.mem_singleton] at hpass
      subst hpass
      simp only [(PrioritySort_perm _).mem_iff, mem_filterMap_passObjectOf] at hx
      obtain ⟨o, ho, _, m, hm, rfl⟩ := hx
      rw [mem_visibleUIObjects] at ho
      exact ⟨o, ho.1, ho.2.1, _, m, hm, rfl⟩

/-- The objects of the UI pass of the frame `frameLit` come from UI layer objects. -/
theorem layer_separation_witness :
    ∀ pass ∈ (⟨uiCamera frameLit, expectedUIPasses exampleMaths frameLit⟩
        : CameraRenderPassGroup).renderPasses,
      ∀ x ∈ pass.renderPassObjects, x.IsFromLayer frameLit RenderLayer.k_ui :=
  (layer_separation exampleMaths frameLit).2.2.2.1 _ (by decide)

/-! ## ApplyMaterial of a material that is not the bound one -/

/-- What `ApplyMaterial` returns for a material that is not the bound one: it returns
exactly when the material has a first texture and the shader and the texture that must be
bound have backend data, and then the state and the calls are the ones given here. -/
theorem ApplyMaterial_of_unbound_iff (resources : RenderResources)
    (self final : RenderCommandProcessor) (M : RenderMaterial)
    (hM : self.m_contextState.renderMaterial ≠ some M) :
    self.ApplyMaterial resources M = Except.ok final
    ↔ ∃ t, (resources.GetRenderTextures M)[0]? = some t
      ∧ (some (resources.GetRenderShader M) ≠ self.m_contextState.renderShader →
          resources.GetRenderShader M ∈ self.glShaders)
      ∧ (some t ≠ self.m_contextState.renderTexture → t ∈ self.glTextures)
      ∧ final =
        { m_contextState :=
            ⟨some (resources.GetRenderShader M), some t, some M, none,
              self.m_contextState.camera⟩
          glShaders := self.glShaders
          glTextures := self.glTextures
          glMeshes := self.glMeshes
          glCalls := self.glCalls
            ++ (if some (resources.GetRenderShader M) ≠ self.m_contextState.renderShader
                then [GLCall.GLShader_Bind (resources.GetRenderShader M)] else [])
            ++ (if some t ≠ self.m_contextState.renderTexture
                then [GLCall.GLTexture_Bind t] else [])
            ++ [GLCall.GLMaterial_Apply M self.m_contextState.camera
                  (self.GetShaderExtraData (resources.GetRenderShader M))] } := by
  obtain ⟨⟨shader, texture, material, mesh, camera⟩, glShaders, glTextures, glMeshes, glCalls⟩
    := self
  simp only at hM
  unfold RenderCommandProcessor.ApplyMaterial
  rw [if_pos (fun heq => hM heq.symm)]
  cases htex : (resources.GetRenderTextures M)[0]? with
  | none =>
    by_cases hs : some (resources.GetRenderShader M) = shader
    · simp [hs, htex, bind, Except.bind, pure, Except.pure, GLContextState.SetRenderMesh,
        GLContextState.SetRenderMaterial]
    · by_cases hsm : resources.GetRenderShader M ∈ glShaders
      · simp [hs, hsm, htex, bind, Except.bind, pure, Except.pure, dereference,
          GLContextState.SetRenderMesh, GLContextState.SetRenderMaterial,
          GLContextState.SetRenderShader, RenderCommandProcessor.GetShaderExtraData,
          RenderCommandProcessor.call]
      · simp [hs, hsm, htex, bind, Except.bind, pure, Except.pure, dereference,
          GLContextState.SetRenderMesh, GLContextState.SetRenderMaterial,
          GLContextState.SetRenderShader, RenderCommandProcessor.GetShaderExtraData,
          RenderCommandProcessor.call]
  | some t =>
    by_cases hs : some (resources.GetRenderShader M) = shader
    · by_cases ht : some t = texture
      · subst hs
        subst ht
        simp [htex, bind, Except.bind, pure, Except.pure, dereference,
          GLContextState.SetRenderMesh, GLContextState.SetRenderMaterial,
          RenderCommandProcessor.GetShaderExtraData, RenderCommandProcessor.call, eq_comm]
      · have ht2 : ¬ texture = some t := fun h => ht h.symm
        by_cases htm : t ∈ glTextures
        · subst hs
          simp [ht, ht2, htm, htex, bind, Except.bind, pure, Except.pure, dereference,
            GLContextState.SetRenderMesh, GLContextState.SetRenderMaterial,
            GLContextState.SetRenderTexture, RenderCommandProcessor.GetShaderExtraData,
            RenderCommandProcessor.GetTextureExtraData, RenderCommandProcessor.call, eq_comm]
        · subst hs
          simp [ht, htm, htex, bind, Except.bind, pure, Except.pure, dereference,
            GLContextState.SetRenderMesh, GLContextState.SetRenderMaterial,
            GLContextState.SetRenderTexture, RenderCommandProcessor.GetShaderExtraData,
            RenderCommandProcessor.GetTextureExtraData, RenderCommandProcessor.call]
    · have hs2 : ¬ shader = some (resources.GetRenderShader M) := fun h => hs h.symm
      by_cases hsm : resources.GetRenderShader M ∈ glShaders
      · by_cases ht : some t = texture
        · subst ht
          simp [hs, hs2, hsm, htex, bind, Except.bind, pure, Except.pure, dereference,
            GLContextState.SetRenderMesh, GLContextState.SetRenderMaterial,
            GLContextState.SetRenderShader, RenderCommandProcessor.GetShaderExtraData,
            RenderCommandProcessor.call, eq_comm]
        · have ht2 : ¬ texture = some t := fun h => ht h.symm
          by_cases htm : t ∈ glTextures
          · simp [hs, hs2, hsm, ht, ht2, htm, htex, bind, Except.bind, pure, Except.pure, dereference,
              GLContextState.SetRenderMesh, GLContextState.SetRenderMaterial,
              GLContextState.SetRenderShader, GLContextState.SetRenderTexture,
              RenderCommandProcessor.GetShaderExtraData,
              RenderCommandProcessor.GetTextureExtraData, RenderCommandProcessor.call, eq_comm]
          · simp [hs, hsm, ht, htm, htex, bind, Except.bind, pure, Except.pure, dereference,
              GLContextState.SetRenderMesh, GLContextState.SetRenderMaterial,
              GLContextState.SetRenderShader, GLContextState.SetRenderTexture,
              RenderCommandProcessor.GetShaderExtraData,
              RenderCommandProcessor.GetTextureExtraData, RenderCommandProcessor.call]
      · simp [hs, hsm, htex, bind, Except.bind, pure, Except.pure, dereference,
          GLContextState.SetRenderMesh, GLContextState.SetRenderMaterial,
          GLContextState.SetRenderShader, RenderCommandProcessor.GetShaderExtraData,
          RenderCommandProcessor.call]

/-- C27 (the effect of ApplyMaterial of a material that is not bound): for every processor
state whose material slot does not hold M, when `ApplyMaterial(M)` returns, the material
slot holds M, the mesh slot is empty, the shader slot holds the shader of M, the texture
slot holds the first texture of M, the camera slot and the loaded resources are unchanged,
and the calls made are: a shader bind, which is made if and only if the shader of M is not
the shader that was bound; then a texture bind, which is made if and only if the first
texture of M is not the texture that was bound; then `GLMaterial::Apply`. -/
theorem ApplyMaterial_unbound_material_effect (resources : RenderResources)
    (self final : RenderCommandProcessor) (M : RenderMaterial)
    (hM : self.m_contextState.renderMaterial ≠ some M)
    (h : self.ApplyMaterial resources M = Except.ok final) :
    final.m_contextState.renderMaterial = some M
    ∧ final.m_contextState.renderMesh = none
    ∧ final.m_contextState.renderShader = some (resources.GetRenderShader M)
    ∧ final.m_contextState.camera = self.m_contextState.camera
    ∧ final.glShaders = self.glShaders
    ∧ final.glTextures = self.glTextures
    ∧ final.glMeshes = self.glMeshes
    ∧ ∃ t calls, (resources.GetRenderTextures M)[0]? = some t
      ∧ final.m_contextState.renderTexture = some t
      ∧ final.glCalls = self.glCalls ++ calls
      ∧ calls
          = (if some (resources.GetRenderShader M) ≠ self.m_contextState.renderShader
              then [GLCall.GLShader_Bind (resources.GetRenderShader M)] else [])
            ++ (if some t ≠ self.m_contextState.renderTexture
              then [GLCall.GLTexture_Bind t] else [])
            ++ [GLCall.GLMaterial_Apply M self.m_contextState.camera
                  (self.GetShaderExtraData (resources.GetRenderShader M))]
      ∧ ((∃ glShader, GLCall.GLShader_Bind glShader ∈ calls)
          ↔ some (resources.GetRenderShader M) ≠ self.m_contextState.renderShader)
      ∧ ((∃ glTexture, GLCall.GLTexture_Bind glTexture ∈ calls)
          ↔ some t ≠ self.m_contextState.renderTexture) := by
  obtain ⟨t, ht, _, _, rfl⟩ := (ApplyMaterial_of_unbound_iff resources self final M hM).1 h
  refine ⟨rfl, rfl, rfl, rfl, rfl, rfl, rfl, t, _, ht, rfl, ?_, rfl, ?_, ?_⟩
  · simp only [List.append_assoc]
  · by_cases hs : some (resources.GetRenderShader M) = self.m_contextState.renderShader
    · by_cases hx : some t = self.m_contextState.renderTexture <;> simp [hs, hx]
    · by_cases hx : some t = self.m_contextState.renderTexture <;> simp [hs, hx]
  · by_cases hs : some (resources.GetRenderShader M) = self.m_contextState.renderShader
    · by_cases hx : some t = self.m_contextState.renderTexture <;> simp [hs, hx]
    · by_cases hx : some t = self.m_contextState.renderTexture <;> simp [hs, hx]

/-- `ApplyMaterial` of `exampleM1` on `exampleTextureBoundProcessor`, in which shader 5 and
texture 2, the first texture of `exampleM1`, are bound: the shader is bound, the texture
is not bound again. -/
theorem ApplyMaterial_unbound_material_effect_witness :
    ∃ final, exampleTextureBoundProcessor.ApplyMaterial exampleResources exampleM1
        = Except.ok final
      ∧ final.m_contextState
          = ⟨some ⟨1⟩, some ⟨2⟩, some exampleM1, none, ⟨⟨1, 2, 3⟩, Matrix4.matrix 4⟩⟩
      ∧ final.glCalls = [GLCall.GLShader_Bind ⟨1⟩,
          GLCall.GLMaterial_Apply exampleM1 ⟨⟨1, 2, 3⟩, Matrix4.matrix 4⟩ (some ⟨1⟩)]
      ∧ final.m_contextState.renderMaterial = some exampleM1
      ∧ final.m_contextState.renderMesh = none :=
  ⟨⟨⟨some ⟨1⟩, some ⟨2⟩, some exampleM1, none, ⟨⟨1, 2, 3⟩, Matrix4.matrix 4⟩⟩,
      [⟨1⟩, ⟨5⟩], [⟨2⟩, ⟨3⟩], [exampleMesh],
      [GLCall.GLShader_Bind ⟨1⟩,
        GLCall.GLMaterial_Apply exampleM1 ⟨⟨1, 2, 3⟩, Matrix4.matrix 4⟩ (some ⟨1⟩)]⟩,
    by decide, rfl, rfl,
    (ApplyMaterial_unbound_material_effect exampleResources exampleTextureBoundProcessor _
      exampleM1 (by decide) (by decide)).1,
    (ApplyMaterial_unbound_material_effect exampleResources exampleTextureBoundProcessor _
      exampleM1 (by decide) (by decide)).2.1⟩

/-- C29 (when ApplyMaterial returns): for every processor state whose material slot does
not hold M, `ApplyMaterial(M)` returns if and only if M has a first texture, the shader of
M has backend data when it is not the bound shader, and the first texture of M has backend
data when it is not the bound texture; and for a material whose texture list is empty it
stops with a fatal error, whatever is bound and loaded. -/
theorem ApplyMaterial_returns_iff (resources : RenderResources)
    (self : RenderCommandProcessor) (M : RenderMaterial)
    (hM : self.m_contextState.renderMaterial ≠ some M) :
    ((∃ final, self.ApplyMaterial resources M = Except.ok final)
      ↔ ∃ t, (resources.GetRenderTextures M)[0]? = some t
        ∧ (some (resources.GetRenderShader M) ≠ self.m_contextState.renderShader →
            (self.GetShaderExtraData (resources.GetRenderShader M)).isSome = true)
        ∧ (some t ≠ self.m_contextState.renderTexture →
            (self.GetTextureExtraData t).isSome = true))
    ∧ ((∃ final, self.ApplyMaterial resources M = Except.ok final) →
        resources.GetRenderTextures M ≠ [])
    ∧ (resources.GetRenderTextures M = [] →
        ∃ e, self.ApplyMaterial resources M = Except.error e) := by
  have hshader : ∀ s : RenderShader,
      (self.GetShaderExtraData s).isSome = true ↔ s ∈ self.glShaders := by
    intro s
    unfold RenderCommandProcessor.GetShaderExtraData
    split <;> simp [*]
  have htexture : ∀ t : RenderTexture,
      (self.GetTextureExtraData t).isSome = true ↔ t ∈ self.glTextures := by
    intro t
    unfold RenderCommandProcessor.GetTextureExtraData
    split <;> simp [*]
  have hnil : (∃ final, self.ApplyMaterial resources M = Except.ok final) →
      resources.GetRenderTextures M ≠ [] := by
    rintro ⟨final, h⟩ hempty
    obtain ⟨t, ht, _⟩ := (ApplyMaterial_of_unbound_iff resources self final M hM).1 h
    rw [hempty] at ht
    cases ht
  refine ⟨⟨?_, ?_⟩, hnil, ?_⟩
  · rintro ⟨final, h⟩
    obtain ⟨t, ht, hs, hx, _⟩ := (ApplyMaterial_of_unbound_iff resources self final M hM).1 h
    exact ⟨t, ht, fun hne => (hshader _).2 (hs hne), fun hne => (htexture _).2 (hx hne)⟩
  · rintro ⟨t, ht, hs, hx⟩
    exact ⟨_, (ApplyMaterial_of_unbound_iff resources self _ M hM).2
      ⟨t, ht, fun hne => (hshader _).1 (hs hne), fun hne => (htexture _).1 (hx hne), rfl⟩⟩
  · intro hempty
    cases hres : self.ApplyMaterial resources M with
    | error e => exact ⟨e, rfl⟩
    | ok final => exact absurd hempty (hnil ⟨final, hres⟩)

/-- On `exampleProcessor`, where nothing is bound: with `exampleResources` the shader and
the first texture of `exampleM1` are loaded and `ApplyMaterial` returns; with
`exampleNoTextureResources`, in which no material has a texture, it stops. -/
theorem ApplyMaterial_returns_iff_witness :
    (∃ final, exampleProcessor.ApplyMaterial exampleResources exampleM1 = Except.ok final)
    ∧ ∃ e, exampleProcessor.ApplyMaterial exampleNoTextureResources exampleM1
        = Except.error e :=
  ⟨(ApplyMaterial_returns_iff exampleResources exampleProcessor exampleM1 (by decide)).1.2
      ⟨⟨2⟩, by decide, fun _ => by decide, fun _ => by decide⟩,
    (ApplyMaterial_returns_iff exampleNoTextureResources exampleProcessor exampleM1
      (by decide)).2.2 (by decide)⟩

/-! ## The invariant of the context state -/

theorem ApplyMesh_contextState {self final : RenderCommandProcessor} {renderMesh : RenderMesh}
    (h : self.ApplyMesh renderMesh = Except.ok final) :
    final.m_contextState.renderMaterial = self.m_contextState.renderMaterial
    ∧ final.m_contextState.renderShader = self.m_contextState.renderShader
    ∧ final.m_contextState.renderTexture = self.m_contextState.renderTexture := by
  unfold RenderCommandProcessor.ApplyMesh at h
  split at h
  · simp only [] at h
    obtain ⟨s, _, h⟩ := bind_eq_ok h
    obtain ⟨b, _, h⟩ := bind_eq_ok h
    cases h
    exact ⟨rfl, rfl, rfl⟩
  · cases h
    exact ⟨rfl, rfl, rfl⟩

theorem RenderInstance_contextState {resources : RenderResources}
    {self final : RenderCommandProcessor} {worldMatrix : Matrix4}
    (h : self.RenderInstance resources worldMatrix = Except.ok final) :
    final.m_contextState = self.m_contextState := by
  unfold RenderCommandProcessor.RenderInstance at h
  obtain ⟨s, _, h⟩ := bind_eq_ok h
  obtain ⟨g, _, h⟩ := bind_eq_ok h
  simp only [] at h
  obtain ⟨m, _, h⟩ := bind_eq_ok h
  split at h
  · obtain ⟨mode, _, h⟩ := bind_eq_ok h
    cases h
    rfl
  · obtain ⟨mode, _, h⟩ := bind_eq_ok h
    cases h
    rfl

/-- A context state with an empty material slot is coherent. -/
theorem IsCoherent_of_no_material {resources : RenderResources} {contextState : GLContextState}
    (h : contextState.renderMaterial = none) : contextState.IsCoherent resources := by
  intro M hM
  rw [h] at hM
  cases hM

/-- A command that returns keeps the context state coherent. -/
theorem ProcessCommand_coherent {resources : RenderResources}
    {self final : RenderCommandProcessor} {renderCommand : RenderCommand}
    (hself : self.m_contextState.IsCoherent resources)
    (h : self.ProcessCommand resources renderCommand = Except.ok final) :
    final.m_contextState.IsCoherent resources := by
  cases renderCommand with
  | k_loadShader renderShader => cases h; exact IsCoherent_of_no_material rfl
  | k_loadTexture renderTexture => cases h; exact IsCoherent_of_no_material rfl
  | k_loadMaterialGroup => cases h; exact hself
  | k_loadMesh renderMesh => cases h; exact hself
  | k_begin resolution clearColour => cases h; exact IsCoherent_of_no_material rfl
  | k_applyCamera position viewProjectionMatrix =>
    cases h; exact IsCoherent_of_no_material rfl
  | k_applyMaterial renderMaterial =>
    have h : self.ApplyMaterial resources renderMaterial = Except.ok final := h
    by_cases hM : self.m_contextState.renderMaterial = some renderMaterial
    · rw [ApplyMaterial_of_bound resources self renderMaterial hM] at h
      cases h
      exact hself
    · obtain ⟨t, ht, _, _, rfl⟩ :=
        (ApplyMaterial_of_unbound_iff resources self final renderMaterial hM).1 h
      intro M hMat
      cases hMat
      exact ⟨rfl, t, ht, rfl⟩
  | k_applyMesh renderMesh =>
    have h : self.ApplyMesh renderMesh = Except.ok final := h
    obtain ⟨h1, h2, h3⟩ := ApplyMesh_contextState h
    intro M hMat
    rw [h1] at hMat
    rw [h2, h3]
    exact hself M hMat
  | k_renderInstance worldMatrix =>
    have h : self.RenderInstance resources worldMatrix = Except.ok final := h
    rw [RenderInstance_contextState h]
    exact hself
  | k_end => cases h; exact IsCoherent_of_no_material rfl
  | k_unloadShader renderShader =>
    have h : Except.ok (self.UnloadShader renderShader) = Except.ok final := h
    cases h
    refine IsCoherent_of_no_material ?_
    unfold RenderCommandProcessor.UnloadShader
    split <;> rfl
  | k_unloadTexture renderTexture =>
    have h : Except.ok (self.UnloadTexture renderTexture) = Except.ok final := h
    cases h
    refine IsCoherent_of_no_material ?_
    unfold RenderCommandProcessor.UnloadTexture
    split <;> rfl
  | k_unloadMaterialGroup => cases h; exact hself
  | k_unloadMesh renderMesh =>
    have h : Except.ok (self.UnloadMesh renderMesh) = Except.ok final := h
    cases h
    intro M hMat
    have hctx : (self.UnloadMesh renderMesh).m_contextState
        = self.m_contextState.SetRenderMesh none := by
      unfold RenderCommandProcessor.UnloadMesh
      split <;> rfl
    rw [hctx] at hMat ⊢
    exact hself M hMat
  | unknown type => cases h

/-- A list of commands that returns keeps the context state coherent. -/
theorem foldlM_ProcessCommand_coherent {resources : RenderResources}
    (renderCommands : List RenderCommand) :
    ∀ {self final : RenderCommandProcessor}, self.m_contextState.IsCoherent resources →
      renderCommands.foldlM (fun self renderCommand => self.ProcessCommand resources renderCommand)
        self = Except.ok final →
      final.m_contextState.IsCoherent resources := by
  induction renderCommands with
  | nil =>
    intro self final hself h
    cases h
    exact hself
  | cons c cs ih =>
    intro self final hself h
    rw [List.foldlM_cons] at h
    obtain ⟨next, hnext, h⟩ := bind_eq_ok h
    exact ih (ProcessCommand_coherent hself hnext) h

/-- A command buffer that returns keeps the context state coherent. -/
theorem Process_coherent {resources : RenderResources} (queue : List RenderCommandList) :
    ∀ {self final : RenderCommandProcessor}, self.m_contextState.IsCoherent resources →
      self.Process resources ⟨queue⟩ = Except.ok final →
      final.m_contextState.IsCoherent resources := by
  induction queue with
  | nil =>
    intro self final hself h
    cases h
    exact hself
  | cons l ls ih =>
    intro self final hself h
    unfold RenderCommandProcessor.Process at h
    rw [List.foldlM_cons] at h
    obtain ⟨next, hnext, h⟩ := bind_eq_ok h
    exact ih (foldlM_ProcessCommand_coherent l.orderedList hself hnext) h

/-- C28 (the invariant of the command processor): for every processor, every list of
commands and every command buffer, when the commands are processed from the reset context
state and all of them return, then in the state reached, if the material slot holds a
material M, the shader slot holds the shader of M and the texture slot holds the first
texture of M, which M has; so `ApplyMaterial(M)`, which does nothing there, leaves the
shader and the first texture of M bound. -/
theorem processor_invariant_material_shader_texture (resources : RenderResources)
    (self : RenderCommandProcessor) :
    (∀ (renderCommands : List RenderCommand) (final : RenderCommandProcessor),
      renderCommands.foldlM (fun self renderCommand => self.ProcessCommand resources renderCommand)
        { self with m_contextState := self.m_contextState.Reset } = Except.ok final →
      ∀ M, final.m_contextState.renderMaterial = some M →
        final.m_contextState.renderShader = some (resources.GetRenderShader M)
        ∧ (∃ t, (resources.GetRenderTextures M)[0]? = some t
            ∧ final.m_contextState.renderTexture = some t)
        ∧ final.ApplyMaterial resources M = Except.ok final)
    ∧ (∀ (renderCommandBuffer : RenderCommandBuffer) (final : RenderCommandProcessor),
      ({ self with m_contextState := self.m_contextState.Reset }
        : RenderCommandProcessor).Process resources renderCommandBuffer = Except.ok final →
      ∀ M, final.m_contextState.renderMaterial = some M →
        final.m_contextState.renderShader = some (resources.GetRenderShader M)
        ∧ (∃ t, (resources.GetRenderTextures M)[0]? = some t
            ∧ final.m_contextState.renderTexture = some t)
        ∧ final.ApplyMaterial resources M = Except.ok final) := by
  refine ⟨fun renderCommands final h M hM => ?_, fun renderCommandBuffer final h M hM => ?_⟩
  · have hc := foldlM_ProcessCommand_coherent renderCommands
      (IsCoherent_of_no_material rfl) h
    exact ⟨(hc M hM).1, (hc M hM).2, ApplyMaterial_of_bound resources final M hM⟩
  · have hc := Process_coherent renderCommandBuffer.queue (IsCoherent_of_no_material rfl) h
    exact ⟨(hc M hM).1, (hc M hM).2, ApplyMaterial_of_bound resources final M hM⟩

/-- The buffer `exampleOpenBuffer` leaves `exampleM1` bound, with its shader 1 and its
first texture 2. -/
theorem processor_invariant_material_shader_texture_witness :
    ∃ final, ({ exampleProcessor with m_contextState := exampleProcessor.m_contextState.Reset }
        : RenderCommandProcessor).Process exampleResources exampleOpenBuffer = Except.ok final
      ∧ final.m_contextState.renderMaterial = some exampleM1
      ∧ final.m_contextState.renderShader = some ⟨1⟩
      ∧ (∃ t, (exampleResources.GetRenderTextures exampleM1)[0]? = some t
            ∧ final.m_contextState.renderTexture = some t)
      ∧ final.ApplyMaterial exampleResources exampleM1 = Except.ok final :=
  ⟨⟨⟨some ⟨1⟩, some ⟨2⟩, some exampleM1, some exampleMesh, GLCamera.unset⟩,
      [⟨1⟩], [⟨2⟩, ⟨3⟩], [exampleMesh],
      [GLCall.glViewport 0 0 640 480, GLCall.glColorMask, GLCall.glDepthMask,
        GLCall.glClearColor ⟨0, 0, 0, 1⟩, GLCall.glClear, GLCall.glBlendEquation,
        GLCall.glDepthFunc, GLCall.GLShader_Bind ⟨1⟩, GLCall.GLTexture_Bind ⟨2⟩,
        GLCall.GLMaterial_Apply exampleM1 GLCamera.unset (some ⟨1⟩),
        GLCall.GLMesh_Bind exampleMesh (some ⟨1⟩),
        GLCall.SetUniform_wvpMat ⟨1⟩ (Matrix4.matrix 9) GLCamera.unset.viewProjectionMatrix,
        GLCall.SetUniform_normalMat ⟨1⟩ (Matrix4.matrix 9),
        GLCall.glDrawElements GLenum.GL_TRIANGLES 3]⟩,
    by decide, rfl,
    (processor_invariant_material_shader_texture exampleResources exampleProcessor).2
      exampleOpenBuffer _ (by decide) exampleM1 rfl⟩

/-! ## The sorts of the renderer -/

/-- The loop of `CullRenderables` appends the retained renderables, in their order. -/
theorem CullRenderables_foldl (pCullingPredicate : ICullingPredicate) (view : CameraView)
    (inaRenderCache : List RenderComponent) :
    ∀ outaRenderCache : List RenderComponent,
      inaRenderCache.foldl
        (fun outaRenderCache pRenderable =>
          if pRenderable.IsVisible = false then outaRenderCache
          else if pRenderable.IsCullingEnabled = false
              || pCullingPredicate.CullItem view pRenderable = false then
            outaRenderCache ++ [pRenderable]
          else outaRenderCache)
        outaRenderCache
      = outaRenderCache ++ inaRenderCache.filter
          (fun r => r.IsVisible && (!r.IsCullingEnabled || !pCullingPredicate.CullItem view r)) := by
  induction inaRenderCache with
  | nil => intro out; simp
  | cons r rs ih =>
    intro out
    rw [List.foldl_cons, ih]
    cases hv : r.IsVisible <;> cases hc : r.IsCullingEnabled
      <;> cases hp : pCullingPredicate.CullItem view r <;> simp [List.filter_cons, hv, hc, hp]

/-- C23 (camera culling is a stable filter): for every renderer, camera and list of
renderables, when a culling predicate is in use, `CullRenderables(camera, in, out)` appends
to `out`, in their input order, exactly the renderables of `in` that are visible and
either have culling disabled or are not culled by the predicate; so on an empty `out` the
output is that filter of the input, a subsequence of the input, and a renderable is in the
output exactly when it is in the input and is retained; and when no culling predicate is
in use the output is the input. -/
theorem CullRenderables_stable_filter (self : Renderer) (inpCamera : CameraComponent)
    (inaRenderCache : List RenderComponent) :
    (∀ pCullingPredicate, self.GetCullPredicate inpCamera = some pCullingPredicate →
      (∀ outaRenderCache,
        self.CullRenderables inpCamera inaRenderCache outaRenderCache
          = outaRenderCache ++ inaRenderCache.filter
              (fun r => r.IsVisible
                && (!r.IsCullingEnabled || !pCullingPredicate.CullItem inpCamera.view r)))
      ∧ self.CullRenderables inpCamera inaRenderCache []
          = inaRenderCache.filter
              (fun r => r.IsVisible
                && (!r.IsCullingEnabled || !pCullingPredicate.CullItem inpCamera.view r))
      ∧ List.Sublist (self.CullRenderables inpCamera inaRenderCache []) inaRenderCache
      ∧ ∀ r, r ∈ self.CullRenderables inpCamera inaRenderCache []
          ↔ r ∈ inaRenderCache ∧ r.IsVisible = true
            ∧ (r.IsCullingEnabled = false
              ∨ pCullingPredicate.CullItem inpCamera.view r = false))
    ∧ (self.GetCullPredicate inpCamera = none →
      ∀ outaRenderCache,
        self.CullRenderables inpCamera inaRenderCache outaRenderCache = inaRenderCache) := by
  refine ⟨fun p hp => ?_, fun hnone out => ?_⟩
  · have hall : ∀ out, self.CullRenderables inpCamera inaRenderCache out
        = out ++ inaRenderCache.filter
            (fun r => r.IsVisible && (!r.IsCullingEnabled || !p.CullItem inpCamera.view r)) := by
      intro out
      unfold Renderer.CullRenderables
      rw [hp]
      exact CullRenderables_foldl p inpCamera.view inaRenderCache out
    have hnil := hall []
    rw [List.nil_append] at hnil
    refine ⟨hall, hnil, ?_, fun r => ?_⟩
    · rw [hnil]
      exact List.filter_sublist _
    · rw [hnil, List.mem_filter]
      cases hv : r.IsVisible <;> cases hc : r.IsCullingEnabled
        <;> cases hcull : p.CullItem inpCamera.view r <;> simp
  · unfold Renderer.CullRenderables
    rw [hnone]

/-- The renderer after `Init` and a perspective camera: of a visible renderable, a hidden
one, one behind the camera and one behind the camera with culling disabled, the first and
the last are kept; a renderer without predicates keeps all four. -/
theorem CullRenderables_stable_filter_witness :
    exampleRenderer.CullRenderables exampleCameraComponent
        [exampleRenderableA, exampleRenderableHidden, exampleRenderableBehind,
          exampleRenderableUnculled] []
      = [exampleRenderableA, exampleRenderableUnculled]
    ∧ exampleBareRenderer.CullRenderables exampleCameraComponent
        [exampleRenderableA, exampleRenderableHidden, exampleRenderableBehind,
          exampleRenderableUnculled] []
      = [exampleRenderableA, exampleRenderableHidden, exampleRenderableBehind,
          exampleRenderableUnculled] :=
  ⟨(((CullRenderables_stable_filter exampleRenderer exampleCameraComponent
      [exampleRenderableA, exampleRenderableHidden, exampleRenderableBehind,
        exampleRenderableUnculled]).1 exampleCullPredicate rfl).2.1).trans (by decide),
    (CullRenderables_stable_filter exampleBareRenderer exampleCameraComponent
      [exampleRenderableA, exampleRenderableHidden, exampleRenderableBehind,
        exampleRenderableUnculled]).2 rfl []⟩

end ChilliSource
